import Mathlib

/-!
# Subscription service

A shallow embedding of the subscription service (domain package, use-case layer, the
PostgreSQL repository, the HTTP handlers and the seed generator) together with theorems about
its behaviour.

Conventions of the embedding:

* Go pointers that may be nil (`*string`, `*int`, `*time.Time`, `*uuid.UUID`) are `Option`.
* Go functions returning `(value, error)` return `Except GoError value`.
* Methods that talk to the outside world (database, clock, UUID generator) pass an explicit
  state; a method that mutates the struct behind a pointer argument returns the mutated struct.
* `time.Time` values are kept as their UTC civil fields; `Time.Before` compares the instants
  computed from those fields, as the Go library does.
* Calls of the random source are given by the raw values drawn: `rand.Intn(n)` is the draw
  modulo `n`.
-/

namespace Subs

/-! ## Values of the Go runtime and libraries -/

/-- The type uuid.UUID (sixteen bytes), read as a natural number; `uuid.Nil` is `0`. -/
abbrev UUID := Nat

/-- A time.Time value in UTC, given by its civil fields. -/
structure Time where
  year : Int
  month : Nat
  day : Nat
  hour : Nat
  minute : Nat
  second : Nat
  nsec : Nat
deriving DecidableEq, Repr

/-- The zero value time.Time (January 1, year 1, 00:00:00 UTC). -/
def Time.zero : Time := ⟨1, 1, 1, 0, 0, 0, 0⟩

/-- Gregorian leap-year rule (time.isLeap). -/
def isLeap (year : Int) : Bool :=
  year % 4 == 0 && (year % 100 != 0 || year % 400 == 0)

/-- Days from January 1 of year 1 to January 1 of `year` (proleptic Gregorian calendar). -/
def daysSinceEpoch (year : Int) : Int :=
  365 * (year - 1) + (year - 1) / 4 - (year - 1) / 100 + (year - 1) / 400

/-- The table time.daysBefore: days in a non-leap year before the first of the month. -/
def daysBefore (month : Nat) : Int :=
  match month with
  | 0 => 0
  | 1 => 0
  | 2 => 31
  | 3 => 59
  | 4 => 90
  | 5 => 120
  | 6 => 151
  | 7 => 181
  | 8 => 212
  | 9 => 243
  | 10 => 273
  | 11 => 304
  | 12 => 334
  | _ => 365

/-- Days before the first of a month within its year, leap day included. -/
def monthOffset (year : Int) (month : Nat) : Int :=
  daysBefore month + (if isLeap year && decide (3 ≤ month) then 1 else 0)

/-- Days from January 1 of year 1 to the given civil date, computed as in time.Date. -/
def Time.days (t : Time) : Int :=
  daysSinceEpoch t.year + daysBefore t.month
    + (if isLeap t.year && decide (3 ≤ t.month) then 1 else 0) + ((t.day : Int) - 1)

/-- Seconds from January 1 of year 1, 00:00:00 UTC, to the instant `t`. -/
def Time.sec (t : Time) : Int :=
  t.days * 86400 + (t.hour : Int) * 3600 + (t.minute : Int) * 60 + (t.second : Int)

/-- The method Time.Before: the instant `t` is strictly earlier than the instant `u`. -/
def Time.Before (t u : Time) : Bool :=
  decide (t.sec < u.sec) || (decide (t.sec = u.sec) && decide (t.nsec < u.nsec))

/-- The call time.Date(year, month, 1, 0, 0, 0, 0, time.UTC) for a month in 1..12. -/
def monthStart (year : Int) (month : Nat) : Time := ⟨year, month, 1, 0, 0, 0, 0⟩

/-- Go error values. `ErrSubscriptionNotFound` and `ErrInvalidInput` are the two package-level
sentinels of the domain package; `external` is an error value created by a library (time.Parse,
database/sql, the driver), identified by its message; `wrapf pre inner post` is the value of
`fmt.Errorf(pre + "%w" + post, inner)`. -/
inductive GoError where
  | ErrSubscriptionNotFound
  | ErrInvalidInput
  | external (msg : String)
  | wrapf (pre : String) (inner : GoError) (post : String)
deriving DecidableEq, Repr

/-- The method Error() of an error value. -/
def GoError.Error : GoError → String
  | .ErrSubscriptionNotFound => "subscription not found"
  | .ErrInvalidInput => "invalid input"
  | .external msg => msg
  | .wrapf pre inner post => pre ++ inner.Error ++ post

/-- The function errors.Is: `target` occurs in the Unwrap chain of `err`. -/
def errorsIs (err target : GoError) : Bool :=
  match err with
  | .wrapf pre inner post => (GoError.wrapf pre inner post == target) || errorsIs inner target
  | e => e == target

deriving instance DecidableEq for Except

/-! ## Period parser (internal/domain/subscription/errors.go) -/

/-- The byte is an ASCII decimal digit (time.isDigit). -/
def isDigit (c : Char) : Bool := decide ('0' ≤ c) && decide (c ≤ '9')

/-- Numeric value of an ASCII digit. -/
def digitVal (c : Char) : Nat := c.toNat - '0'.toNat

/-- The function time.quote, for text without characters that need escaping. -/
def quote (s : String) : String := "\"" ++ s ++ "\""

/-- The time.ParseError reporting that the text `valueElem` does not match the layout element
`layoutElem`. -/
def parseErrorAt (value valueElem layoutElem : String) : GoError :=
  .external ("parsing time " ++ quote value ++ " as " ++ quote "01-2006" ++ ": cannot parse "
    ++ quote valueElem ++ " as " ++ quote layoutElem)

/-- The time.ParseError carrying a message of its own. -/
def parseErrorWith (value message : String) : GoError :=
  .external ("parsing time " ++ quote value ++ message)

/-- The call time.Parse("01-2006", value): a two-digit month in 01..12, a hyphen, a four-digit
year and nothing else; the result is the first day of that month at 00:00:00 UTC. -/
def timeParseMonthYear (value : String) : Except GoError Time :=
  match value.toList with
  | m1 :: m2 :: rest =>
    if isDigit m1 && isDigit m2 then
      let month := digitVal m1 * 10 + digitVal m2
      if month = 0 ∨ 12 < month then
        .error (parseErrorWith value ": month out of range")
      else
        match rest with
        | '-' :: y1 :: y2 :: y3 :: y4 :: extra =>
          if isDigit y1 && isDigit y2 && isDigit y3 && isDigit y4 then
            if extra = [] then
              .ok (monthStart
                ((digitVal y1 * 1000 + digitVal y2 * 100 + digitVal y3 * 10 + digitVal y4 : Nat) : Int)
                month)
            else
              .error (parseErrorWith value (": extra text: " ++ quote (String.mk extra)))
          else
            .error (parseErrorAt value (String.mk (y1 :: y2 :: y3 :: y4 :: extra)) "2006")
        | '-' :: tail => .error (parseErrorAt value (String.mk tail) "2006")
        | _ => .error (parseErrorAt value (String.mk rest) "-")
    else
      .error (parseErrorAt value value "01")
  | _ => .error (parseErrorAt value value "01")

/-- ParseMonthYear parses a string of the form MM-YYYY into a time.Time. -/
def ParseMonthYear (dateStr : String) : Except GoError Time :=
  match timeParseMonthYear dateStr with
  | .error err => .error (.wrapf "invalid date format: " err "")
  | .ok parsedDate => .ok parsedDate

/-- The ASCII digit for a value below ten. -/
def digitChar (n : Nat) : Char := Char.ofNat (48 + n)

/-- The function time.appendInt: the decimal form of `x`, zero-padded to `width` digits after
an optional minus sign. The library has fast paths for two and four digits, kept here. -/
def appendInt (x : Int) (width : Nat) : List Char :=
  let sign : List Char := if x < 0 then ['-'] else []
  let u := x.natAbs
  if width = 2 ∧ u < 100 then
    sign ++ [digitChar (u / 10), digitChar (u % 10)]
  else if width = 4 ∧ u < 10000 then
    sign ++ [digitChar (u / 1000), digitChar (u / 100 % 10), digitChar (u / 10 % 10),
      digitChar (u % 10)]
  else
    sign ++ List.replicate (width - (Nat.toDigits 10 u).length) '0' ++ Nat.toDigits 10 u

/-- The call t.Format("01-2006"): the month as two digits, a hyphen, the year as at least
four digits. -/
def timeFormatMonthYear (t : Time) : String :=
  String.mk (appendInt (t.month : Int) 2 ++ ['-'] ++ appendInt t.year 4)

/-- FormatMonthYear formats a time.Time as MM-YYYY. -/
def FormatMonthYear (t : Time) : String := timeFormatMonthYear t

/-! ### The period format as the specification words it -/

/-- The number a string of decimal digits denotes. -/
def decimalValue (digits : List Char) : Nat :=
  digits.foldl (fun n c => 10 * n + (c.toNat - 48)) 0

/-- The month a seven-character period string names: its first two characters. -/
def monthOf (s : String) : Nat := decimalValue (s.toList.take 2)

/-- The year a seven-character period string names: its last four characters. -/
def yearOf (s : String) : Nat := decimalValue (s.toList.drop 3)

/-- A valid MM-YYYY string: exactly two digits naming a month 01..12, a hyphen, and exactly
four digits. -/
def isMonthYearString (s : String) : Bool :=
  match s.toList with
  | [m1, m2, sep, y1, y2, y3, y4] =>
    m1.isDigit && m2.isDigit && sep == '-' &&
    y1.isDigit && y2.isDigit && y3.isDigit && y4.isDigit &&
    decide (1 ≤ monthOf s) && decide (monthOf s ≤ 12)
  | _ => false

/-- A date-time normalized to the first day of its month at midnight UTC. -/
def normalizeToMonth (d : Time) : Time :=
  { d with day := 1, hour := 0, minute := 0, second := 0, nsec := 0 }

/-! ## Data model (internal/domain/subscription/model.go) -/

/-- Subscription is the persisted entity. -/
structure Subscription where
  ID : UUID
  ServiceName : String
  Price : Int
  UserID : UUID
  StartDate : Time
  EndDate : Option Time
  CreatedAt : Time
  UpdatedAt : Time
deriving DecidableEq, Repr

/-- CreateSubscriptionRequest is the body of a creation request. -/
structure CreateSubscriptionRequest where
  ServiceName : String
  Price : Int
  UserID : UUID
  StartDate : String
  EndDate : Option String
deriving DecidableEq, Repr

/-- UpdateSubscriptionRequest is the body of an update request; a JSON field that is
absent leaves the Go zero value (the empty string, or nil for the pointer fields). -/
structure UpdateSubscriptionRequest where
  ServiceName : String
  Price : Option Int
  StartDate : String
  EndDate : Option String
deriving DecidableEq, Repr

/-- SubscriptionFilter holds the parameters of the cost aggregation. -/
structure SubscriptionFilter where
  UserID : Option UUID
  ServiceName : Option String
  StartPeriod : Time
  EndPeriod : Time
deriving DecidableEq, Repr

/-- TotalCostResponse is the result of the cost aggregation. -/
structure TotalCostResponse where
  TotalCost : Int
deriving DecidableEq, Repr

/-! ## Repository interface (internal/domain/subscription/repository.go) -/

/-- The interface Repository over a store state `σ`. `Create` and `Update` receive a pointer
to the entity and may write to it, so they return the entity as they leave it together with
the error (nil is `none`). The method `List` comes last, after the signatures that mention
the list type. -/
structure Repository (σ : Type) where
  Create : Subscription → σ → (Subscription × Option GoError) × σ
  Get : UUID → σ → Except GoError Subscription × σ
  Update : Subscription → σ → (Subscription × Option GoError) × σ
  Delete : UUID → σ → Option GoError × σ
  CalculateTotalCost : SubscriptionFilter → σ → Except GoError Int × σ
  List : σ → Except GoError (List Subscription) × σ

/-! ## Subscription service (internal/usecase/subscription.go) -/

/-- SubscriptionService holds the repository it delegates to. -/
structure SubscriptionService (σ : Type) where
  repo : Repository σ

/-- NewSubscriptionService builds a service over a repository. -/
def NewSubscriptionService {σ : Type} (repo : Repository σ) : SubscriptionService σ := ⟨repo⟩

/-- The error returned by Create and Update when the end date precedes the start date. -/
def errEndBeforeStart : GoError :=
  .wrapf "" .ErrInvalidInput ": end date cannot be before start date"

/-- The end-date block of SubscriptionService.Create (lines 30-44): the end date to store,
or the error with which Create returns. -/
def createEndDate (reqEndDate : Option String) (startDate : Time) : Except GoError (Option Time) :=
  match reqEndDate with
  | none => .ok none
  | some e =>
    if e ≠ "" then
      match ParseMonthYear e with
      | .error err => .error (.wrapf "invalid end date: " err "")
      | .ok parsedEndDate =>
        if parsedEndDate.Before startDate then .error errEndBeforeStart
        else .ok (some parsedEndDate)
    else .ok none

/-- Lines 55-60 of SubscriptionService.Create: hand the entity to the repository and return
it as the repository leaves it, or the wrapped error. -/
def SubscriptionService.persistCreate {σ : Type} (s : SubscriptionService σ)
    (sub : Subscription) (w : σ) : Except GoError Subscription × σ :=
  match s.repo.Create sub w with
  | ((_, some err), w1) => (.error (.wrapf "failed to create subscription: " err ""), w1)
  | ((sub1, none), w1) => (.ok sub1, w1)

/-- The entity that SubscriptionService.Create builds (lines 46-53): id and timestamps are
left at their zero values. -/
def newSubscription (req : CreateSubscriptionRequest) (startDate : Time)
    (endDate : Option Time) : Subscription :=
  { ID := 0, ServiceName := req.ServiceName, Price := req.Price, UserID := req.UserID,
    StartDate := startDate, EndDate := endDate,
    CreatedAt := Time.zero, UpdatedAt := Time.zero }

/-- SubscriptionService.Create creates a new subscription. -/
def SubscriptionService.Create {σ : Type} (s : SubscriptionService σ)
    (req : CreateSubscriptionRequest) (w : σ) : Except GoError Subscription × σ :=
  match ParseMonthYear req.StartDate with
  | .error err => (.error (.wrapf "invalid start date: " err ""), w)
  | .ok startDate =>
    match createEndDate req.EndDate startDate with
    | .error err => (.error err, w)
    | .ok endDate =>
      s.persistCreate (newSubscription req startDate endDate) w

/-- SubscriptionService.Get returns the subscription with the given id. -/
def SubscriptionService.Get {σ : Type} (s : SubscriptionService σ) (id : UUID) (w : σ) :
    Except GoError Subscription × σ :=
  match s.repo.Get id w with
  | (.error err, w1) => (.error (.wrapf "failed to get subscription: " err ""), w1)
  | (.ok sub, w1) => (.ok sub, w1)

/-- Lines 81-83 of SubscriptionService.Update: the service name, when the request has one. -/
def setServiceName (sub : Subscription) (req : UpdateSubscriptionRequest) : Subscription :=
  if req.ServiceName ≠ "" then { sub with ServiceName := req.ServiceName } else sub

/-- Lines 85-87 of SubscriptionService.Update: the price, when the request has one. -/
def setPrice (sub : Subscription) (req : UpdateSubscriptionRequest) : Subscription :=
  match req.Price with
  | some p => { sub with Price := p }
  | none => sub

/-- Lines 89-95 of SubscriptionService.Update: the start date, when the request has one. -/
def setStartDate (sub : Subscription) (req : UpdateSubscriptionRequest) :
    Except GoError Subscription :=
  if req.StartDate ≠ "" then
    match ParseMonthYear req.StartDate with
    | .error err => .error (.wrapf "invalid start date: " err "")
    | .ok startDate => .ok { sub with StartDate := startDate }
  else .ok sub

/-- Lines 97-115 of SubscriptionService.Update: the end date, when the request has the field;
the empty string removes it. -/
def setEndDate (sub : Subscription) (req : UpdateSubscriptionRequest) :
    Except GoError Subscription :=
  match req.EndDate with
  | none => .ok sub
  | some e =>
    if e = "" then .ok { sub with EndDate := none }
    else
      match ParseMonthYear e with
      | .error err => .error (.wrapf "invalid end date: " err "")
      | .ok endDate =>
        if endDate.Before sub.StartDate then .error errEndBeforeStart
        else .ok { sub with EndDate := some endDate }

/-- The field-by-field part of SubscriptionService.Update (lines 80-115): the entity as it
stands when the repository is reached, or the error with which Update returns before that. -/
def applyUpdate (sub : Subscription) (req : UpdateSubscriptionRequest) :
    Except GoError Subscription :=
  match setStartDate (setPrice (setServiceName sub req) req) req with
  | .error err => .error err
  | .ok sub3 => setEndDate sub3 req

/-- Lines 117-122 of SubscriptionService.Update: hand the entity to the repository and return
it as the repository leaves it, or the wrapped error. -/
def SubscriptionService.persistUpdate {σ : Type} (s : SubscriptionService σ)
    (sub : Subscription) (w : σ) : Except GoError Subscription × σ :=
  match s.repo.Update sub w with
  | ((_, some err), w2) => (.error (.wrapf "failed to update subscription: " err ""), w2)
  | ((sub5, none), w2) => (.ok sub5, w2)

/-- SubscriptionService.Update updates an existing subscription. -/
def SubscriptionService.Update {σ : Type} (s : SubscriptionService σ) (id : UUID)
    (req : UpdateSubscriptionRequest) (w : σ) : Except GoError Subscription × σ :=
  match s.repo.Get id w with
  | (.error err, w1) => (.error (.wrapf "failed to get subscription for update: " err ""), w1)
  | (.ok sub, w1) =>
    match applyUpdate sub req with
    | .error err => (.error err, w1)
    | .ok sub4 => s.persistUpdate sub4 w1

/-- SubscriptionService.Delete removes the subscription with the given id. -/
def SubscriptionService.Delete {σ : Type} (s : SubscriptionService σ) (id : UUID) (w : σ) :
    Option GoError × σ :=
  match s.repo.Delete id w with
  | (some err, w1) => (some (.wrapf "failed to delete subscription: " err ""), w1)
  | (none, w1) => (none, w1)

/-- SubscriptionService.CalculateTotalCost computes the total cost over a period. -/
def SubscriptionService.CalculateTotalCost {σ : Type} (s : SubscriptionService σ)
    (filter : SubscriptionFilter) (w : σ) : Except GoError TotalCostResponse × σ :=
  match s.repo.CalculateTotalCost filter w with
  | (.error err, w1) => (.error (.wrapf "failed to calculate total cost: " err ""), w1)
  | (.ok totalCost, w1) => (.ok { TotalCost := totalCost }, w1)

/-- SubscriptionService.List returns all subscriptions. -/
def SubscriptionService.List {σ : Type} (s : SubscriptionService σ) (w : σ) :
    Except GoError (List Subscription) × σ :=
  match s.repo.List w with
  | (.error err, w1) => (.error (.wrapf "failed to list subscriptions: " err ""), w1)
  | (.ok subs, w1) => (.ok subs, w1)

/-! ## PostgreSQL repository (internal/repository/postgresql/subscription.go)

The repository runs against a `World`: the rows of table `subscriptions` and the sources of
outside behaviour (the clock read by `time.Now`, the generator behind `uuid.New`, and the
database driver, which may fail any round trip). Rows keep the entity values as written. -/

/-- State of the outside world seen by the repository. -/
structure World where
  rows : List Subscription
  clock : Nat → Time
  ticks : Nat
  uuids : Nat → UUID
  minted : Nat
  driver : Nat → Option String
  stmts : Nat
  rowsAffectedErr : Option String

/-- The next reading of time.Now(). -/
def World.now (w : World) : Time := w.clock w.ticks

/-- The world after one reading of the clock. -/
def World.tick (w : World) : World := { w with ticks := w.ticks + 1 }

/-- The next value of uuid.New(). -/
def World.newUUID (w : World) : UUID := w.uuids w.minted

/-- The world after one UUID has been generated. -/
def World.mint (w : World) : World := { w with minted := w.minted + 1 }

/-- The failure, if any, with which the driver answers the next round trip. -/
def World.fault (w : World) : Option GoError :=
  match w.driver w.stmts with
  | some msg => some (.external msg)
  | none => none

/-- The world after one round trip to the database. -/
def World.sent (w : World) : World := { w with stmts := w.stmts + 1 }

/-- The error sql.ErrNoRows. -/
def sqlErrNoRows : GoError := .external "sql: no rows in result set"

/-- SubscriptionRepository.Create inserts a new row; it assigns the id and both timestamps. -/
def SubscriptionRepository.Create (sub : Subscription) (w : World) :
    (Subscription × Option GoError) × World :=
  let sub1 := { sub with ID := w.newUUID }
  let w1 := w.mint
  let sub2 := { sub1 with CreatedAt := w1.now }
  let w2 := w1.tick
  let sub3 := { sub2 with UpdatedAt := w2.now }
  let w3 := w2.tick
  match w3.fault with
  | some err => ((sub3, some (.wrapf "failed to create subscription: " err "")), w3.sent)
  | none => ((sub3, none), { w3.sent with rows := w3.rows ++ [sub3] })

/-- SubscriptionRepository.Get returns the row with the given id. -/
def SubscriptionRepository.Get (id : UUID) (w : World) : Except GoError Subscription × World :=
  let fetched : Except GoError Subscription :=
    match w.fault with
    | some err => .error err
    | none =>
      match w.rows.find? (fun r => r.ID == id) with
      | none => .error sqlErrNoRows
      | some r => .ok r
  match fetched with
  | .error err =>
    if err.Error = "sql: no rows in result set" then (.error .ErrSubscriptionNotFound, w.sent)
    else (.error (.wrapf "failed to get subscription: " err ""), w.sent)
  | .ok sub => (.ok sub, w.sent)

/-- The statement `UPDATE subscriptions SET service_name, price, start_date, end_date,
updated_at WHERE id` applied to one row. -/
def updateRow (sub r : Subscription) : Subscription :=
  if r.ID == sub.ID then
    { r with ServiceName := sub.ServiceName, Price := sub.Price, StartDate := sub.StartDate,
             EndDate := sub.EndDate, UpdatedAt := sub.UpdatedAt }
  else r

/-- SubscriptionRepository.Update rewrites the row of an existing subscription; it refreshes
`UpdatedAt`. -/
def SubscriptionRepository.Update (sub : Subscription) (w : World) :
    (Subscription × Option GoError) × World :=
  let sub1 := { sub with UpdatedAt := w.now }
  let w1 := w.tick
  match w1.fault with
  | some err => ((sub1, some (.wrapf "failed to update subscription: " err "")), w1.sent)
  | none =>
    let rowsAffected := (w1.rows.filter (fun r => r.ID == sub1.ID)).length
    let w2 := { w1.sent with rows := w1.rows.map (updateRow sub1) }
    match w2.rowsAffectedErr with
    | some msg => ((sub1, some (.wrapf "failed to get rows affected: " (.external msg) "")), w2)
    | none =>
      if rowsAffected = 0 then ((sub1, some .ErrSubscriptionNotFound), w2)
      else ((sub1, none), w2)

/-- SubscriptionRepository.Delete removes the row with the given id. -/
def SubscriptionRepository.Delete (id : UUID) (w : World) : Option GoError × World :=
  match w.fault with
  | some err => (some (.wrapf "failed to delete subscription: " err ""), w.sent)
  | none =>
    let rowsAffected := (w.rows.filter (fun r => r.ID == id)).length
    let w1 := { w.sent with rows := w.rows.filter (fun r => !(r.ID == id)) }
    match w1.rowsAffectedErr with
    | some msg => (some (.wrapf "failed to get rows affected: " (.external msg) ""), w1)
    | none =>
      if rowsAffected = 0 then (some .ErrSubscriptionNotFound, w1)
      else (none, w1)

/-! ### Cost aggregation: the statement text and what it selects -/

/-- A value bound to a named parameter of a statement. -/
inductive SqlValue where
  | uuid (u : UUID)
  | text (s : String)
  | time (t : Time)
deriving DecidableEq, Repr

/-- The statement text and the map of named parameters built by lines 143-163 of
SubscriptionRepository.CalculateTotalCost. -/
def totalCostQuery (filter : SubscriptionFilter) : String × List (String × SqlValue) :=
  let q0 : String × List (String × SqlValue) :=
    ("SELECT COALESCE(SUM(price), 0) FROM subscriptions WHERE 1=1", [])
  let q1 :=
    match filter.UserID with
    | some u => (q0.1 ++ " AND user_id = :user_id", q0.2 ++ [("user_id", SqlValue.uuid u)])
    | none => q0
  let q2 :=
    match filter.ServiceName with
    | some n =>
      if n ≠ "" then
        (q1.1 ++ " AND service_name = :service_name", q1.2 ++ [("service_name", SqlValue.text n)])
      else q1
    | none => q1
  let q3 :=
    (q2.1 ++ " AND (start_date <= :end_period)",
     q2.2 ++ [("end_period", SqlValue.time filter.EndPeriod)])
  (q3.1 ++ " AND (end_date IS NULL OR end_date >= :start_period)",
   q3.2 ++ [("start_period", SqlValue.time filter.StartPeriod)])

/-- Columns of table `subscriptions` that a condition may mention. -/
inductive Column where
  | user_id
  | service_name
  | start_date
  | end_date
deriving DecidableEq, Repr

/-- A condition of a WHERE clause over one column and one named parameter. -/
inductive Cond where
  | eqParam (col : Column) (param : String)
  | leParam (col : Column) (param : String)
  | nullOrGeParam (col : Column) (param : String)
deriving DecidableEq, Repr

/-- The SQL text of the conditions the repository writes, with their reading. -/
def condTexts : List (String × Cond) :=
  [("user_id = :user_id", .eqParam .user_id "user_id"),
   ("service_name = :service_name", .eqParam .service_name "service_name"),
   ("(start_date <= :end_period)", .leParam .start_date "end_period"),
   ("(end_date IS NULL OR end_date >= :start_period)", .nullOrGeParam .end_date "start_period")]

/-- The rest of `text` after the leading `pre`, if `text` starts with `pre`. -/
def dropLeading : List Char → List Char → Option (List Char)
  | [], text => some text
  | _ :: _, [] => none
  | p :: pre, c :: text => if p = c then dropLeading pre text else none

/-- The first condition text that `text` starts with, and the rest of `text`. -/
def readCond (table : List (String × Cond)) (text : List Char) : Option (Cond × List Char) :=
  match table with
  | [] => none
  | (t, c) :: more =>
    match dropLeading t.toList text with
    | some rest => some (c, rest)
    | none => readCond more text

/-- Reads a sequence of ` AND <condition>` items up to the end of the text. -/
def readConds : Nat → List Char → Option (List Cond)
  | _, [] => some []
  | 0, _ :: _ => none
  | fuel + 1, c :: text =>
    match dropLeading " AND ".toList (c :: text) with
    | none => none
    | some rest =>
      match readCond condTexts rest with
      | none => none
      | some (cond, rest1) =>
        match readConds fuel rest1 with
        | none => none
        | some conds => some (cond :: conds)

/-- Reads a statement `SELECT COALESCE(SUM(price), 0) FROM subscriptions WHERE 1=1 AND ...`:
the conditions of its WHERE clause, or `none` when the text is not of that form. -/
def readTotalCostStatement (text : String) : Option (List Cond) :=
  match dropLeading "SELECT COALESCE(SUM(price), 0) FROM subscriptions WHERE 1=1".toList
      text.toList with
  | none => none
  | some rest => readConds rest.length rest

/-- The value bound to a named parameter. -/
def lookupParam (params : List (String × SqlValue)) (name : String) : Option SqlValue :=
  match params with
  | [] => none
  | (k, v) :: more => if k = name then some v else lookupParam more name

/-- The value of a column in a row; `none` is SQL NULL. -/
def columnValue (row : Subscription) : Column → Option SqlValue
  | .user_id => some (.uuid row.UserID)
  | .service_name => some (.text row.ServiceName)
  | .start_date => some (.time row.StartDate)
  | .end_date => row.EndDate.map SqlValue.time

/-- SQL `a <= b` on two non-null values (dates only). -/
def sqlLe : SqlValue → SqlValue → Bool
  | .time a, .time b => !b.Before a
  | _, _ => false

/-- Whether a row satisfies a condition; `none` when a named parameter has no binding. -/
def Cond.holds (params : List (String × SqlValue)) (row : Subscription) : Cond → Option Bool
  | .eqParam col name =>
    match lookupParam params name with
    | none => none
    | some v => some (columnValue row col == some v)
  | .leParam col name =>
    match lookupParam params name with
    | none => none
    | some v =>
      match columnValue row col with
      | none => some false
      | some c => some (sqlLe c v)
  | .nullOrGeParam col name =>
    match lookupParam params name with
    | none => none
    | some v =>
      match columnValue row col with
      | none => some true
      | some c => some (sqlLe v c)

/-- Whether a row satisfies every condition of a WHERE clause. -/
def selects (conds : List Cond) (params : List (String × SqlValue)) (row : Subscription) :
    Option Bool :=
  match conds with
  | [] => some true
  | c :: more =>
    match c.holds params row, selects more params row with
    | some a, some b => some (a && b)
    | _, _ => none

/-- The rows of a table that a WHERE clause selects; `none` when a parameter is unbound. -/
def selectRows (conds : List Cond) (params : List (String × SqlValue)) :
    List Subscription → Option (List Subscription)
  | [] => some []
  | row :: more =>
    match selects conds params row, selectRows conds params more with
    | some keep, some rest => some (if keep then row :: rest else rest)
    | _, _ => none

/-- SQL `SUM(price)`: NULL over no rows. -/
def sumPrice (rows : List Subscription) : Option Int :=
  match rows with
  | [] => none
  | _ :: _ => some (rows.map (fun r => r.Price)).sum

/-- SQL `COALESCE(v, d)`. -/
def coalesce (v : Option Int) (d : Int) : Int :=
  match v with
  | some x => x
  | none => d

/-- SubscriptionRepository.CalculateTotalCost computes the total price of the subscriptions
selected by the filter: it prepares the named statement, then runs it with the parameters. -/
def SubscriptionRepository.CalculateTotalCost (filter : SubscriptionFilter) (w : World) :
    Except GoError Int × World :=
  let q := totalCostQuery filter
  let prepared : Except GoError (List Cond) :=
    match w.fault with
    | some err => .error err
    | none =>
      match readTotalCostStatement q.1 with
      | none => .error (.external "pq: syntax error")
      | some conds => .ok conds
  let w1 := w.sent
  match prepared with
  | .error err => (.error (.wrapf "failed to prepare named statement: " err ""), w1)
  | .ok conds =>
    let got : Except GoError Int :=
      match w1.fault with
      | some err => .error err
      | none =>
        match selectRows conds q.2 w1.rows with
        | none => .error (.external "could not find name in map")
        | some rows => .ok (coalesce (sumPrice rows) 0)
    match got with
    | .error err => (.error (.wrapf "failed to calculate total cost: " err ""), w1.sent)
    | .ok totalCost => (.ok totalCost, w1.sent)

/-- SubscriptionRepository.List returns all rows. -/
def SubscriptionRepository.List (w : World) : Except GoError (List Subscription) × World :=
  match w.fault with
  | some err => (.error (.wrapf "failed to list subscriptions: " err ""), w.sent)
  | none => (.ok w.rows, w.sent)

/-- NewSubscriptionRepository: the PostgreSQL repository as an implementation of the
interface Repository. -/
def NewSubscriptionRepository : Repository World where
  Create := SubscriptionRepository.Create
  Get := SubscriptionRepository.Get
  Update := SubscriptionRepository.Update
  Delete := SubscriptionRepository.Delete
  CalculateTotalCost := SubscriptionRepository.CalculateTotalCost
  List := SubscriptionRepository.List

/-- The service of cmd/app/main.go: the use-case layer over the PostgreSQL repository. -/
def service : SubscriptionService World := NewSubscriptionService NewSubscriptionRepository

/-! ## The cost aggregation as the specification words it -/

/-- The overlap rule: `startDate ≤ endPeriod` and (`endDate` is null or
`endDate ≥ startPeriod`), where `a ≤ b` on instants is "b is not before a". -/
def overlapsWindow (filter : SubscriptionFilter) (row : Subscription) : Bool :=
  !(filter.EndPeriod.Before row.StartDate) &&
  (match row.EndDate with
   | none => true
   | some e => !(e.Before filter.StartPeriod))

/-- The service name the aggregation filters on: the filter's, when present and non-empty. -/
def appliedServiceName (filter : SubscriptionFilter) : Option String :=
  match filter.ServiceName with
  | some n => if n ≠ "" then some n else none
  | none => none

/-- A row counts for a filter: it overlaps the window and equals each applied filter value. -/
def matchesFilter (filter : SubscriptionFilter) (row : Subscription) : Bool :=
  overlapsWindow filter row &&
  (match filter.UserID with
   | some u => row.UserID == u
   | none => true) &&
  (match appliedServiceName filter with
   | some n => row.ServiceName == n
   | none => true)

/-- The total the aggregation is specified to return: the sum of `price` over the rows that
count, which is 0 when there is none. -/
def specTotalCost (filter : SubscriptionFilter) (rows : List Subscription) : Int :=
  ((rows.filter (matchesFilter filter)).map (fun r => r.Price)).sum

/-! ## HTTP handler (internal/delivery/http/handler/subscription.go) -/

/-- The value handed to respondWithJSON, before it is marshalled. -/
inductive Payload where
  | error (message : String)
  | subscription (sub : Subscription)
  | subscriptions (subs : List Subscription)
  | totalCost (r : TotalCostResponse)
  | empty
deriving DecidableEq, Repr

/-- What a handler writes: the status code and the JSON body. -/
structure Response where
  status : Nat
  payload : Payload
deriving DecidableEq, Repr

/-- The method time.Time.MarshalJSON succeeds only for years 0..9999. -/
def Time.marshals (t : Time) : Bool := decide (0 ≤ t.year) && decide (t.year < 10000)

/-- Whether json.Marshal succeeds on a subscription. -/
def Subscription.marshals (sub : Subscription) : Bool :=
  sub.StartDate.marshals &&
  (match sub.EndDate with
   | some t => t.marshals
   | none => true) &&
  sub.CreatedAt.marshals && sub.UpdatedAt.marshals

/-- Whether json.Marshal succeeds on a payload. -/
def Payload.marshals : Payload → Bool
  | .error _ => true
  | .subscription sub => sub.marshals
  | .subscriptions subs => subs.all Subscription.marshals
  | .totalCost _ => true
  | .empty => true

/-- respondWithJSON writes the payload with the given status, or a bare 500 when the payload
cannot be marshalled. -/
def respondWithJSON (code : Nat) (payload : Payload) : Response :=
  if payload.marshals then ⟨code, payload⟩ else ⟨500, .empty⟩

/-- respondWithError writes `{"error": message}` with the given status. -/
def respondWithError (code : Nat) (message : String) : Response :=
  respondWithJSON code (.error message)

/-- The failures validator.Struct reports for a CreateSubscriptionRequest, as (field, tag),
from the `validate` tags of the struct: `required` on ServiceName, UserID and StartDate,
`required,min=1` on Price. -/
def createRequestFailures (req : CreateSubscriptionRequest) : List (String × String) :=
  (if req.ServiceName = "" then [("ServiceName", "required")] else []) ++
  (if req.Price = 0 then [("Price", "required")]
   else if req.Price < 1 then [("Price", "min")] else []) ++
  (if req.UserID = 0 then [("UserID", "required")] else []) ++
  (if req.StartDate = "" then [("StartDate", "required")] else [])

/-- The error value of validator.Struct (a validator.ValidationErrors), nil when no tag
fails. -/
def validationError (struct : String) (failures : List (String × String)) : Option GoError :=
  match failures with
  | [] => none
  | _ :: _ =>
    some (.external (String.intercalate "\n" (failures.map (fun f =>
      "Key: '" ++ struct ++ "." ++ f.1 ++ "' Error:Field validation for '" ++ f.1
        ++ "' failed on the '" ++ f.2 ++ "' tag"))))

/-- SubscriptionHandler.Create handles a creation request; `body` is the outcome of decoding
the request body. -/
def SubscriptionHandler.Create {σ : Type} (service : SubscriptionService σ)
    (body : Except GoError CreateSubscriptionRequest) (w : σ) : Response × σ :=
  match body with
  | .error _ => (respondWithError 400 "Invalid request payload", w)
  | .ok req =>
    match validationError "CreateSubscriptionRequest" (createRequestFailures req) with
    | some err => (respondWithError 400 ("Validation error: " ++ err.Error), w)
    | none =>
      match service.Create req w with
      | (.error err, w1) =>
        if errorsIs err .ErrInvalidInput then (respondWithError 400 err.Error, w1)
        else (respondWithError 500 "Failed to create subscription", w1)
      | (.ok sub, w1) => (respondWithJSON 201 (.subscription sub), w1)

/-- The failures validator.Struct reports for an UpdateSubscriptionRequest, as (field, tag):
the tag `omitempty,min=1` on the pointer field Price skips a nil pointer and otherwise requires
the value to be at least 1. -/
def updateRequestFailures (req : UpdateSubscriptionRequest) : List (String × String) :=
  match req.Price with
  | some p => if p < 1 then [("Price", "min")] else []
  | none => []

/-- SubscriptionHandler.Get handles a read by id; `id` is the outcome of uuid.Parse on the
path parameter. -/
def SubscriptionHandler.Get {σ : Type} (service : SubscriptionService σ)
    (id : Except GoError UUID) (w : σ) : Response × σ :=
  match id with
  | .error _ => (respondWithError 400 "Invalid UUID format", w)
  | .ok id =>
    match service.Get id w with
    | (.error err, w1) =>
      if errorsIs err .ErrSubscriptionNotFound then
        (respondWithError 404 "Subscription not found", w1)
      else (respondWithError 500 "Failed to get subscription", w1)
    | (.ok sub, w1) => (respondWithJSON 200 (.subscription sub), w1)

/-- SubscriptionHandler.Update handles an update by id; `id` is the outcome of uuid.Parse on
the path parameter and `body` the outcome of decoding the request body. -/
def SubscriptionHandler.Update {σ : Type} (service : SubscriptionService σ)
    (id : Except GoError UUID) (body : Except GoError UpdateSubscriptionRequest) (w : σ) :
    Response × σ :=
  match id with
  | .error _ => (respondWithError 400 "Invalid UUID format", w)
  | .ok id =>
    match body with
    | .error _ => (respondWithError 400 "Invalid request payload", w)
    | .ok req =>
      match validationError "UpdateSubscriptionRequest" (updateRequestFailures req) with
      | some err => (respondWithError 400 ("Validation error: " ++ err.Error), w)
      | none =>
        match service.Update id req w with
        | (.error err, w1) =>
          if errorsIs err .ErrSubscriptionNotFound then
            (respondWithError 404 "Subscription not found", w1)
          else if errorsIs err .ErrInvalidInput then (respondWithError 400 err.Error, w1)
          else (respondWithError 500 "Failed to update subscription", w1)
        | (.ok sub, w1) => (respondWithJSON 200 (.subscription sub), w1)

/-- SubscriptionHandler.Delete handles a removal by id; `id` is the outcome of uuid.Parse on
the path parameter. On success it writes status 204 and no body. -/
def SubscriptionHandler.Delete {σ : Type} (service : SubscriptionService σ)
    (id : Except GoError UUID) (w : σ) : Response × σ :=
  match id with
  | .error _ => (respondWithError 400 "Invalid UUID format", w)
  | .ok id =>
    match service.Delete id w with
    | (some err, w1) =>
      if errorsIs err .ErrSubscriptionNotFound then
        (respondWithError 404 "Subscription not found", w1)
      else (respondWithError 500 "Failed to delete subscription", w1)
    | (none, w1) => (⟨204, .empty⟩, w1)

/-- The query parameters of a calculate-cost request, as `r.URL.Query().Get` returns them: a
parameter that is missing reads as the empty string. -/
structure CostQuery where
  user_id : String
  service_name : String
  start_period : String
  end_period : String
deriving DecidableEq, Repr

/-- Lines 288-296 of SubscriptionHandler.CalculateTotalCost: call the service with the filter
and write its total, or the generic failure. -/
def SubscriptionHandler.answerTotalCost {σ : Type} (service : SubscriptionService σ)
    (filter : SubscriptionFilter) (w : σ) : Response × σ :=
  match service.CalculateTotalCost filter w with
  | (.error _, w1) => (respondWithError 500 "Failed to calculate total cost", w1)
  | (.ok totalCost, w1) => (respondWithJSON 200 (.totalCost totalCost), w1)

/-- SubscriptionHandler.CalculateTotalCost handles a cost aggregation request; `uuidParse` is
the function uuid.Parse. -/
def SubscriptionHandler.CalculateTotalCost {σ : Type} (service : SubscriptionService σ)
    (uuidParse : String → Except GoError UUID) (q : CostQuery) (w : σ) : Response × σ :=
  let userID : Except Response (Option UUID) :=
    if q.user_id ≠ "" then
      match uuidParse q.user_id with
      | .error _ => .error (respondWithError 400 "Invalid user ID format")
      | .ok userID => .ok (some userID)
    else .ok none
  match userID with
  | .error resp => (resp, w)
  | .ok filterUserID =>
    let filterServiceName : Option String :=
      if q.service_name ≠ "" then some q.service_name else none
    if q.start_period = "" then (respondWithError 400 "Start period is required", w)
    else if q.end_period = "" then (respondWithError 400 "End period is required", w)
    else
      match ParseMonthYear q.start_period with
      | .error _ => (respondWithError 400 "Invalid start period format", w)
      | .ok startPeriod =>
        match ParseMonthYear q.end_period with
        | .error _ => (respondWithError 400 "Invalid end period format", w)
        | .ok endPeriod =>
          if endPeriod.Before startPeriod then
            (respondWithError 400 "End period cannot be before start period", w)
          else
            SubscriptionHandler.answerTotalCost service
              { UserID := filterUserID, ServiceName := filterServiceName,
                StartPeriod := startPeriod, EndPeriod := endPeriod } w

/-- SubscriptionHandler.List handles the listing of all subscriptions. -/
def SubscriptionHandler.List {σ : Type} (service : SubscriptionService σ) (w : σ) :
    Response × σ :=
  match service.List w with
  | (.error _, w1) => (respondWithError 500 "Failed to list subscriptions", w1)
  | (.ok subs, w1) => (respondWithJSON 200 (.subscriptions subs), w1)

/-- The months named by two valid MM-YYYY strings, compared as (year, month) pairs. -/
def monthBefore (s1 s2 : String) : Bool :=
  decide (yearOf s1 < yearOf s2) || (decide (yearOf s1 = yearOf s2) && decide (monthOf s1 < monthOf s2))

/-! ## Seed generator (scripts/seed_docker.go)

The generator reads the clock, the random source and the UUID generator. The functions of
package time it calls are given here on UTC civil fields, the process running in UTC:
time.Date with its normalisation (norm) and the conversion of an instant back to a date
(absDate, in two parts). -/

/-- The helper norm of package time: carries the part of lo outside 0..base-1 into hi. -/
def norm (hi lo base : Int) : Int × Int :=
  let r1 : Int × Int :=
    if lo < 0 then
      let n := (-lo - 1) / base + 1
      (hi - n, lo + n * base)
    else (hi, lo)
  if r1.2 ≥ base then
    let n := r1.2 / base
    (r1.1 + n, r1.2 - n * base)
  else r1

/-- The first part of time.absDate: the year of the day numbered `d` from January 1 of year
1, and the day within that year, by 400-, 100-, 4- and 1-year cycles. -/
def absYear (d : Int) : Int × Int :=
  let n400 := d / 146097
  let d1 := d - 146097 * n400
  let n100 := d1 / 36524
  let n100 := n100 - n100 / 4
  let d2 := d1 - 36524 * n100
  let n4 := d2 / 1461
  let d3 := d2 - 1461 * n4
  let n1 := d3 / 365
  let n1 := n1 - n1 / 4
  let yday := d3 - 365 * n1
  (400 * n400 + 100 * n100 + 4 * n4 + n1 + 1, yday)

/-- The second part of time.absDate: month and day of the month from the day of the year. -/
def monthDay (leap : Bool) (yday : Int) : Nat × Nat :=
  if leap && yday == 59 then (2, 29)
  else
    let day := if leap && decide (yday > 59) then yday - 1 else yday
    let month := (day / 31).toNat
    let endDay := daysBefore (month + 2)
    if day ≥ endDay then (month + 2, (day - endDay + 1).toNat)
    else (month + 1, (day - daysBefore (month + 1) + 1).toNat)

/-- The instant `abs` seconds after January 1 of year 1, 00:00:00 UTC, with its nanoseconds,
as civil fields (methods Date and Clock of time.Time). -/
def Time.ofAbs (abs : Int) (nsec : Nat) : Time :=
  let yd := absYear (abs / 86400)
  let md := monthDay (isLeap yd.1) yd.2
  let rem := abs % 86400
  ⟨yd.1, md.1, md.2, (rem / 3600).toNat, (rem % 3600 / 60).toNat, (rem % 60).toNat, nsec⟩

/-- The function time.Date in UTC: values outside their usual ranges are normalised. -/
def timeDate (year month day hour min sec nsec : Int) : Time :=
  let ym := norm year (month - 1) 12
  let month1 := ym.2 + 1
  let sn := norm sec nsec 1000000000
  let ms := norm min sn.1 60
  let hm := norm hour ms.1 60
  let dh := norm day hm.1 24
  let d := daysSinceEpoch ym.1 + monthOffset ym.1 month1.toNat + (dh.1 - 1)
  let abs := d * 86400 + dh.2 * 3600 + hm.2 * 60 + ms.2
  Time.ofAbs abs sn.2.toNat

/-- The method Time.AddDate. -/
def Time.AddDate (t : Time) (years months days : Int) : Time :=
  timeDate (t.year + years) (t.month + months) (t.day + days) t.hour t.minute t.second t.nsec

/-- The method Time.Unix: seconds since January 1, 1970 UTC. -/
def Time.Unix (t : Time) : Int := t.sec - 62135596800

/-- The method Time.Add for a duration in nanoseconds. -/
def Time.Add (t : Time) (d : Int) : Time :=
  Time.ofAbs (t.sec + ((t.nsec : Int) + d) / 1000000000)
    (((t.nsec : Int) + d) % 1000000000).toNat

/-- The method Time.After. -/
def Time.After (t u : Time) : Bool := u.Before t

/-- An entry of the table dockerServices. -/
structure DockerService where
  Name : String
  MinPrice : Int
  MaxPrice : Int
  Description : String
deriving DecidableEq, Repr

/-- The table dockerServices of scripts/seed_docker.go. -/
def dockerServices : List DockerService :=
  [⟨"Netflix", 599, 1599, "Стриминговый сервис фильмов и сериалов"⟩,
   ⟨"Spotify Premium", 199, 499, "Музыкальный стриминговый сервис"⟩,
   ⟨"YouTube Premium", 299, 799, "Премиум-подписка на YouTube"⟩,
   ⟨"Apple Music", 169, 299, "Музыкальный стриминговый сервис от Apple"⟩,
   ⟨"Disney+", 399, 799, "Стриминговый сервис от Disney"⟩,
   ⟨"HBO Max", 599, 999, "Стриминговый сервис от HBO"⟩,
   ⟨"Amazon Prime", 399, 899, "Премиум-подписка Amazon"⟩,
   ⟨"Yandex Plus", 199, 399, "Подписка на сервисы Яндекса"⟩,
   ⟨"Kinopoisk HD", 299, 599, "Стриминговый сервис фильмов и сериалов"⟩,
   ⟨"PlayStation Plus", 599, 1299, "Подписка для игровой консоли PlayStation"⟩,
   ⟨"Xbox Game Pass", 699, 1499, "Подписка на игры для Xbox"⟩,
   ⟨"Adobe Creative Cloud", 1999, 4999, "Пакет программ для дизайна и творчества"⟩,
   ⟨"Microsoft 365", 499, 999, "Офисный пакет Microsoft"⟩,
   ⟨"Google One", 139, 999, "Расширенное облачное хранилище Google"⟩,
   ⟨"iCloud+", 149, 999, "Облачное хранилище Apple"⟩,
   ⟨"Notion Premium", 499, 999, "Расширенная версия приложения для заметок"⟩,
   ⟨"Telegram Premium", 299, 299, "Премиум-подписка Telegram"⟩,
   ⟨"Tinkoff Pro", 199, 199, "Премиум-подписка банка Тинькофф"⟩,
   ⟨"SberPrime", 199, 399, "Подписка на сервисы Сбера"⟩,
   ⟨"VK Combo", 199, 299, "Подписка на сервисы VK"⟩]

/-- The struct DockerSubscription of scripts/seed_docker.go. -/
structure DockerSubscription where
  ID : UUID
  ServiceName : String
  Price : Int
  UserID : UUID
  StartDate : Time
  EndDate : Option Time
  CreatedAt : Time
  UpdatedAt : Time
deriving DecidableEq, Repr

/-- The five fixed users of dockerGenerateRandomUserID, as uuid.Parse reads their text. -/
def dockerUsers : List UUID :=
  [0x60601fee2bf14721ae6f7636e79a0cba, 0x70702fee3bf25832be7f8747e89b1dcb,
   0x80803fee4bf36943cf8f9858f9a2eddc, 0x90904fee5bf47a54df9fa969fab3feed,
   0xa0a05fee6bf58b65efafba7afbc4ffee]

/-- What one run of dockerGenerateRandomSubscription draws from outside, in the order of the
calls: the raw values behind rand.Intn and rand.Int63n (reduced modulo the argument), the
outcomes of the two comparisons on rand.Float32(), the three readings of time.Now() and the
value of uuid.New(). -/
structure SeedDraws where
  serviceDraw : Nat
  priceDraw : Nat
  startNow : Time
  secsDraw : Nat
  below03 : Bool
  monthsDraw : Nat
  endNow : Time
  below05 : Bool
  now : Time
  newID : UUID
  userDraw : Nat

/-- The function dockerGenerateRandomUserID. -/
def dockerGenerateRandomUserID (r : SeedDraws) : UUID :=
  let userIndex := r.userDraw % dockerUsers.length
  dockerUsers.get ⟨userIndex, Nat.mod_lt _ (by decide)⟩

/-- The function dockerGenerateRandomStartDate; `none` when rand.Int63n panics because its
argument is not positive. -/
def dockerGenerateRandomStartDate (r : SeedDraws) : Option Time :=
  let now := r.startNow
  let minTime := now.AddDate (-2) 0 0
  let diff := now.Unix - minTime.Unix
  if diff ≤ 0 then none
  else
    let randomSecs := (r.secsDraw : Int) % diff
    let randomTime := minTime.Add (randomSecs * 1000000000)
    some (timeDate randomTime.year randomTime.month 1 0 0 0 0)

/-- The function dockerGenerateRandomEndDate; `none` is the nil pointer. -/
def dockerGenerateRandomEndDate (r : SeedDraws) (startDate : Time) : Option Time :=
  if r.below03 then none
  else
    let months : Int := (r.monthsDraw % 24 : Nat) + 1
    let endDate := startDate.AddDate 0 months 0
    if endDate.After r.endNow && r.below05 then none
    else some endDate

/-- The function dockerGenerateRandomSubscription; `none` when the start date could not be
drawn. -/
def dockerGenerateRandomSubscription (r : SeedDraws) : Option DockerSubscription :=
  let service := dockerServices.get ⟨r.serviceDraw % dockerServices.length,
    Nat.mod_lt _ (by decide)⟩
  let price :=
    if service.MaxPrice > service.MinPrice then
      service.MinPrice + (r.priceDraw : Int) % (service.MaxPrice - service.MinPrice + 1)
    else service.MinPrice
  match dockerGenerateRandomStartDate r with
  | none => none
  | some startDate =>
    let endDate := dockerGenerateRandomEndDate r startDate
    let now := r.now
    some { ID := r.newID, ServiceName := service.Name, Price := price,
           UserID := dockerGenerateRandomUserID r, StartDate := startDate, EndDate := endDate,
           CreatedAt := now, UpdatedAt := now }

/-! ## Entity invariants as the specification words them -/

/-- The invariant "endDate, if set, is ≥ startDate": the end date is not before the start. -/
def endNotBeforeStart (sub : Subscription) : Bool :=
  match sub.EndDate with
  | none => true
  | some e => !(e.Before sub.StartDate)

/-- A repository whose every call returns the given error, as the mock of the tests set up
with `Return(repoErr)`; it keeps no state and leaves the entity it is handed untouched. -/
def failingRepository (repoErr : GoError) : Repository Unit where
  Create := fun sub w => ((sub, some repoErr), w)
  Get := fun _ w => (.error repoErr, w)
  Update := fun sub w => ((sub, some repoErr), w)
  Delete := fun _ w => (some repoErr, w)
  CalculateTotalCost := fun _ w => (.error repoErr, w)
  List := fun w => (.error repoErr, w)

/-- The invariant `createdAt ≤ updatedAt` of the data model: updatedAt is not before
createdAt. -/
def timestampsOrdered (sub : Subscription) : Bool := !(sub.UpdatedAt.Before sub.CreatedAt)

/-- Both timestamps of `r` are readings the clock has already given, createdAt from a reading
no later than the one of updatedAt. -/
def World.stamped (w : World) (r : Subscription) : Prop :=
  ∃ i j, i ≤ j ∧ j < w.ticks ∧ r.CreatedAt = w.clock i ∧ r.UpdatedAt = w.clock j

/-! ## Sample data -/

/-- A clock that advances one second per reading, starting 2025-01-01 00:00:00. -/
def sampleClock (n : Nat) : Time := ⟨2025, 1, 1, 0, 0, n, 0⟩

/-- A world with the given rows, a working driver and fresh generators. -/
def worldOf (rows : List Subscription) : World :=
  { rows := rows, clock := sampleClock, ticks := 0, uuids := (fun n => 1000 + n), minted := 0,
    driver := (fun _ => none), stmts := 0, rowsAffectedErr := none }

/-- Subscription A: price 100, from 01-2023, open-ended. -/
def subA : Subscription :=
  { ID := 1, ServiceName := "Yandex Plus", Price := 100, UserID := 7,
    StartDate := monthStart 2023 1, EndDate := none,
    CreatedAt := ⟨2022, 12, 20, 10, 0, 0, 0⟩, UpdatedAt := ⟨2022, 12, 20, 10, 0, 0, 0⟩ }

/-- Subscription B: price 200, from 06-2023 to 12-2023, another service. -/
def subB : Subscription :=
  { ID := 2, ServiceName := "Netflix", Price := 200, UserID := 7,
    StartDate := monthStart 2023 6, EndDate := some (monthStart 2023 12),
    CreatedAt := ⟨2023, 5, 30, 9, 0, 0, 0⟩, UpdatedAt := ⟨2023, 5, 30, 9, 0, 0, 0⟩ }

/-- Subscription C: price 300, from 01-2023 to 06-2023. -/
def subC : Subscription :=
  { ID := 3, ServiceName := "Kinopoisk", Price := 300, UserID := 8,
    StartDate := monthStart 2023 1, EndDate := some (monthStart 2023 6),
    CreatedAt := ⟨2022, 12, 31, 23, 0, 0, 0⟩, UpdatedAt := ⟨2022, 12, 31, 23, 0, 0, 0⟩ }

/-- The store holding A and B behind a driver that fails every round trip. -/
def worldDown : World :=
  { rows := [subA, subB], clock := sampleClock, ticks := 0, uuids := (fun n => 1000 + n),
    minted := 0, driver := (fun _ => some "dial tcp: connection refused"), stmts := 0,
    rowsAffectedErr := none }

/-- The service over a repository double that fails with "database error", as in the tests. -/
def failingService : SubscriptionService Unit :=
  NewSubscriptionService (failingRepository (.external "database error"))

/-- A stand-in for uuid.Parse that accepts the one text "7" and refuses every other. -/
def sampleUuidParse (text : String) : Except GoError UUID :=
  if text = "7" then .ok 7 else .error (.external "invalid UUID length")

/-- Draws of one run of the seed generator: service 27 mod 20, a clock reading on
2025-03-15, an end date kept although it lies in the future. -/
def sampleDraws : SeedDraws :=
  { serviceDraw := 27, priceDraw := 1234, startNow := ⟨2025, 3, 15, 12, 30, 45, 500⟩,
    secsDraw := 98765432123, below03 := false, monthsDraw := 40,
    endNow := ⟨2025, 3, 15, 12, 30, 45, 900⟩, below05 := false,
    now := ⟨2025, 3, 15, 12, 30, 46, 100⟩, newID := 4242, userDraw := 13 }

/-- The subscription the seed generator builds from sampleDraws. -/
def sampleSeeded : DockerSubscription :=
  { ID := 4242, ServiceName := "Yandex Plus", Price := 227,
    UserID := 0x90904fee5bf47a54df9fa969fab3feed,
    StartDate := monthStart 2024 9, EndDate := some (monthStart 2026 2),
    CreatedAt := ⟨2025, 3, 15, 12, 30, 46, 100⟩, UpdatedAt := ⟨2025, 3, 15, 12, 30, 46, 100⟩ }

/-- The repository double of the service tests (MockRepository) over the list of entities it
has been handed: it records the entity of every Create and Update, answers each write with
`answer`, and returns `stored` on Get. -/
def recordingRepository (stored : Subscription) (answer : Option GoError) :
    Repository (List Subscription) where
  Create := fun sub calls => ((sub, answer), calls ++ [sub])
  Get := fun _ calls => (.ok stored, calls)
  Update := fun sub calls => ((sub, answer), calls ++ [sub])
  Delete := fun _ calls => (answer, calls)
  CalculateTotalCost := fun _ calls => (.ok stored.Price, calls)
  List := fun calls => (.ok [stored], calls)

/-- The error with which PostgreSQL refuses a row that violates `CHECK (price > 0)`, the
constraint of the table created in the repository tests. -/
def checkViolation : GoError :=
  .external
    "pq: new row for relation \"subscriptions\" violates check constraint \"subscriptions_price_check\""

/-- The store holding exactly A and B. -/
def worldAB : World := worldOf [subA, subB]

end Subs

/-! # Properties -/

namespace Subs

/-! ## Lemmas on errors -/

theorem errorsIs_wrapf_sentinel (pre post : String) (inner : GoError) :
    errorsIs (.wrapf pre inner post) .ErrInvalidInput = errorsIs inner .ErrInvalidInput := by
  simp [errorsIs]

theorem errorsIs_external (msg : String) : errorsIs (.external msg) .ErrInvalidInput = false := by
  simp [errorsIs]

theorem errorsIs_errEndBeforeStart : errorsIs errEndBeforeStart .ErrInvalidInput = true := by
  simp [errEndBeforeStart, errorsIs]

/-- Every failure of time.Parse is a library error value. -/
theorem timeParseMonthYear_error (value : String) (err : GoError)
    (h : timeParseMonthYear value = .error err) : ∃ msg, err = .external msg := by
  unfold timeParseMonthYear at h
  simp only [parseErrorAt, parseErrorWith] at h
  split at h
  · split at h
    · split at h
      · exact ⟨_, (Except.error.inj h).symm⟩
      · split at h
        · split at h
          · split at h
            · cases h
            · exact ⟨_, (Except.error.inj h).symm⟩
          · exact ⟨_, (Except.error.inj h).symm⟩
        · exact ⟨_, (Except.error.inj h).symm⟩
        · exact ⟨_, (Except.error.inj h).symm⟩
    · exact ⟨_, (Except.error.inj h).symm⟩
  · exact ⟨_, (Except.error.inj h).symm⟩

/-- A failure of ParseMonthYear never is ErrInvalidInput: it wraps the library error only. -/
theorem ParseMonthYear_error_not_invalid (s : String) (err : GoError)
    (h : ParseMonthYear s = .error err) : errorsIs err .ErrInvalidInput = false := by
  unfold ParseMonthYear at h
  split at h
  · rename_i perr hp
    obtain ⟨msg, rfl⟩ := timeParseMonthYear_error s perr hp
    cases h
    simp [errorsIs]
  · cases h

/-! ## Lemmas on calendar order -/

theorem monthOffset_bounds (y : Int) (m : Nat) (h1 : 1 ≤ m) (h2 : m ≤ 12) :
    0 ≤ monthOffset y m ∧ monthOffset y m ≤ 335 := by
  unfold monthOffset
  interval_cases m <;> cases isLeap y <;> simp [daysBefore]

theorem monthOffset_lt (y : Int) (m1 m2 : Nat) (h1 : 1 ≤ m1) (h2 : m2 ≤ 12) (h : m1 < m2) :
    monthOffset y m1 < monthOffset y m2 := by
  unfold monthOffset
  have h3 : m1 ≤ 12 := by omega
  have h4 : 1 ≤ m2 := by omega
  interval_cases m1 <;> interval_cases m2 <;> first
    | omega
    | (cases isLeap y <;> simp [daysBefore])

theorem daysSinceEpoch_lt (y1 y2 : Int) (h : y1 < y2) :
    daysSinceEpoch y1 + 335 < daysSinceEpoch y2 := by
  unfold daysSinceEpoch
  omega

theorem monthStart_sec (y : Int) (m : Nat) :
    (monthStart y m).sec = (daysSinceEpoch y + monthOffset y m) * 86400 := by
  simp [monthStart, Time.sec, Time.days, monthOffset]
  ring

/-- On first-of-month values, Before is the lexicographic order on (year, month). -/
theorem monthStart_before_iff (y1 y2 : Int) (m1 m2 : Nat)
    (h1 : 1 ≤ m1) (h1b : m1 ≤ 12) (h2 : 1 ≤ m2) (h2b : m2 ≤ 12) :
    (monthStart y1 m1).Before (monthStart y2 m2) = true ↔ (y1 < y2 ∨ (y1 = y2 ∧ m1 < m2)) := by
  have nsec1 : (monthStart y1 m1).nsec = 0 := rfl
  have nsec2 : (monthStart y2 m2).nsec = 0 := rfl
  have b1 := monthOffset_bounds y1 m1 h1 h1b
  have b2 := monthOffset_bounds y2 m2 h2 h2b
  simp only [Time.Before, monthStart_sec, nsec1, nsec2, Bool.or_eq_true, Bool.and_eq_true,
    decide_eq_true_eq, Nat.lt_irrefl, and_false, or_false]
  constructor
  · intro h
    rcases lt_trichotomy y1 y2 with hy | hy | hy
    · exact Or.inl hy
    · subst hy
      right
      refine ⟨rfl, ?_⟩
      by_contra hm
      have hm2 : m2 ≤ m1 := by omega
      rcases Nat.eq_or_lt_of_le hm2 with he | hl
      · subst he; omega
      · have := monthOffset_lt y1 m2 m1 h2 h1b hl
        omega
    · have := daysSinceEpoch_lt y2 y1 hy
      omega
  · rintro (hy | ⟨rfl, hm⟩)
    · have := daysSinceEpoch_lt y1 y2 hy
      omega
    · have := monthOffset_lt y1 m1 m2 h1 h2b hm
      omega

/-- A successful ParseMonthYear returns the first day of a month 1..12 of a year 0..9999. -/
theorem ParseMonthYear_ok (s : String) (t : Time) (h : ParseMonthYear s = .ok t) :
    ∃ (y : Int) (m : Nat), t = monthStart y m ∧ 1 ≤ m ∧ m ≤ 12 := by
  unfold ParseMonthYear at h
  split at h
  · cases h
  · rename_i parsed hp
    cases h
    unfold timeParseMonthYear at hp
    repeat' (first | split at hp | (dsimp only at hp; split at hp))
    all_goals first
      | (cases hp; done)
      | (cases hp; exact ⟨_, _, rfl, by omega, by omega⟩)

/-! ## Lemmas on the service -/

/-- Once the repository has found the entity, Update applies the request and, when that
succeeds, hands the result to the repository. -/
theorem serviceUpdate_of_get {σ : Type} (s : SubscriptionService σ) (id : UUID)
    (req : UpdateSubscriptionRequest) (w w1 : σ) (stored : Subscription)
    (hg : s.repo.Get id w = (.ok stored, w1)) :
    s.Update id req w =
      match applyUpdate stored req with
      | .error err => (.error err, w1)
      | .ok handed => s.persistUpdate handed w1 := by
  simp only [SubscriptionService.Update, hg]

/-- The result of handing an entity to the repository, by what the repository answers. -/
theorem persistUpdate_ok {σ : Type} (s : SubscriptionService σ)
    (sub result : Subscription) (w w2 : σ) :
    s.persistUpdate sub w = (.ok result, w2) ↔ s.repo.Update sub w = ((result, none), w2) := by
  unfold SubscriptionService.persistUpdate
  rcases hu : s.repo.Update sub w with ⟨⟨sub5, _ | err⟩, w3⟩
  · simp
  · simp

theorem persistUpdate_error {σ : Type} (s : SubscriptionService σ)
    (sub : Subscription) (w : σ) (err : GoError)
    (h : (s.persistUpdate sub w).1 = .error err) :
    ∃ r rerr w2, s.repo.Update sub w = ((r, some rerr), w2) ∧
      err = .wrapf "failed to update subscription: " rerr "" := by
  unfold SubscriptionService.persistUpdate at h
  rcases hu : s.repo.Update sub w with ⟨⟨sub5, _ | rerr⟩, w3⟩
  · simp [hu] at h
  · simp only [hu] at h
    cases h
    exact ⟨_, _, _, rfl, rfl⟩

theorem persistCreate_ok {σ : Type} (s : SubscriptionService σ)
    (sub result : Subscription) (w w2 : σ) :
    s.persistCreate sub w = (.ok result, w2) ↔ s.repo.Create sub w = ((result, none), w2) := by
  unfold SubscriptionService.persistCreate
  rcases hu : s.repo.Create sub w with ⟨⟨sub5, _ | err⟩, w3⟩
  · simp
  · simp

theorem persistCreate_error {σ : Type} (s : SubscriptionService σ)
    (sub : Subscription) (w : σ) (err : GoError)
    (h : (s.persistCreate sub w).1 = .error err) :
    ∃ r rerr w2, s.repo.Create sub w = ((r, some rerr), w2) ∧
      err = .wrapf "failed to create subscription: " rerr "" := by
  unfold SubscriptionService.persistCreate at h
  rcases hu : s.repo.Create sub w with ⟨⟨sub5, _ | rerr⟩, w3⟩
  · simp [hu] at h
  · simp only [hu] at h
    cases h
    exact ⟨_, _, _, rfl, rfl⟩

/-- A successful Update went through the repository with the entity built from the request. -/
theorem serviceUpdate_ok {σ : Type} (s : SubscriptionService σ) (id : UUID)
    (req : UpdateSubscriptionRequest) (w w1 w2 : σ) (stored result : Subscription)
    (hg : s.repo.Get id w = (.ok stored, w1))
    (h : s.Update id req w = (.ok result, w2)) :
    ∃ handed, applyUpdate stored req = .ok handed ∧
      s.repo.Update handed w1 = ((result, none), w2) := by
  rw [serviceUpdate_of_get s id req w w1 stored hg] at h
  rcases ha : applyUpdate stored req with _ | handed
  · simp [ha] at h
  · simp only [ha] at h
    exact ⟨handed, rfl, (persistUpdate_ok s handed result w1 w2).1 h⟩

theorem setServiceName_frame (sub : Subscription) (req : UpdateSubscriptionRequest) :
    (req.ServiceName = "" → (setServiceName sub req).ServiceName = sub.ServiceName) ∧
    (setServiceName sub req).Price = sub.Price ∧
    (setServiceName sub req).StartDate = sub.StartDate ∧
    (setServiceName sub req).EndDate = sub.EndDate ∧
    (setServiceName sub req).ID = sub.ID ∧ (setServiceName sub req).UserID = sub.UserID ∧
    (setServiceName sub req).CreatedAt = sub.CreatedAt ∧
    (setServiceName sub req).UpdatedAt = sub.UpdatedAt := by
  unfold setServiceName
  split <;> simp_all

theorem setPrice_frame (sub : Subscription) (req : UpdateSubscriptionRequest) :
    (setPrice sub req).ServiceName = sub.ServiceName ∧
    (req.Price = none → (setPrice sub req).Price = sub.Price) ∧
    (setPrice sub req).StartDate = sub.StartDate ∧
    (setPrice sub req).EndDate = sub.EndDate ∧
    (setPrice sub req).ID = sub.ID ∧ (setPrice sub req).UserID = sub.UserID ∧
    (setPrice sub req).CreatedAt = sub.CreatedAt ∧
    (setPrice sub req).UpdatedAt = sub.UpdatedAt := by
  unfold setPrice
  split <;> simp_all

theorem setStartDate_frame (sub e : Subscription) (req : UpdateSubscriptionRequest)
    (h : setStartDate sub req = .ok e) :
    e.ServiceName = sub.ServiceName ∧ e.Price = sub.Price ∧
    (req.StartDate = "" → e.StartDate = sub.StartDate) ∧
    e.EndDate = sub.EndDate ∧ e.ID = sub.ID ∧ e.UserID = sub.UserID ∧
    e.CreatedAt = sub.CreatedAt ∧ e.UpdatedAt = sub.UpdatedAt := by
  unfold setStartDate at h
  split at h
  · split at h
    · cases h
    · cases h; simp_all
  · cases h; simp

theorem setEndDate_frame (sub e : Subscription) (req : UpdateSubscriptionRequest)
    (h : setEndDate sub req = .ok e) :
    e.ServiceName = sub.ServiceName ∧ e.Price = sub.Price ∧ e.StartDate = sub.StartDate ∧
    (req.EndDate = none → e.EndDate = sub.EndDate) ∧ e.ID = sub.ID ∧ e.UserID = sub.UserID ∧
    e.CreatedAt = sub.CreatedAt ∧ e.UpdatedAt = sub.UpdatedAt := by
  unfold setEndDate at h
  split at h
  · cases h; simp
  · split at h
    · cases h; simp_all
    · split at h
      · cases h
      · split at h
        · cases h
        · cases h; simp_all

/-- Fields that the field-by-field part of Update leaves alone. -/
theorem applyUpdate_frame (sub e : Subscription) (req : UpdateSubscriptionRequest)
    (h : applyUpdate sub req = .ok e) :
    (req.ServiceName = "" → e.ServiceName = sub.ServiceName) ∧
    (req.Price = none → e.Price = sub.Price) ∧
    (req.StartDate = "" → e.StartDate = sub.StartDate) ∧
    (req.EndDate = none → e.EndDate = sub.EndDate) ∧
    e.ID = sub.ID ∧ e.UserID = sub.UserID ∧ e.CreatedAt = sub.CreatedAt ∧
    e.UpdatedAt = sub.UpdatedAt := by
  unfold applyUpdate at h
  split at h
  · cases h
  · rename_i sub3 h3
    have f1 := setServiceName_frame sub req
    have f2 := setPrice_frame (setServiceName sub req) req
    have f3 := setStartDate_frame _ sub3 req h3
    have f4 := setEndDate_frame sub3 e req h
    refine ⟨fun hn => ?_, fun hp => ?_, fun hs => ?_, fun he => ?_, ?_, ?_, ?_, ?_⟩
    · rw [f4.1, f3.1, f2.1, f1.1 hn]
    · rw [f4.2.1, f3.2.1, f2.2.1 hp, f1.2.1]
    · rw [f4.2.2.1, f3.2.2.1 hs, f2.2.2.1, f1.2.2.1]
    · rw [f4.2.2.2.1 he, f3.2.2.2.1, f2.2.2.2.1, f1.2.2.2.1]
    · rw [f4.2.2.2.2.1, f3.2.2.2.2.1, f2.2.2.2.2.1, f1.2.2.2.2.1]
    · rw [f4.2.2.2.2.2.1, f3.2.2.2.2.2.1, f2.2.2.2.2.2.1, f1.2.2.2.2.2.1]
    · rw [f4.2.2.2.2.2.2.1, f3.2.2.2.2.2.2.1, f2.2.2.2.2.2.2.1, f1.2.2.2.2.2.2.1]
    · rw [f4.2.2.2.2.2.2.2, f3.2.2.2.2.2.2.2, f2.2.2.2.2.2.2.2, f1.2.2.2.2.2.2.2]

/-- What the PostgreSQL Update does when it reports no error: it only refreshes `UpdatedAt`
on the entity and rewrites the rows with that id. -/
theorem repoUpdate_ok (sub result : Subscription) (w w2 : World)
    (h : SubscriptionRepository.Update sub w = ((result, none), w2)) :
    result = { sub with UpdatedAt := w.now } ∧ w2.rows = w.rows.map (updateRow result) := by
  unfold SubscriptionRepository.Update at h
  dsimp only at h
  split at h
  · cases h
  · split at h
    · cases h
    · split at h
      · cases h
      · cases h
        exact ⟨rfl, rfl⟩

/-- The PostgreSQL Get leaves the rows as they are. -/
theorem repoGet_world (id : UUID) (w : World) :
    (SubscriptionRepository.Get id w).2 = w.sent := by
  unfold SubscriptionRepository.Get
  dsimp only
  split
  · split <;> rfl
  · rfl

/-- A failure of the driver is a library error value. -/
theorem fault_external (w : World) (err : GoError) (h : w.fault = some err) :
    ∃ msg, err = .external msg := by
  unfold World.fault at h
  split at h
  · exact ⟨_, (Option.some.inj h).symm⟩
  · cases h

/-- An error of the PostgreSQL Update is never ErrInvalidInput. -/
theorem repoUpdate_error_not_invalid (sub r : Subscription) (w w2 : World)
    (err : GoError) (h : SubscriptionRepository.Update sub w = ((r, some err), w2)) :
    errorsIs err .ErrInvalidInput = false := by
  unfold SubscriptionRepository.Update at h
  dsimp only at h
  repeat' (split at h)
  all_goals first
    | (cases h; done)
    | (cases h; simp [errorsIs]; done)
    | (cases h
       rename_i e hf
       obtain ⟨msg, rfl⟩ := fault_external _ e hf
       simp [errorsIs])

/-- An error of the PostgreSQL Create is never ErrInvalidInput. -/
theorem repoCreate_error_not_invalid (sub r : Subscription) (w w2 : World)
    (err : GoError) (h : SubscriptionRepository.Create sub w = ((r, some err), w2)) :
    errorsIs err .ErrInvalidInput = false := by
  unfold SubscriptionRepository.Create at h
  dsimp only at h
  repeat' (split at h)
  all_goals first
    | (cases h; done)
    | (cases h; simp [errorsIs]; done)
    | (cases h
       rename_i e hf
       obtain ⟨msg, rfl⟩ := fault_external _ e hf
       simp [errorsIs])

/-! ## Update: frame, clearing and checking the end date -/

/-- C1. Service.Update over the PostgreSQL repository changes only what the request supplies:
whenever the repository finds `stored` and Update succeeds with `result`, the service name is
unchanged when the request's is empty (absent), the price when the request has none, the start
date when the request's is empty (absent), the end date when the request has no such field, and
id, user id and creation time are unchanged for every request; the rows of the store are
rewritten from `result` for that id only. -/
theorem update_changes_only_what_is_supplied (w w1 w2 : World) (id : UUID)
    (req : UpdateSubscriptionRequest) (stored result : Subscription)
    (hget : SubscriptionRepository.Get id w = (.ok stored, w1))
    (hupd : service.Update id req w = (.ok result, w2)) :
    (req.ServiceName = "" → result.ServiceName = stored.ServiceName) ∧
    (req.Price = none → result.Price = stored.Price) ∧
    (req.StartDate = "" → result.StartDate = stored.StartDate) ∧
    (req.EndDate = none → result.EndDate = stored.EndDate) ∧
    result.ID = stored.ID ∧ result.UserID = stored.UserID ∧
    result.CreatedAt = stored.CreatedAt ∧
    w2.rows = w.rows.map (updateRow result) := by
  obtain ⟨handed, ha, hu⟩ := serviceUpdate_ok service id req w w1 w2 stored result hget hupd
  obtain ⟨hr, hrows⟩ := repoUpdate_ok handed result w1 w2 hu
  have hw1 : w1 = w.sent := by
    have := repoGet_world id w
    rw [hget] at this
    exact this
  have f := applyUpdate_frame stored handed req ha
  have hrows2 : w2.rows = w.rows.map (updateRow result) := by rw [hrows, hw1]; rfl
  subst hr
  exact ⟨f.1, f.2.1, f.2.2.1, f.2.2.2.1, f.2.2.2.2.1, f.2.2.2.2.2.1, f.2.2.2.2.2.2.1, hrows2⟩

/-- C1 at a request carrying only a price, on the store holding A and B: service name, start
date and end date of A stay as they were. -/
theorem update_changes_only_what_is_supplied_witness :
    SubscriptionRepository.Get 1 worldAB = (.ok subA, worldAB.sent) ∧
    (service.Update 1 ⟨"", some 150, "", none⟩ worldAB).1
      = .ok { subA with Price := 150, UpdatedAt := sampleClock 0 } ∧
    (({ subA with Price := 150, UpdatedAt := sampleClock 0 } : Subscription).ServiceName
        = subA.ServiceName ∧
      ({ subA with Price := 150, UpdatedAt := sampleClock 0 } : Subscription).StartDate
        = subA.StartDate ∧
      ({ subA with Price := 150, UpdatedAt := sampleClock 0 } : Subscription).EndDate
        = subA.EndDate) :=
  have h := update_changes_only_what_is_supplied worldAB worldAB.sent
    (service.Update 1 ⟨"", some 150, "", none⟩ worldAB).2 1 ⟨"", some 150, "", none⟩ subA
    { subA with Price := 150, UpdatedAt := sampleClock 0 } rfl rfl
  ⟨rfl, rfl, h.1 rfl, h.2.2.1 rfl, h.2.2.2.1 rfl⟩

/-- The start-date step of Update on a request whose start date is empty or well formed. -/
theorem setStartDate_ok (sub : Subscription) (req : UpdateSubscriptionRequest) (eff : Time)
    (h : (req.StartDate = "" ∧ eff = sub.StartDate) ∨
      (req.StartDate ≠ "" ∧ ParseMonthYear req.StartDate = .ok eff)) :
    setStartDate sub req = .ok { sub with StartDate := eff } := by
  unfold setStartDate
  rcases h with ⟨h1, h2⟩ | ⟨h1, h2⟩
  · simp [h1, h2]
  · simp [h1, h2]

/-- C2. For a stored entity with an end date set, Service.Update with a request whose endDate
field is present and empty (the start date being empty or well formed) reaches the repository
with an entity whose end date is absent, and succeeds whenever Repository.Update does. -/
theorem update_empty_end_date_clears {σ : Type} (s : SubscriptionService σ) (id : UUID)
    (req : UpdateSubscriptionRequest) (w w1 : σ) (stored : Subscription) (t : Time)
    (hget : s.repo.Get id w = (.ok stored, w1))
    (_hset : stored.EndDate = some t)
    (hend : req.EndDate = some "")
    (hstart : req.StartDate = "" ∨ ∃ d, ParseMonthYear req.StartDate = .ok d) :
    ∃ handed, applyUpdate stored req = .ok handed ∧ handed.EndDate = none ∧
      s.Update id req w = s.persistUpdate handed w1 ∧
      (∀ sub5 w2, s.repo.Update handed w1 = ((sub5, none), w2) →
        s.Update id req w = (.ok sub5, w2)) := by
  have hs : ∃ eff, setStartDate (setPrice (setServiceName stored req) req) req
      = .ok { setPrice (setServiceName stored req) req with StartDate := eff } := by
    by_cases he : req.StartDate = ""
    · exact ⟨_, setStartDate_ok _ req _ (Or.inl ⟨he, rfl⟩)⟩
    · rcases hstart with h | ⟨d, hd⟩
      · exact absurd h he
      · exact ⟨d, setStartDate_ok _ req d (Or.inr ⟨he, hd⟩)⟩
  obtain ⟨eff, hs⟩ := hs
  have ha : applyUpdate stored req
      = .ok { ({ setPrice (setServiceName stored req) req with StartDate := eff } : Subscription)
              with EndDate := none } := by
    simp [applyUpdate, hs, setEndDate, hend]
  refine ⟨_, ha, rfl, ?_, ?_⟩
  · rw [serviceUpdate_of_get s id req w w1 stored hget, ha]
  · intro sub5 w2 hu
    rw [serviceUpdate_of_get s id req w w1 stored hget, ha]
    exact (persistUpdate_ok s _ sub5 w1 w2).2 hu

/-- C2 on the store holding A and B: clearing the end date of B succeeds and the entity
returned and stored has no end date. -/
theorem update_empty_end_date_clears_witness :
    (∃ handed, applyUpdate subB ⟨"", none, "", some ""⟩ = .ok handed ∧ handed.EndDate = none ∧
      service.Update 2 ⟨"", none, "", some ""⟩ worldAB
        = service.persistUpdate handed worldAB.sent ∧
      (∀ sub5 w2, service.repo.Update handed worldAB.sent = ((sub5, none), w2) →
        service.Update 2 ⟨"", none, "", some ""⟩ worldAB = (.ok sub5, w2))) ∧
    (service.Update 2 ⟨"", none, "", some ""⟩ worldAB).1
      = .ok { subB with EndDate := none, UpdatedAt := sampleClock 0 } ∧
    (service.Update 2 ⟨"", none, "", some ""⟩ worldAB).2.rows
      = [subA, { subB with EndDate := none, UpdatedAt := sampleClock 0 }] :=
  ⟨update_empty_end_date_clears service 2 ⟨"", none, "", some ""⟩ worldAB worldAB.sent subB
    (monthStart 2023 12) rfl rfl rfl (Or.inl rfl), rfl, rfl⟩

/-- The end-date step of Update on a well-formed, non-empty end date. -/
theorem setEndDate_parsed (sub : Subscription) (req : UpdateSubscriptionRequest) (E : String)
    (e : Time) (hE : req.EndDate = some E) (hne : E ≠ "") (hp : ParseMonthYear E = .ok e) :
    setEndDate sub req =
      if e.Before sub.StartDate then .error errEndBeforeStart
      else .ok { sub with EndDate := some e } := by
  simp [setEndDate, hE, hne, hp]

/-- C3. In Service.Update over the PostgreSQL repository, a present, non-empty, well-formed
end date E is checked against the start date as it stands after the request's own start date
has been applied: Update fails with an error that is ErrInvalidInput exactly when E is before
the effective start date (then without reaching Repository.Update), and otherwise the entity
handed to the repository, and returned on success, has end date E. -/
theorem update_end_date_checked_against_effective_start (w w1 : World) (id : UUID)
    (req : UpdateSubscriptionRequest) (stored : Subscription) (E : String) (e eff : Time)
    (hget : SubscriptionRepository.Get id w = (.ok stored, w1))
    (hE : req.EndDate = some E) (hne : E ≠ "") (hp : ParseMonthYear E = .ok e)
    (hstart : (req.StartDate = "" ∧ eff = stored.StartDate) ∨
      (req.StartDate ≠ "" ∧ ParseMonthYear req.StartDate = .ok eff)) :
    ((∃ err, (service.Update id req w).1 = .error err ∧ errorsIs err .ErrInvalidInput = true)
      ↔ e.Before eff = true) ∧
    (e.Before eff = true → service.Update id req w = (.error errEndBeforeStart, w1)) ∧
    (e.Before eff = false →
      ∃ handed, applyUpdate stored req = .ok handed ∧ handed.EndDate = some e ∧
        handed.StartDate = eff ∧
        service.Update id req w = service.persistUpdate handed w1 ∧
        (∀ result w2, service.Update id req w = (.ok result, w2) →
          result.EndDate = some e ∧ result.StartDate = eff)) := by
  have hs := setStartDate_ok (setPrice (setServiceName stored req) req) req eff
    (by
      rcases hstart with ⟨h1, h2⟩ | ⟨h1, h2⟩
      · left
        refine ⟨h1, ?_⟩
        rw [h2, (setPrice_frame _ req).2.2.1, (setServiceName_frame stored req).2.2.1]
      · exact Or.inr ⟨h1, h2⟩)
  have he := setEndDate_parsed
    ({ setPrice (setServiceName stored req) req with StartDate := eff } : Subscription)
    req E e hE hne hp
  have hu := serviceUpdate_of_get service id req w w1 stored hget
  have hbefore : e.Before eff = true → service.Update id req w = (.error errEndBeforeStart, w1) := by
    intro hb
    rw [hu]
    simp [applyUpdate, hs, he, hb]
  have hafter : e.Before eff = false → applyUpdate stored req
      = .ok { ({ setPrice (setServiceName stored req) req with StartDate := eff } : Subscription)
              with EndDate := some e } := by
    intro hb
    simp [applyUpdate, hs, he, hb]
  refine ⟨⟨?_, ?_⟩, hbefore, ?_⟩
  · rintro ⟨err, herr, his⟩
    by_contra hb
    have hb2 : e.Before eff = false := by simpa using hb
    rw [hu, hafter hb2] at herr
    obtain ⟨r, rerr, w3, hr, rfl⟩ := persistUpdate_error service _ w1 err herr
    rw [errorsIs_wrapf_sentinel,
      repoUpdate_error_not_invalid _ _ _ _ _ hr] at his
    cases his
  · intro hb
    exact ⟨errEndBeforeStart, by rw [hbefore hb], errorsIs_errEndBeforeStart⟩
  · intro hb
    refine ⟨_, hafter hb, rfl, rfl, ?_, ?_⟩
    · rw [hu, hafter hb]
    · intro result w2 hres
      obtain ⟨handed, ha, hup⟩ :=
        serviceUpdate_ok service id req w w1 w2 stored result hget hres
      rw [hafter hb] at ha
      cases ha
      obtain ⟨hr, _⟩ := repoUpdate_ok _ result w1 w2 hup
      rw [hr]
      exact ⟨rfl, rfl⟩

/-- C3 on the store holding A and B: B starts in 06-2023; a request moving the start to
01-2024 with end date 12-2023 is refused, the end date being before the new start date. -/
theorem update_end_date_checked_against_effective_start_witness :
    service.Update 2 ⟨"", none, "01-2024", some "12-2023"⟩ worldAB
      = (.error errEndBeforeStart, worldAB.sent) :=
  (update_end_date_checked_against_effective_start worldAB worldAB.sent 2
    ⟨"", none, "01-2024", some "12-2023"⟩ subB "12-2023" (monthStart 2023 12) (monthStart 2024 1)
    rfl rfl (by decide) rfl (Or.inr ⟨by decide, rfl⟩)).2.1 (by decide)

/-! ## Create -/

/-- Once the start date has parsed, Create checks the end date and hands the new entity to the
repository. -/
theorem serviceCreate_of_start {σ : Type} (s : SubscriptionService σ)
    (req : CreateSubscriptionRequest) (w : σ) (sd : Time)
    (hs : ParseMonthYear req.StartDate = .ok sd) :
    s.Create req w =
      match createEndDate req.EndDate sd with
      | .error err => (.error err, w)
      | .ok endDate => s.persistCreate (newSubscription req sd endDate) w := by
  simp only [SubscriptionService.Create, hs]

/-- A malformed start date makes Create return at once, whatever the repository. -/
theorem serviceCreate_malformed_start {σ : Type} (s : SubscriptionService σ)
    (req : CreateSubscriptionRequest) (w : σ) (perr : GoError)
    (h : ParseMonthYear req.StartDate = .error perr) :
    s.Create req w = (.error (.wrapf "invalid start date: " perr ""), w) ∧
    errorsIs (.wrapf "invalid start date: " perr "") .ErrInvalidInput = false := by
  refine ⟨by simp only [SubscriptionService.Create, h], ?_⟩
  rw [errorsIs_wrapf_sentinel, ParseMonthYear_error_not_invalid _ _ h]

/-- The end-date block of Create on a well-formed, non-empty end date. -/
theorem createEndDate_parsed (E : String) (sd ed : Time) (hne : E ≠ "")
    (he : ParseMonthYear E = .ok ed) :
    createEndDate (some E) sd =
      if ed.Before sd then .error errEndBeforeStart else .ok (some ed) := by
  simp [createEndDate, hne, he]

/-- On results of ParseMonthYear, Before compares (year, month) lexicographically. -/
theorem parsed_before_iff (s1 s2 : String) (t1 t2 : Time)
    (h1 : ParseMonthYear s1 = .ok t1) (h2 : ParseMonthYear s2 = .ok t2) :
    t1.Before t2 = true ↔ (t1.year < t2.year ∨ (t1.year = t2.year ∧ t1.month < t2.month)) := by
  obtain ⟨y1, m1, rfl, a1, b1⟩ := ParseMonthYear_ok s1 t1 h1
  obtain ⟨y2, m2, rfl, a2, b2⟩ := ParseMonthYear_ok s2 t2 h2
  exact monthStart_before_iff y1 y2 m1 m2 a1 b1 a2 b2

/-- C4. For a creation request whose start date is well formed and whose end date is present,
non-empty and well formed, Service.Create over the PostgreSQL repository fails with an error
that is ErrInvalidInput (and so returns no entity) if and only if the end month is strictly
before the start month; then the repository is not reached. Otherwise, an equal month
included, the entity with that end date is handed to the repository. -/
theorem create_rejects_end_before_start (w : World) (req : CreateSubscriptionRequest)
    (E : String) (sd ed : Time)
    (hs : ParseMonthYear req.StartDate = .ok sd)
    (hE : req.EndDate = some E) (hne : E ≠ "") (he : ParseMonthYear E = .ok ed) :
    ((∃ err, (service.Create req w).1 = .error err ∧ errorsIs err .ErrInvalidInput = true)
      ↔ (ed.year < sd.year ∨ (ed.year = sd.year ∧ ed.month < sd.month))) ∧
    ((ed.year < sd.year ∨ (ed.year = sd.year ∧ ed.month < sd.month)) →
      service.Create req w = (.error errEndBeforeStart, w)) ∧
    (¬ (ed.year < sd.year ∨ (ed.year = sd.year ∧ ed.month < sd.month)) →
      service.Create req w = service.persistCreate (newSubscription req sd (some ed)) w) := by
  have hiff := parsed_before_iff E req.StartDate ed sd he hs
  have hc := serviceCreate_of_start service req w sd hs
  rw [hE, createEndDate_parsed E sd ed hne he] at hc
  have hbefore : (ed.year < sd.year ∨ (ed.year = sd.year ∧ ed.month < sd.month)) →
      service.Create req w = (.error errEndBeforeStart, w) := by
    intro h
    rw [hc, if_pos (hiff.2 h)]
  have hafter : ¬ (ed.year < sd.year ∨ (ed.year = sd.year ∧ ed.month < sd.month)) →
      service.Create req w = service.persistCreate (newSubscription req sd (some ed)) w := by
    intro h
    rw [hc, if_neg (fun hb => h (hiff.1 hb))]
  refine ⟨⟨?_, ?_⟩, hbefore, hafter⟩
  · rintro ⟨err, herr, his⟩
    by_contra hn
    rw [hafter hn] at herr
    obtain ⟨r, rerr, w3, hr, rfl⟩ := persistCreate_error service _ w err herr
    rw [errorsIs_wrapf_sentinel,
      repoCreate_error_not_invalid _ _ _ _ _ hr] at his
    cases his
  · intro h
    exact ⟨errEndBeforeStart, by rw [hbefore h], errorsIs_errEndBeforeStart⟩

/-- C4 at start 07-2023: end 06-2023 is refused, end 07-2023 goes to the repository. -/
theorem create_rejects_end_before_start_witness :
    service.Create ⟨"Test Service", 100, 7, "07-2023", some "06-2023"⟩ (worldOf [])
      = (.error errEndBeforeStart, worldOf []) ∧
    service.Create ⟨"Test Service", 100, 7, "07-2023", some "07-2023"⟩ (worldOf [])
      = service.persistCreate
          (newSubscription ⟨"Test Service", 100, 7, "07-2023", some "07-2023"⟩
            (monthStart 2023 7) (some (monthStart 2023 7))) (worldOf []) :=
  ⟨(create_rejects_end_before_start (worldOf []) ⟨"Test Service", 100, 7, "07-2023", some "06-2023"⟩
      "06-2023" (monthStart 2023 7) (monthStart 2023 6) rfl rfl (by decide) rfl).2.1 (by decide),
   (create_rejects_end_before_start (worldOf []) ⟨"Test Service", 100, 7, "07-2023", some "07-2023"⟩
      "07-2023" (monthStart 2023 7) (monthStart 2023 7) rfl rfl (by decide) rfl).2.2 (by decide)⟩

/-- C5. At the test request with start date "invalid-date", Service.Create returns no entity,
leaves the store untouched, and its error reads "invalid start date: ..." but is not
ErrInvalidInput: errors.Is(err, ErrInvalidInput) is false. -/
theorem create_invalid_date_is_not_invalid_input :
    ∃ err, service.Create ⟨"Test Service", 100, 7, "invalid-date", none⟩ (worldOf [])
        = (.error err, worldOf []) ∧
      err.Error = "invalid start date: invalid date format: "
        ++ "parsing time \"invalid-date\" as \"01-2006\": cannot parse \"invalid-date\" as \"01\"" ∧
      errorsIs err .ErrInvalidInput = false :=
  ⟨_, (serviceCreate_malformed_start service
        ⟨"Test Service", 100, 7, "invalid-date", none⟩ (worldOf []) _ rfl).1,
    by decide,
    (serviceCreate_malformed_start service
        ⟨"Test Service", 100, 7, "invalid-date", none⟩ (worldOf []) _ rfl).2⟩

/-- What the PostgreSQL Create does when it reports no error: it assigns the id and the two
timestamps and appends the row. -/
theorem repoCreate_ok (sub result : Subscription) (w w2 : World)
    (h : SubscriptionRepository.Create sub w = ((result, none), w2)) :
    result = { sub with ID := w.newUUID, CreatedAt := w.mint.now, UpdatedAt := w.mint.tick.now } ∧
    w2.rows = w.rows ++ [result] := by
  unfold SubscriptionRepository.Create at h
  dsimp only at h
  split at h
  · cases h
  · cases h
    exact ⟨rfl, rfl⟩

/-- The PostgreSQL Create reports no error when the driver does not fail the insert. -/
theorem repoCreate_succeeds (sub : Subscription) (w : World) (hf : w.fault = none) :
    ∃ w2, SubscriptionRepository.Create sub w =
      (({ sub with ID := w.newUUID, CreatedAt := w.mint.now, UpdatedAt := w.mint.tick.now },
        none), w2) := by
  have hf3 : w.mint.tick.tick.fault = none := hf
  unfold SubscriptionRepository.Create
  dsimp only
  rw [hf3]
  exact ⟨_, rfl⟩

/-- C6 fails as stated for Service.Create: with price 0 and otherwise valid fields, Create
never returns an error that is ErrInvalidInput. Over a repository that accepts the write it
returns the entity (price 0) and no error; over a repository that refuses the row, as the
table's `CHECK (price > 0)` does, it returns the wrapped repository error, which is not
ErrInvalidInput. Either way the entity with price 0 was handed to Repository.Create. -/
theorem create_price_zero_is_never_invalid_input :
    ((0 : Int) < 1) ∧
    (NewSubscriptionService (recordingRepository subA none)).Create
        ⟨"Test Service", 0, 7, "07-2023", none⟩ []
      = (.ok (newSubscription ⟨"Test Service", 0, 7, "07-2023", none⟩ (monthStart 2023 7) none),
         [newSubscription ⟨"Test Service", 0, 7, "07-2023", none⟩ (monthStart 2023 7) none]) ∧
    (NewSubscriptionService (recordingRepository subA (some checkViolation))).Create
        ⟨"Test Service", 0, 7, "07-2023", none⟩ []
      = (.error (.wrapf "failed to create subscription: " checkViolation ""),
         [newSubscription ⟨"Test Service", 0, 7, "07-2023", none⟩ (monthStart 2023 7) none]) ∧
    errorsIs (.wrapf "failed to create subscription: " checkViolation "") .ErrInvalidInput
      = false :=
  ⟨by decide, rfl, rfl, rfl⟩

/-- C6 as amended. Service.Create does not inspect the price: for every creation request with
a well-formed start date and an accepted end date, whatever the price (price = 1 included),
Create returns the entity as soon as Repository.Create succeeds, and when Repository.Create
refuses it returns that error wrapped, which is ErrInvalidInput only if the repository's error
is. A price below 1 is refused earlier: the Create handler answers 400 from struct validation
(tags `required,min=1`) without calling the service. -/
theorem create_price_floor_is_checked_by_handler {σ : Type} (s : SubscriptionService σ)
    (req : CreateSubscriptionRequest) (w : σ) :
    (req.Price < 1 → ∃ message,
      SubscriptionHandler.Create s (.ok req) w = (⟨400, .error message⟩, w)) ∧
    (∀ sd endDate sub1 w1, ParseMonthYear req.StartDate = .ok sd →
      createEndDate req.EndDate sd = .ok endDate →
      s.repo.Create (newSubscription req sd endDate) w = ((sub1, none), w1) →
      s.Create req w = (.ok sub1, w1)) ∧
    (∀ sd endDate sub1 rerr w1, ParseMonthYear req.StartDate = .ok sd →
      createEndDate req.EndDate sd = .ok endDate →
      s.repo.Create (newSubscription req sd endDate) w = ((sub1, some rerr), w1) →
      s.Create req w = (.error (.wrapf "failed to create subscription: " rerr ""), w1) ∧
      errorsIs (.wrapf "failed to create subscription: " rerr "") .ErrInvalidInput
        = errorsIs rerr .ErrInvalidInput) := by
  refine ⟨?_, ?_, ?_⟩
  · intro hp
    have hne : createRequestFailures req ≠ [] := by
      unfold createRequestFailures
      by_cases h0 : req.Price = 0
      · simp [h0]
      · simp [h0, hp]
    unfold SubscriptionHandler.Create
    dsimp only
    rcases hf : createRequestFailures req with _ | ⟨f, fs⟩
    · exact absurd hf hne
    · exact ⟨_, rfl⟩
  · intro sd endDate sub1 w1 hs he hr
    rw [serviceCreate_of_start s req w sd hs, he]
    exact (persistCreate_ok s _ sub1 w w1).2 hr
  · intro sd endDate sub1 rerr w1 hs he hr
    constructor
    · rw [serviceCreate_of_start s req w sd hs, he]
      simp only [SubscriptionService.persistCreate, hr]
    · simp [errorsIs]

/-- C6 as amended, at price 0 (refused by the handler), at the test request with price 1
(created by the service), and at price 0 over a repository that refuses the row. -/
theorem create_price_floor_is_checked_by_handler_witness :
    (∃ message, SubscriptionHandler.Create service
        (.ok ⟨"Test Service", 0, 7, "07-2023", none⟩) (worldOf [])
      = (⟨400, .error message⟩, worldOf [])) ∧
    (service.Create ⟨"Test Service", 1, 7, "07-2023", none⟩ (worldOf [])).1
      = .ok { ID := 1000, ServiceName := "Test Service", Price := 1, UserID := 7,
              StartDate := monthStart 2023 7, EndDate := none,
              CreatedAt := sampleClock 0, UpdatedAt := sampleClock 1 } ∧
    ((NewSubscriptionService (recordingRepository subA (some checkViolation))).Create
        ⟨"Test Service", 0, 7, "07-2023", none⟩ []
      = (.error (.wrapf "failed to create subscription: " checkViolation ""),
         [newSubscription ⟨"Test Service", 0, 7, "07-2023", none⟩ (monthStart 2023 7) none]) ∧
      errorsIs (.wrapf "failed to create subscription: " checkViolation "") .ErrInvalidInput
        = false) :=
  ⟨(create_price_floor_is_checked_by_handler service
      ⟨"Test Service", 0, 7, "07-2023", none⟩ (worldOf [])).1 (by decide),
   congrArg Prod.fst
    ((create_price_floor_is_checked_by_handler service
      ⟨"Test Service", 1, 7, "07-2023", none⟩ (worldOf [])).2.1 (monthStart 2023 7) none
      { ID := 1000, ServiceName := "Test Service", Price := 1, UserID := 7,
        StartDate := monthStart 2023 7, EndDate := none,
        CreatedAt := sampleClock 0, UpdatedAt := sampleClock 1 }
      (SubscriptionRepository.Create
        (newSubscription ⟨"Test Service", 1, 7, "07-2023", none⟩ (monthStart 2023 7) none)
        (worldOf [])).2
      rfl rfl rfl),
   (create_price_floor_is_checked_by_handler
      (NewSubscriptionService (recordingRepository subA (some checkViolation)))
      ⟨"Test Service", 0, 7, "07-2023", none⟩ []).2.2 (monthStart 2023 7) none
      (newSubscription ⟨"Test Service", 0, 7, "07-2023", none⟩ (monthStart 2023 7) none)
      checkViolation
      [newSubscription ⟨"Test Service", 0, 7, "07-2023", none⟩ (monthStart 2023 7) none]
      rfl rfl rfl⟩

/-- The end-date block of Create when the request has no end date or an empty one. -/
theorem createEndDate_absent (e : Option String) (sd : Time) (h : e = none ∨ e = some "") :
    createEndDate e sd = .ok none := by
  rcases h with rfl | rfl <;> simp [createEndDate]

/-- C7. For a creation request with a well-formed start date and an end date that is absent,
empty or well formed, whenever Service.Create over the PostgreSQL repository succeeds the
entity it returns has the request's service name, price and user id, start date
ParseMonthYear(startDate), no end date when the request's is absent or empty and the parsed
end month otherwise, and the id and timestamps assigned by Repository.Create (the next UUID
and the next two clock readings); that entity is the row appended to the store. It does
succeed when the end date is not before the start date and the driver does not fail. -/
theorem create_returns_persisted_entity (w : World) (req : CreateSubscriptionRequest)
    (sd : Time) (hs : ParseMonthYear req.StartDate = .ok sd)
    (hend : req.EndDate = none ∨ req.EndDate = some "" ∨
      ∃ E ed, req.EndDate = some E ∧ ParseMonthYear E = .ok ed) :
    (∀ result w2, service.Create req w = (.ok result, w2) →
      result.ServiceName = req.ServiceName ∧ result.Price = req.Price ∧
      result.UserID = req.UserID ∧ result.StartDate = sd ∧
      (req.EndDate = none ∨ req.EndDate = some "" → result.EndDate = none) ∧
      (∀ E ed, req.EndDate = some E → E ≠ "" → ParseMonthYear E = .ok ed →
        result.EndDate = some ed) ∧
      result.ID = w.newUUID ∧ result.CreatedAt = w.mint.now ∧
      result.UpdatedAt = w.mint.tick.now ∧
      w2.rows = w.rows ++ [result]) ∧
    (w.fault = none →
      (∀ E ed, req.EndDate = some E → E ≠ "" → ParseMonthYear E = .ok ed →
        ed.Before sd = false) →
      ∃ result w2, service.Create req w = (.ok result, w2)) := by
  have hc := serviceCreate_of_start service req w sd hs
  constructor
  · intro result w2 hres
    rw [hc] at hres
    rcases hce : createEndDate req.EndDate sd with err | endDate
    · simp [hce] at hres
    · simp only [hce] at hres
      have hr := (persistCreate_ok service _ result w w2).1 hres
      obtain ⟨hval, hrows⟩ := repoCreate_ok _ result w w2 hr
      have hEnd : result.EndDate = endDate := by rw [hval]; rfl
      refine ⟨by rw [hval]; rfl, by rw [hval]; rfl, by rw [hval]; rfl, by rw [hval]; rfl,
        ?_, ?_, by rw [hval], by rw [hval], by rw [hval], hrows⟩
      · intro habs
        rw [createEndDate_absent _ sd habs] at hce
        cases hce
        exact hEnd
      · intro E ed hE hne he
        rw [hE, createEndDate_parsed E sd ed hne he] at hce
        split at hce
        · cases hce
        · cases hce
          exact hEnd
  · intro hf hnb
    have hce : ∃ endDate, createEndDate req.EndDate sd = .ok endDate := by
      rcases hend with h | h | ⟨E, ed, hE, he⟩
      · exact ⟨none, createEndDate_absent _ sd (Or.inl h)⟩
      · exact ⟨none, createEndDate_absent _ sd (Or.inr h)⟩
      · by_cases hne : E = ""
        · subst hne
          exact ⟨none, createEndDate_absent _ sd (Or.inr hE)⟩
        · refine ⟨some ed, ?_⟩
          rw [hE, createEndDate_parsed E sd ed hne he, hnb E ed hE hne he]
          rfl
    obtain ⟨endDate, hce⟩ := hce
    obtain ⟨w2, hr⟩ := repoCreate_succeeds (newSubscription req sd endDate) w hf
    refine ⟨{ newSubscription req sd endDate with
      ID := w.newUUID, CreatedAt := w.mint.now, UpdatedAt := w.mint.tick.now }, w2, ?_⟩
    rw [hc, hce]
    exact (persistCreate_ok service _ _ w w2).2 hr

/-- C7 at the test request (start 07-2023, no end date) and at one with end date 12-2023. -/
theorem create_returns_persisted_entity_witness :
    (∃ result w2, service.Create ⟨"Test Service", 100, 7, "07-2023", none⟩ (worldOf [])
      = (.ok result, w2)) ∧
    (∀ result w2, service.Create ⟨"Test Service", 100, 7, "07-2023", some "12-2023"⟩ worldAB
        = (.ok result, w2) →
      result.ServiceName = "Test Service" ∧ result.Price = 100 ∧ result.UserID = 7 ∧
      result.StartDate = monthStart 2023 7 ∧ result.EndDate = some (monthStart 2023 12) ∧
      result.ID = 1000 ∧ result.CreatedAt = sampleClock 0 ∧ result.UpdatedAt = sampleClock 1 ∧
      w2.rows = [subA, subB, result]) :=
  ⟨(create_returns_persisted_entity (worldOf []) ⟨"Test Service", 100, 7, "07-2023", none⟩
      (monthStart 2023 7) rfl (Or.inl rfl)).2 rfl (fun _ _ h => by cases h),
   fun result w2 h =>
    have c := (create_returns_persisted_entity worldAB
      ⟨"Test Service", 100, 7, "07-2023", some "12-2023"⟩ (monthStart 2023 7) rfl
      (Or.inr (Or.inr ⟨"12-2023", monthStart 2023 12, rfl, rfl⟩))).1 result w2 h
    ⟨c.1, c.2.1, c.2.2.1, c.2.2.2.1, c.2.2.2.2.2.1 "12-2023" (monthStart 2023 12) rfl (by decide) rfl,
     c.2.2.2.2.2.2.1, c.2.2.2.2.2.2.2.1, c.2.2.2.2.2.2.2.2.1, c.2.2.2.2.2.2.2.2.2⟩⟩

/-! ## Cost aggregation -/

theorem sqlText_beq (a b : String) : (SqlValue.text a == SqlValue.text b) = (a == b) := by
  by_cases h : a = b <;> simp [h]

theorem sqlUuid_beq (a b : UUID) : (SqlValue.uuid a == SqlValue.uuid b) = (a == b) := by
  by_cases h : a = b <;> simp [h]

/-- The statement built for a filter reads back as a WHERE clause that selects exactly the rows
that count for the filter. -/
theorem totalCostQuery_selects (filter : SubscriptionFilter) :
    ∃ conds, readTotalCostStatement (totalCostQuery filter).1 = some conds ∧
      ∀ row, selects conds (totalCostQuery filter).2 row = some (matchesFilter filter row) := by
  obtain ⟨u, n, sp, ep⟩ := filter
  rcases u with _ | u <;> rcases n with _ | n
  · refine ⟨[.leParam .start_date "end_period", .nullOrGeParam .end_date "start_period"],
      by rfl, fun row => ?_⟩
    cases hE : row.EndDate <;>
      simp [selects, Cond.holds, lookupParam, totalCostQuery, columnValue, sqlLe, matchesFilter,
        overlapsWindow, appliedServiceName, hE]
  · by_cases hn : n = ""
    · subst hn
      refine ⟨[.leParam .start_date "end_period", .nullOrGeParam .end_date "start_period"],
        by rfl, fun row => ?_⟩
      cases hE : row.EndDate <;>
        simp [selects, Cond.holds, lookupParam, totalCostQuery, columnValue, sqlLe,
          matchesFilter, overlapsWindow, appliedServiceName, hE]
    · refine ⟨[.eqParam .service_name "service_name", .leParam .start_date "end_period",
        .nullOrGeParam .end_date "start_period"], ?_, fun row => ?_⟩
      · simp only [totalCostQuery, hn, ne_eq, not_false_eq_true, if_true]
        rfl
      · cases hE : row.EndDate <;>
          simp [selects, Cond.holds, lookupParam, totalCostQuery, columnValue, sqlLe,
            matchesFilter, overlapsWindow, appliedServiceName, hE, hn, sqlText_beq, sqlUuid_beq,
            Bool.and_comm, Bool.and_left_comm]
  · refine ⟨[.eqParam .user_id "user_id", .leParam .start_date "end_period",
      .nullOrGeParam .end_date "start_period"], by rfl, fun row => ?_⟩
    cases hE : row.EndDate <;>
      simp [selects, Cond.holds, lookupParam, totalCostQuery, columnValue, sqlLe, matchesFilter,
        overlapsWindow, appliedServiceName, hE, sqlText_beq, sqlUuid_beq, Bool.and_comm, Bool.and_left_comm]
  · by_cases hn : n = ""
    · subst hn
      refine ⟨[.eqParam .user_id "user_id", .leParam .start_date "end_period",
        .nullOrGeParam .end_date "start_period"], by rfl, fun row => ?_⟩
      cases hE : row.EndDate <;>
        simp [selects, Cond.holds, lookupParam, totalCostQuery, columnValue, sqlLe,
          matchesFilter, overlapsWindow, appliedServiceName, hE, sqlText_beq, sqlUuid_beq, Bool.and_comm, Bool.and_left_comm]
    · refine ⟨[.eqParam .user_id "user_id", .eqParam .service_name "service_name",
        .leParam .start_date "end_period", .nullOrGeParam .end_date "start_period"],
        ?_, fun row => ?_⟩
      · simp only [totalCostQuery, hn, ne_eq, not_false_eq_true, if_true]
        rfl
      · cases hE : row.EndDate <;>
          simp [selects, Cond.holds, lookupParam, totalCostQuery, columnValue, sqlLe,
            matchesFilter, overlapsWindow, appliedServiceName, hE, hn, sqlText_beq, sqlUuid_beq,
            Bool.and_comm, Bool.and_left_comm]

/-- A WHERE clause that decides every row by `keep` selects the rows that `keep` keeps. -/
theorem selectRows_eq_filter (conds : List Cond) (params : List (String × SqlValue))
    (keep : Subscription → Bool) (h : ∀ row, selects conds params row = some (keep row))
    (rows : List Subscription) : selectRows conds params rows = some (rows.filter keep) := by
  induction rows with
  | nil => rfl
  | cons row more ih =>
    simp only [selectRows, h row, ih, List.filter_cons]

/-- The value of `COALESCE(SUM(price), 0)` is the plain sum, 0 over no rows. -/
theorem coalesce_sumPrice (rows : List Subscription) :
    coalesce (sumPrice rows) 0 = (rows.map (fun r => r.Price)).sum := by
  cases rows <;> simp [sumPrice, coalesce]

/-- With a driver that fails neither the prepare nor the query round trip, the PostgreSQL
CalculateTotalCost returns the specified total. -/
theorem repoTotalCost_eq (filter : SubscriptionFilter) (w : World)
    (h1 : w.fault = none) (h2 : w.sent.fault = none) :
    SubscriptionRepository.CalculateTotalCost filter w
      = (.ok (specTotalCost filter w.rows), w.sent.sent) := by
  obtain ⟨conds, hread, hsel⟩ := totalCostQuery_selects filter
  have hrows := selectRows_eq_filter conds (totalCostQuery filter).2 (matchesFilter filter) hsel
    w.rows
  have hrows2 : selectRows conds (totalCostQuery filter).2 w.sent.rows
      = some (w.rows.filter (matchesFilter filter)) := hrows
  unfold SubscriptionRepository.CalculateTotalCost
  simp only [h1, h2, hread, hrows2, coalesce_sumPrice]
  rfl

/-- The same through the service. -/
theorem serviceTotalCost_eq (filter : SubscriptionFilter) (w : World)
    (h1 : w.fault = none) (h2 : w.sent.fault = none) :
    service.CalculateTotalCost filter w
      = (.ok { TotalCost := specTotalCost filter w.rows }, w.sent.sent) := by
  have h := repoTotalCost_eq filter w h1 h2
  simp only [SubscriptionService.CalculateTotalCost, service, NewSubscriptionService,
    NewSubscriptionRepository, h]

/-- C8. For every filter and every store, when the driver fails neither round trip, the
statement built and run by Repository.CalculateTotalCost returns the sum of `price` over exactly
the rows with startDate ≤ filter.endPeriod and (endDate null or endDate ≥ filter.startPeriod)
that also equal the applied userId and serviceName filter values; the result is 0 when no row
matches. -/
theorem total_cost_sums_overlapping_rows (filter : SubscriptionFilter) (w : World)
    (h1 : w.fault = none) (h2 : w.sent.fault = none) :
    (SubscriptionRepository.CalculateTotalCost filter w).1
      = .ok ((w.rows.filter (matchesFilter filter)).map (fun r => r.Price)).sum ∧
    ((∀ row ∈ w.rows, matchesFilter filter row = false) →
      (SubscriptionRepository.CalculateTotalCost filter w).1 = .ok 0) := by
  have h := repoTotalCost_eq filter w h1 h2
  refine ⟨by rw [h]; rfl, fun hnone => ?_⟩
  rw [h]
  have : w.rows.filter (matchesFilter filter) = [] := by
    rw [List.filter_eq_nil_iff]
    intro row hrow
    simp [hnone row hrow]
  simp [specTotalCost, this]

/-- C8 on the store holding A and B, window 01-2023..12-2023, user 7. -/
theorem total_cost_sums_overlapping_rows_witness :
    (SubscriptionRepository.CalculateTotalCost
        ⟨some 7, none, monthStart 2023 1, monthStart 2023 12⟩ worldAB).1
      = .ok ((worldAB.rows.filter
          (matchesFilter ⟨some 7, none, monthStart 2023 1, monthStart 2023 12⟩)).map
            (fun r => r.Price)).sum ∧
    ((worldAB.rows.filter
        (matchesFilter ⟨some 7, none, monthStart 2023 1, monthStart 2023 12⟩)).map
          (fun r => r.Price)).sum = 300 :=
  ⟨(total_cost_sums_overlapping_rows ⟨some 7, none, monthStart 2023 1, monthStart 2023 12⟩
      worldAB rfl rfl).1, by decide⟩

/-- C9 fails as stated: on the store holding exactly A and B, the window 01-2024..12-2024
yields 100, not 0, because A has no end date and started before the window ends. -/
theorem total_cost_2024_window_counts_open_ended :
    ParseMonthYear "01-2024" = .ok (monthStart 2024 1) ∧
    ParseMonthYear "12-2024" = .ok (monthStart 2024 12) ∧
    (service.CalculateTotalCost ⟨none, none, monthStart 2024 1, monthStart 2024 12⟩ worldAB).1
      = .ok { TotalCost := 100 } ∧
    (service.CalculateTotalCost ⟨none, none, monthStart 2024 1, monthStart 2024 12⟩ worldAB).1
      ≠ .ok { TotalCost := 0 } := by
  have h := serviceTotalCost_eq ⟨none, none, monthStart 2024 1, monthStart 2024 12⟩ worldAB rfl rfl
  refine ⟨rfl, rfl, ?_, ?_⟩
  · rw [h]
    decide
  · rw [h]
    decide

/-- C9 as amended. With exactly two stored subscriptions A (price 100, start 01-2023, no end
date, a non-empty service name) and B (price 200, start 06-2023, end 12-2023, a different
service name) and a driver that does not fail, cost aggregation returns 300 for window
01-2023..12-2023 with no other filter, 100 for the same window narrowed to the service name
of A, and 100 for window 01-2024..12-2024, which the open-ended A still overlaps. -/
theorem total_cost_example (w : World) (a b : Subscription) (hrows : w.rows = [a, b])
    (haPrice : a.Price = 100) (haStart : a.StartDate = monthStart 2023 1)
    (haEnd : a.EndDate = none) (haName : a.ServiceName ≠ "")
    (hbPrice : b.Price = 200) (hbStart : b.StartDate = monthStart 2023 6)
    (hbEnd : b.EndDate = some (monthStart 2023 12)) (hbName : b.ServiceName ≠ a.ServiceName)
    (h1 : w.fault = none) (h2 : w.sent.fault = none) :
    (service.CalculateTotalCost ⟨none, none, monthStart 2023 1, monthStart 2023 12⟩ w).1
      = .ok { TotalCost := 300 } ∧
    (service.CalculateTotalCost
        ⟨none, some a.ServiceName, monthStart 2023 1, monthStart 2023 12⟩ w).1
      = .ok { TotalCost := 100 } ∧
    (service.CalculateTotalCost ⟨none, none, monthStart 2024 1, monthStart 2024 12⟩ w).1
      = .ok { TotalCost := 100 } := by
  have b1 : (monthStart 2023 12).Before (monthStart 2023 1) = false := by decide
  have b2 : (monthStart 2023 12).Before (monthStart 2023 6) = false := by decide
  have b3 : (monthStart 2024 12).Before (monthStart 2023 1) = false := by decide
  have b4 : (monthStart 2024 12).Before (monthStart 2023 6) = false := by decide
  have b5 : (monthStart 2023 12).Before (monthStart 2024 1) = true := by decide
  refine ⟨?_, ?_, ?_⟩
  · rw [serviceTotalCost_eq _ w h1 h2]
    simp [specTotalCost, hrows, matchesFilter, overlapsWindow, appliedServiceName, haPrice,
      haStart, haEnd, hbPrice, hbStart, hbEnd, b1, b2]
  · rw [serviceTotalCost_eq _ w h1 h2]
    simp [specTotalCost, hrows, matchesFilter, overlapsWindow, appliedServiceName, haPrice,
      haStart, haEnd, hbPrice, hbStart, hbEnd, b1, b2, haName, hbName]
  · rw [serviceTotalCost_eq _ w h1 h2]
    simp [specTotalCost, hrows, matchesFilter, overlapsWindow, appliedServiceName, haPrice,
      haStart, haEnd, hbPrice, hbStart, hbEnd, b3, b4, b5]

/-- C9 as amended, on the store holding A ("Yandex Plus") and B ("Netflix"). -/
theorem total_cost_example_witness :
    (service.CalculateTotalCost ⟨none, none, monthStart 2023 1, monthStart 2023 12⟩ worldAB).1
      = .ok { TotalCost := 300 } ∧
    (service.CalculateTotalCost
        ⟨none, some "Yandex Plus", monthStart 2023 1, monthStart 2023 12⟩ worldAB).1
      = .ok { TotalCost := 100 } ∧
    (service.CalculateTotalCost ⟨none, none, monthStart 2024 1, monthStart 2024 12⟩ worldAB).1
      = .ok { TotalCost := 100 } :=
  total_cost_example worldAB subA subB rfl rfl rfl rfl (by decide) rfl rfl rfl (by decide)
    rfl rfl

/-- C10 fails as stated: a filter whose serviceName is present but empty gets no service_name
condition and no `service_name` parameter; only the two period conditions are written. -/
theorem total_cost_query_skips_empty_service_name :
    (⟨none, some "", monthStart 2023 1, monthStart 2023 12⟩ : SubscriptionFilter).ServiceName
      ≠ none ∧
    (totalCostQuery ⟨none, some "", monthStart 2023 1, monthStart 2023 12⟩).1
      = "SELECT COALESCE(SUM(price), 0) FROM subscriptions WHERE 1=1"
        ++ " AND (start_date <= :end_period)"
        ++ " AND (end_date IS NULL OR end_date >= :start_period)" ∧
    readTotalCostStatement (totalCostQuery ⟨none, some "", monthStart 2023 1, monthStart 2023 12⟩).1
      = some [.leParam .start_date "end_period", .nullOrGeParam .end_date "start_period"] ∧
    lookupParam (totalCostQuery ⟨none, some "", monthStart 2023 1, monthStart 2023 12⟩).2
      "service_name" = none :=
  ⟨by decide, rfl, rfl, rfl⟩

/-- C10 as amended. The statement built by Repository.CalculateTotalCost has the exact-match
user_id condition if and only if filter.userId is present, and the exact-match service_name
condition if and only if filter.serviceName is present and not the empty string; a filter
value that is not applied contributes no condition and no bound parameter, an applied one is
bound under its name, and the two period conditions are always there, bound to the filter's
endPeriod and startPeriod. -/
theorem total_cost_query_conditions (filter : SubscriptionFilter) :
    ∃ conds, readTotalCostStatement (totalCostQuery filter).1 = some conds ∧
      (Cond.eqParam .user_id "user_id" ∈ conds ↔ filter.UserID ≠ none) ∧
      lookupParam (totalCostQuery filter).2 "user_id" = filter.UserID.map SqlValue.uuid ∧
      (Cond.eqParam .service_name "service_name" ∈ conds ↔
        ∃ n, filter.ServiceName = some n ∧ n ≠ "") ∧
      lookupParam (totalCostQuery filter).2 "service_name"
        = (appliedServiceName filter).map SqlValue.text ∧
      Cond.leParam .start_date "end_period" ∈ conds ∧
      Cond.nullOrGeParam .end_date "start_period" ∈ conds ∧
      lookupParam (totalCostQuery filter).2 "end_period" = some (.time filter.EndPeriod) ∧
      lookupParam (totalCostQuery filter).2 "start_period" = some (.time filter.StartPeriod) ∧
      (totalCostQuery filter).2.length = conds.length := by
  obtain ⟨u, n, sp, ep⟩ := filter
  rcases u with _ | u <;> rcases n with _ | n
  · exact ⟨[.leParam .start_date "end_period", .nullOrGeParam .end_date "start_period"],
      by rfl, by simp [totalCostQuery, lookupParam, appliedServiceName]⟩
  · by_cases hn : n = ""
    · subst hn
      exact ⟨[.leParam .start_date "end_period", .nullOrGeParam .end_date "start_period"],
        by rfl, by simp [totalCostQuery, lookupParam, appliedServiceName]⟩
    · refine ⟨[.eqParam .service_name "service_name", .leParam .start_date "end_period",
        .nullOrGeParam .end_date "start_period"], ?_, ?_⟩
      · simp only [totalCostQuery, hn, ne_eq, not_false_eq_true, if_true]
        rfl
      · simp [totalCostQuery, lookupParam, appliedServiceName, hn]
  · exact ⟨[.eqParam .user_id "user_id", .leParam .start_date "end_period",
      .nullOrGeParam .end_date "start_period"],
      by rfl, by simp [totalCostQuery, lookupParam, appliedServiceName]⟩
  · by_cases hn : n = ""
    · subst hn
      exact ⟨[.eqParam .user_id "user_id", .leParam .start_date "end_period",
        .nullOrGeParam .end_date "start_period"],
        by rfl, by simp [totalCostQuery, lookupParam, appliedServiceName]⟩
    · refine ⟨[.eqParam .user_id "user_id", .eqParam .service_name "service_name",
        .leParam .start_date "end_period", .nullOrGeParam .end_date "start_period"], ?_, ?_⟩
      · simp only [totalCostQuery, hn, ne_eq, not_false_eq_true, if_true]
        rfl
      · simp [totalCostQuery, lookupParam, appliedServiceName, hn]

/-! ## Period parser: accepted strings, result and round trips -/

theorem isDigit_eq (c : Char) : isDigit c = c.isDigit := by
  simp [isDigit, Char.isDigit, Char.le_def, UInt32.le_def, Bool.and_comm]

theorem digitVal_eq (c : Char) : digitVal c = c.toNat - 48 := rfl

theorem isDigit_digitChar (k : Nat) (h : k < 10) : isDigit (digitChar k) = true := by
  interval_cases k <;> rfl

theorem digitVal_digitChar (k : Nat) (h : k < 10) : digitVal (digitChar k) = k := by
  interval_cases k <;> rfl

theorem isDigit_bounds (c : Char) (h : isDigit c = true) : 48 ≤ c.toNat ∧ c.toNat ≤ 57 := by
  simp [isDigit, Char.le_def, UInt32.le_def] at h
  exact h

theorem digitVal_lt (c : Char) (h : isDigit c = true) : digitVal c < 10 := by
  have := isDigit_bounds c h
  rw [digitVal_eq]
  omega

theorem digitChar_digitVal (c : Char) (h : isDigit c = true) : digitChar (digitVal c) = c := by
  have hb := isDigit_bounds c h
  have : 48 + (c.toNat - 48) = c.toNat := by omega
  rw [digitChar, digitVal_eq, this, Char.ofNat_toNat]

/-- The shape of a valid MM-YYYY string, spelled out. -/
theorem isMonthYearString_iff (s : String) :
    isMonthYearString s = true ↔
      ∃ m1 m2 y1 y2 y3 y4, s.toList = [m1, m2, '-', y1, y2, y3, y4] ∧
        isDigit m1 = true ∧ isDigit m2 = true ∧ isDigit y1 = true ∧ isDigit y2 = true ∧
        isDigit y3 = true ∧ isDigit y4 = true ∧
        1 ≤ digitVal m1 * 10 + digitVal m2 ∧ digitVal m1 * 10 + digitVal m2 ≤ 12 := by
  unfold isMonthYearString
  constructor
  · intro h
    split at h
    · rename_i m1 m2 sep y1 y2 y3 y4 hl
      simp only [Bool.and_eq_true, beq_iff_eq, decide_eq_true_eq, monthOf, hl, List.take,
        decimalValue, List.foldl, ← isDigit_eq] at h
      obtain ⟨⟨⟨⟨⟨⟨⟨⟨h1, h2⟩, hs⟩, h3⟩, h4⟩, h5⟩, h6⟩, h7⟩, h8⟩ := h
      subst hs
      refine ⟨m1, m2, y1, y2, y3, y4, hl, h1, h2, h3, h4, h5, h6, ?_, ?_⟩
      · rw [digitVal_eq, digitVal_eq]; omega
      · rw [digitVal_eq, digitVal_eq]; omega
    · cases h
  · rintro ⟨m1, m2, y1, y2, y3, y4, hl, h1, h2, h3, h4, h5, h6, h7, h8⟩
    rw [digitVal_eq, digitVal_eq] at h7 h8
    simp only [hl, monthOf, List.take, decimalValue, List.foldl, ← isDigit_eq, h1, h2, h3, h4,
      h5, h6, beq_self_eq_true, Bool.and_self, Bool.true_and, Bool.and_eq_true,
      decide_eq_true_eq]
    omega

/-- On a valid MM-YYYY string, ParseMonthYear returns the first day of the named month. -/
theorem ParseMonthYear_of_valid (s : String) (h : isMonthYearString s = true) :
    ParseMonthYear s = .ok (monthStart (yearOf s) (monthOf s)) := by
  obtain ⟨m1, m2, y1, y2, y3, y4, hl, h1, h2, h3, h4, h5, h6, h7, h8⟩ :=
    (isMonthYearString_iff s).1 h
  have hm : ¬ (digitVal m1 * 10 + digitVal m2 = 0 ∨ 12 < digitVal m1 * 10 + digitVal m2) := by
    omega
  have hmo : monthOf s = digitVal m1 * 10 + digitVal m2 := by
    simp only [monthOf, hl, List.take, decimalValue, List.foldl, digitVal_eq]
    omega
  have hyo : yearOf s = digitVal y1 * 1000 + digitVal y2 * 100 + digitVal y3 * 10 + digitVal y4 := by
    simp only [yearOf, hl, List.drop, decimalValue, List.foldl, digitVal_eq]
    omega
  unfold ParseMonthYear timeParseMonthYear
  simp only [hl, h1, h2, h3, h4, h5, h6, Bool.and_self, if_true, hm, if_false, hmo, hyo]

/-- ParseMonthYear succeeds on valid MM-YYYY strings only. -/
theorem ParseMonthYear_ok_valid (s : String) (t : Time) (h : ParseMonthYear s = .ok t) :
    isMonthYearString s = true := by
  unfold ParseMonthYear at h
  split at h
  · cases h
  · rename_i parsed hp
    clear h
    unfold timeParseMonthYear at hp
    repeat' (first | split at hp | (dsimp only at hp; split at hp))
    all_goals first
      | (cases hp; done)
      | (rename_i m1 m2 hd _ y1 y2 y3 y4 extra hl hy he hm
         subst he
         simp only [Bool.and_eq_true] at hd hy
         exact (isMonthYearString_iff s).2
           ⟨m1, m2, y1, y2, y3, y4, hl, hd.1, hd.2, hy.1.1.1, hy.1.1.2, hy.1.2, hy.2,
            by omega, by omega⟩)

/-- Every failure of ParseMonthYear is the format error wrapping the library error. -/
theorem ParseMonthYear_error_shape (s : String) (err : GoError)
    (h : ParseMonthYear s = .error err) :
    ∃ msg, err = .wrapf "invalid date format: " (.external msg) "" := by
  unfold ParseMonthYear at h
  split at h
  · rename_i perr hp
    obtain ⟨msg, rfl⟩ := timeParseMonthYear_error s perr hp
    cases h
    exact ⟨msg, rfl⟩
  · cases h

/-- The text FormatMonthYear writes for the first day of a month given by its digits. -/
theorem FormatMonthYear_of_digits (m1 m2 y1 y2 y3 y4 : Char)
    (h1 : isDigit m1 = true) (h2 : isDigit m2 = true) (h3 : isDigit y1 = true)
    (h4 : isDigit y2 = true) (h5 : isDigit y3 = true) (h6 : isDigit y4 = true) :
    FormatMonthYear (monthStart
        ((digitVal y1 * 1000 + digitVal y2 * 100 + digitVal y3 * 10 + digitVal y4 : Nat) : Int)
        (digitVal m1 * 10 + digitVal m2))
      = String.mk [m1, m2, '-', y1, y2, y3, y4] := by
  have b1 := digitVal_lt m1 h1
  have b2 := digitVal_lt m2 h2
  have b3 := digitVal_lt y1 h3
  have b4 := digitVal_lt y2 h4
  have b5 := digitVal_lt y3 h5
  have b6 := digitVal_lt y4 h6
  have e0 : digitVal m1 * 10 + digitVal m2 < 100 := by omega
  have e1 : (digitVal m1 * 10 + digitVal m2) / 10 = digitVal m1 := by omega
  have e2 : (digitVal m1 * 10 + digitVal m2) % 10 = digitVal m2 := by omega
  have f0 : digitVal y1 * 1000 + digitVal y2 * 100 + digitVal y3 * 10 + digitVal y4 < 10000 := by
    omega
  have f1 : (digitVal y1 * 1000 + digitVal y2 * 100 + digitVal y3 * 10 + digitVal y4) / 1000
      = digitVal y1 := by omega
  have f2 : (digitVal y1 * 1000 + digitVal y2 * 100 + digitVal y3 * 10 + digitVal y4) / 100 % 10
      = digitVal y2 := by omega
  have f3 : (digitVal y1 * 1000 + digitVal y2 * 100 + digitVal y3 * 10 + digitVal y4) / 10 % 10
      = digitVal y3 := by omega
  have f4 : (digitVal y1 * 1000 + digitVal y2 * 100 + digitVal y3 * 10 + digitVal y4) % 10
      = digitVal y4 := by omega
  have n1 : ¬ (((digitVal m1 * 10 + digitVal m2 : Nat) : Int) < 0) := by omega
  have n2 : ¬ (((digitVal y1 * 1000 + digitVal y2 * 100 + digitVal y3 * 10 + digitVal y4 : Nat)
      : Int) < 0) := by omega
  simp only [FormatMonthYear, timeFormatMonthYear, appendInt, monthStart, Int.natAbs_ofNat, n1,
    n2, if_false, e0, e1, e2, f0, f1, f2, f3, f4, true_and, and_self, if_true, List.nil_append,
    List.cons_append, digitChar_digitVal, h1, h2, h3, h4, h5, h6]
  rw [if_neg (by omega)]

/-- The text FormatMonthYear writes for a date-time in a month 1..12 of a year 0..9999. -/
theorem FormatMonthYear_in_range (d : Time) (hm1 : 1 ≤ d.month) (hm2 : d.month ≤ 12)
    (hy1 : 0 ≤ d.year) (hy2 : d.year ≤ 9999) :
    FormatMonthYear d = String.mk [digitChar (d.month / 10), digitChar (d.month % 10), '-',
      digitChar (d.year.natAbs / 1000), digitChar (d.year.natAbs / 100 % 10),
      digitChar (d.year.natAbs / 10 % 10), digitChar (d.year.natAbs % 10)] := by
  have n1 : ¬ ((d.month : Int) < 0) := by omega
  have n2 : ¬ (d.year < 0) := by omega
  have e0 : d.month < 100 := by omega
  have f0 : d.year.natAbs < 10000 := by omega
  simp only [FormatMonthYear, timeFormatMonthYear, appendInt, Int.natAbs_ofNat, n1, n2,
    if_false, e0, f0, true_and, and_self, if_true, List.nil_append, List.cons_append]
  rw [if_neg (by omega)]

/-- ParseMonthYear on a text of seven characters: digits, a hyphen, digits. -/
theorem ParseMonthYear_of_digits (m1 m2 y1 y2 y3 y4 : Char)
    (h1 : isDigit m1 = true) (h2 : isDigit m2 = true) (h3 : isDigit y1 = true)
    (h4 : isDigit y2 = true) (h5 : isDigit y3 = true) (h6 : isDigit y4 = true)
    (hm : 1 ≤ digitVal m1 * 10 + digitVal m2 ∧ digitVal m1 * 10 + digitVal m2 ≤ 12) :
    ParseMonthYear (String.mk [m1, m2, '-', y1, y2, y3, y4])
      = .ok (monthStart
          ((digitVal y1 * 1000 + digitVal y2 * 100 + digitVal y3 * 10 + digitVal y4 : Nat) : Int)
          (digitVal m1 * 10 + digitVal m2)) := by
  have hv : isMonthYearString (String.mk [m1, m2, '-', y1, y2, y3, y4]) = true :=
    (isMonthYearString_iff _).2 ⟨m1, m2, y1, y2, y3, y4, rfl, h1, h2, h3, h4, h5, h6, hm.1, hm.2⟩
  rw [ParseMonthYear_of_valid _ hv]
  have hmo : monthOf (String.mk [m1, m2, '-', y1, y2, y3, y4])
      = digitVal m1 * 10 + digitVal m2 := by
    simp only [monthOf, String.toList, List.take, decimalValue, List.foldl, digitVal_eq]
    omega
  have hyo : yearOf (String.mk [m1, m2, '-', y1, y2, y3, y4])
      = digitVal y1 * 1000 + digitVal y2 * 100 + digitVal y3 * 10 + digitVal y4 := by
    simp only [yearOf, String.toList, List.drop, decimalValue, List.foldl, digitVal_eq]
    omega
  rw [hmo, hyo]

/-- C13. For every valid MM-YYYY string s (two-digit month 01..12, four-digit year),
ParseMonthYear(s) succeeds and FormatMonthYear of its result is s again. -/
theorem format_after_parse_is_identity (s : String) (h : isMonthYearString s = true) :
    ∃ t, ParseMonthYear s = .ok t ∧ FormatMonthYear t = s := by
  obtain ⟨m1, m2, y1, y2, y3, y4, hl, h1, h2, h3, h4, h5, h6, h7, h8⟩ :=
    (isMonthYearString_iff s).1 h
  have hs : s = String.mk [m1, m2, '-', y1, y2, y3, y4] := by
    rw [← hl]
    rfl
  subst hs
  exact ⟨_, ParseMonthYear_of_digits m1 m2 y1 y2 y3 y4 h1 h2 h3 h4 h5 h6 ⟨h7, h8⟩,
    FormatMonthYear_of_digits m1 m2 y1 y2 y3 y4 h1 h2 h3 h4 h5 h6⟩

/-- C13 at "07-2023" and at "12-0000". -/
theorem format_after_parse_is_identity_witness :
    (∃ t, ParseMonthYear "07-2023" = .ok t ∧ FormatMonthYear t = "07-2023") ∧
    (∃ t, ParseMonthYear "12-0000" = .ok t ∧ FormatMonthYear t = "12-0000") :=
  ⟨format_after_parse_is_identity "07-2023" (by decide),
   format_after_parse_is_identity "12-0000" (by decide)⟩

/-- C14 fails as stated: for a date-time in year 10000, FormatMonthYear writes five year
digits ("01-10000") and ParseMonthYear refuses that text. -/
theorem parse_after_format_fails_in_year_10000 :
    FormatMonthYear ⟨10000, 1, 15, 12, 30, 0, 0⟩ = "01-10000" ∧
    ParseMonthYear (FormatMonthYear ⟨10000, 1, 15, 12, 30, 0, 0⟩)
      = .error (.wrapf "invalid date format: "
          (.external "parsing time \"01-10000\": extra text: \"0\"") "") ∧
    ParseMonthYear (FormatMonthYear ⟨10000, 1, 15, 12, 30, 0, 0⟩)
      ≠ .ok (normalizeToMonth ⟨10000, 1, 15, 12, 30, 0, 0⟩) :=
  ⟨by rfl, by rfl, by decide⟩

/-- C14 as amended. For any date-time d in a year 0..9999, whatever its day and time of day,
ParseMonthYear(FormatMonthYear(d)) succeeds and equals d normalized to the first day of its
month at midnight UTC. -/
theorem parse_after_format_normalizes (d : Time) (hm1 : 1 ≤ d.month) (hm2 : d.month ≤ 12)
    (hy1 : 0 ≤ d.year) (hy2 : d.year ≤ 9999) :
    ParseMonthYear (FormatMonthYear d) = .ok (normalizeToMonth d) := by
  have k1 : d.month / 10 < 10 := by omega
  have k2 : d.month % 10 < 10 := by omega
  have k3 : d.year.natAbs / 1000 < 10 := by omega
  have k4 : d.year.natAbs / 100 % 10 < 10 := by omega
  have k5 : d.year.natAbs / 10 % 10 < 10 := by omega
  have k6 : d.year.natAbs % 10 < 10 := by omega
  rw [FormatMonthYear_in_range d hm1 hm2 hy1 hy2,
    ParseMonthYear_of_digits _ _ _ _ _ _ (isDigit_digitChar _ k1) (isDigit_digitChar _ k2)
      (isDigit_digitChar _ k3) (isDigit_digitChar _ k4) (isDigit_digitChar _ k5)
      (isDigit_digitChar _ k6)
      (by rw [digitVal_digitChar _ k1, digitVal_digitChar _ k2]; omega)]
  rw [digitVal_digitChar _ k1, digitVal_digitChar _ k2, digitVal_digitChar _ k3,
    digitVal_digitChar _ k4, digitVal_digitChar _ k5, digitVal_digitChar _ k6]
  have e1 : d.month / 10 * 10 + d.month % 10 = d.month := by omega
  have e2 : ((d.year.natAbs / 1000 * 1000 + d.year.natAbs / 100 % 10 * 100
      + d.year.natAbs / 10 % 10 * 10 + d.year.natAbs % 10 : Nat) : Int) = d.year := by omega
  rw [e1, e2]
  rfl

/-- C14 as amended, at 2023-07-15 13:45:10.000000999 and at the last instant of year 9999. -/
theorem parse_after_format_normalizes_witness :
    ParseMonthYear (FormatMonthYear ⟨2023, 7, 15, 13, 45, 10, 999⟩)
      = .ok ⟨2023, 7, 1, 0, 0, 0, 0⟩ ∧
    ParseMonthYear (FormatMonthYear ⟨9999, 12, 31, 23, 59, 59, 999999999⟩)
      = .ok ⟨9999, 12, 1, 0, 0, 0, 0⟩ :=
  ⟨parse_after_format_normalizes ⟨2023, 7, 15, 13, 45, 10, 999⟩ (by decide) (by decide)
      (by decide) (by decide),
   parse_after_format_normalizes ⟨9999, 12, 31, 23, 59, 59, 999999999⟩ (by decide) (by decide)
      (by decide) (by decide)⟩

/-- C15. ParseMonthYear succeeds for every string that is exactly a two-digit month 01..12, a
hyphen and a four-digit year, and fails for every other string, with the format error
"invalid date format: ..." wrapping the error of time.Parse. -/
theorem parse_accepts_exactly_month_year_strings (s : String) :
    (isMonthYearString s = true → ∃ t, ParseMonthYear s = .ok t) ∧
    (isMonthYearString s = false →
      ∃ msg, ParseMonthYear s = .error (.wrapf "invalid date format: " (.external msg) "")) := by
  constructor
  · intro h
    exact ⟨_, ParseMonthYear_of_valid s h⟩
  · intro h
    rcases hp : ParseMonthYear s with err | t
    · obtain ⟨msg, rfl⟩ := ParseMonthYear_error_shape s err hp
      exact ⟨msg, rfl⟩
    · rw [ParseMonthYear_ok_valid s t hp] at h
      cases h

/-- C15 at "07-2023" and at the malformed texts "invalid-date", "13-2023", "00-2023",
"7-2023", "07-23", "07-2023x" and the empty string. -/
theorem parse_accepts_exactly_month_year_strings_witness :
    (∃ t, ParseMonthYear "07-2023" = .ok t) ∧
    (∃ msg, ParseMonthYear "invalid-date"
      = .error (.wrapf "invalid date format: " (.external msg) "")) ∧
    (∃ msg, ParseMonthYear "13-2023"
      = .error (.wrapf "invalid date format: " (.external msg) "")) ∧
    (∃ msg, ParseMonthYear "00-2023"
      = .error (.wrapf "invalid date format: " (.external msg) "")) ∧
    (∃ msg, ParseMonthYear "7-2023"
      = .error (.wrapf "invalid date format: " (.external msg) "")) ∧
    (∃ msg, ParseMonthYear "07-23"
      = .error (.wrapf "invalid date format: " (.external msg) "")) ∧
    (∃ msg, ParseMonthYear "07-2023x"
      = .error (.wrapf "invalid date format: " (.external msg) "")) ∧
    (∃ msg, ParseMonthYear ""
      = .error (.wrapf "invalid date format: " (.external msg) "")) :=
  ⟨(parse_accepts_exactly_month_year_strings "07-2023").1 (by decide),
   (parse_accepts_exactly_month_year_strings "invalid-date").2 (by decide),
   (parse_accepts_exactly_month_year_strings "13-2023").2 (by decide),
   (parse_accepts_exactly_month_year_strings "00-2023").2 (by decide),
   (parse_accepts_exactly_month_year_strings "7-2023").2 (by decide),
   (parse_accepts_exactly_month_year_strings "07-23").2 (by decide),
   (parse_accepts_exactly_month_year_strings "07-2023x").2 (by decide),
   (parse_accepts_exactly_month_year_strings "").2 (by decide)⟩

/-- C16. For every valid MM-YYYY string with month m and year y, ParseMonthYear returns the
date with year y, month m, day 1 and time of day 00:00:00 UTC. -/
theorem parse_returns_first_day_of_month (s : String) (h : isMonthYearString s = true) :
    ParseMonthYear s
      = .ok { year := (yearOf s : Int), month := monthOf s, day := 1,
              hour := 0, minute := 0, second := 0, nsec := 0 } :=
  ParseMonthYear_of_valid s h

/-- C16 at "07-2023": July 1, 2023, 00:00:00 UTC. -/
theorem parse_returns_first_day_of_month_witness :
    ParseMonthYear "07-2023" = .ok ⟨2023, 7, 1, 0, 0, 0, 0⟩ :=
  parse_returns_first_day_of_month "07-2023" (by decide)

/-! ## Entity invariants through the service -/

/-- Every entity Create builds satisfies "endDate, if set, is not before startDate". -/
theorem createEndDate_ordered (req : CreateSubscriptionRequest) (sd : Time)
    (endDate : Option Time) (h : createEndDate req.EndDate sd = .ok endDate) :
    endNotBeforeStart (newSubscription req sd endDate) = true := by
  unfold createEndDate at h
  unfold endNotBeforeStart newSubscription
  repeat' (split at h)
  all_goals first
    | (cases h; done)
    | (cases h; rfl)
    | (cases h; simp_all)

/-- Update keeps "endDate, if set, is not before startDate" whenever the request leaves the
start date alone or carries the endDate field. -/
theorem applyUpdate_ordered (stored handed : Subscription) (req : UpdateSubscriptionRequest)
    (hinv : endNotBeforeStart stored = true) (h : applyUpdate stored req = .ok handed)
    (hcase : req.StartDate = "" ∨ req.EndDate ≠ none) :
    endNotBeforeStart handed = true := by
  unfold applyUpdate at h
  split at h
  · cases h
  · rename_i sub3 h3
    have f1 := setServiceName_frame stored req
    have f2 := setPrice_frame (setServiceName stored req) req
    have f3 := setStartDate_frame _ sub3 req h3
    rcases hE : req.EndDate with _ | E
    · rcases hcase with hs | hne
      · have hh : handed = sub3 := by
          simp [setEndDate, hE] at h
          exact h.symm
        subst hh
        have e1 : handed.StartDate = stored.StartDate := by
          rw [f3.2.2.1 hs, f2.2.2.1, f1.2.2.1]
        have e2 : handed.EndDate = stored.EndDate := by
          rw [f3.2.2.2.1, f2.2.2.2.1, f1.2.2.2.1]
        unfold endNotBeforeStart at hinv ⊢
        rw [e1, e2]
        exact hinv
      · exact absurd hE hne
    · unfold setEndDate at h
      rw [hE] at h
      dsimp only at h
      repeat' (split at h)
      all_goals first
        | (cases h; done)
        | (cases h; rfl)
        | (cases h; simp_all [endNotBeforeStart])

/-- C11. The update of the start date alone breaks "endDate, if set, is ≥ startDate": the
stored subscription C runs from 01-2023 to 06-2023 and satisfies the invariant; the request
carrying only startDate "01-2024" succeeds, and the entity handed to Repository.Update, returned
and stored starts in 01-2024 and still ends in 06-2023. -/
theorem update_start_date_alone_breaks_date_order :
    endNotBeforeStart subC = true ∧
    applyUpdate subC ⟨"", none, "01-2024", none⟩
      = .ok { subC with StartDate := monthStart 2024 1 } ∧
    endNotBeforeStart { subC with StartDate := monthStart 2024 1 } = false ∧
    (service.Update 3 ⟨"", none, "01-2024", none⟩ (worldOf [subC])).1
      = .ok { subC with StartDate := monthStart 2024 1, UpdatedAt := sampleClock 0 } ∧
    (service.Update 3 ⟨"", none, "01-2024", none⟩ (worldOf [subC])).2.rows
      = [{ subC with StartDate := monthStart 2024 1, UpdatedAt := sampleClock 0 }] :=
  ⟨by decide, by rfl, by decide, by rfl, by rfl⟩

/-- The handlers write an error body as it is. -/
theorem respondWithError_eq (code : Nat) (message : String) :
    respondWithError code message = ⟨code, .error message⟩ := rfl

/-- No failure means no validation error. -/
theorem validationError_none (struct : String) (failures : List (String × String)) :
    validationError struct failures = none ↔ failures = [] := by
  cases failures <;> simp [validationError]

/-- An error value is itself (errors.Is on equal values). -/
theorem errorsIs_self (e : GoError) : errorsIs e e = true := by
  cases e <;> simp [errorsIs]

/-- Wrapping with fmt.Errorf keeps what the wrapped error is. -/
theorem errorsIs_wrapf_of_inner (pre post : String) (inner target : GoError)
    (h : errorsIs inner target = true) : errorsIs (.wrapf pre inner post) target = true := by
  simp [errorsIs, h]

/-- The PostgreSQL Get on an id without a row, the driver answering. -/
theorem repoGet_not_found (w : World) (id : UUID) (hno : ∀ r ∈ w.rows, r.ID ≠ id)
    (hf : w.fault = none) :
    SubscriptionRepository.Get id w = (.error .ErrSubscriptionNotFound, w.sent) := by
  have hfind : w.rows.find? (fun r => r.ID == id) = none := by
    rw [List.find?_eq_none]
    intro r hr
    simpa using hno r hr
  unfold SubscriptionRepository.Get
  simp only [hf, hfind]
  rfl

/-- The number of rows an id selects when no row has it. -/
theorem rowsAffected_zero (rows : List Subscription) (id : UUID)
    (hno : ∀ r ∈ rows, r.ID ≠ id) : (rows.filter (fun r => r.ID == id)).length = 0 := by
  have : rows.filter (fun r => r.ID == id) = [] := by
    rw [List.filter_eq_nil_iff]
    intro r hr
    simpa using hno r hr
  rw [this]
  rfl

/-- C17. For every id with no matching row in the store, the driver answering, Service.Get,
Service.Update (for every request) and Service.Delete over the PostgreSQL repository each fail
with an error that is ErrSubscriptionNotFound; the repository reports ErrSubscriptionNotFound
itself when Get finds no row and when Update or Delete affect zero rows. -/
theorem missing_id_is_not_found (w : World) (id : UUID) (hno : ∀ r ∈ w.rows, r.ID ≠ id)
    (hf : w.fault = none) (hra : w.rowsAffectedErr = none) :
    (∃ err, (service.Get id w).1 = .error err ∧
      errorsIs err .ErrSubscriptionNotFound = true) ∧
    (∀ req, ∃ err, (service.Update id req w).1 = .error err ∧
      errorsIs err .ErrSubscriptionNotFound = true) ∧
    (∃ err, (service.Delete id w).1 = some err ∧
      errorsIs err .ErrSubscriptionNotFound = true) ∧
    (SubscriptionRepository.Get id w).1 = .error .ErrSubscriptionNotFound ∧
    (∀ sub, sub.ID = id →
      (SubscriptionRepository.Update sub w).1.2 = some .ErrSubscriptionNotFound) ∧
    (SubscriptionRepository.Delete id w).1 = some .ErrSubscriptionNotFound := by
  have hg := repoGet_not_found w id hno hf
  have hd : SubscriptionRepository.Delete id w
      = (some .ErrSubscriptionNotFound,
          { w.sent with rows := w.rows.filter (fun r => !(r.ID == id)) }) := by
    unfold SubscriptionRepository.Delete
    have hra2 : w.sent.rowsAffectedErr = none := hra
    simp only [hf, hra2, rowsAffected_zero w.rows id hno, if_true]
  refine ⟨?_, ?_, ?_, ?_, ?_, ?_⟩
  · refine ⟨.wrapf "failed to get subscription: " .ErrSubscriptionNotFound "", ?_, ?_⟩
    · simp only [SubscriptionService.Get, service, NewSubscriptionService,
        NewSubscriptionRepository, hg]
    · exact errorsIs_wrapf_of_inner _ _ _ _ (errorsIs_self _)
  · intro req
    refine ⟨.wrapf "failed to get subscription for update: " .ErrSubscriptionNotFound "",
      ?_, ?_⟩
    · simp only [SubscriptionService.Update, service, NewSubscriptionService,
        NewSubscriptionRepository, hg]
    · exact errorsIs_wrapf_of_inner _ _ _ _ (errorsIs_self _)
  · refine ⟨.wrapf "failed to delete subscription: " .ErrSubscriptionNotFound "", ?_, ?_⟩
    · simp only [SubscriptionService.Delete, service, NewSubscriptionService,
        NewSubscriptionRepository, hd]
    · exact errorsIs_wrapf_of_inner _ _ _ _ (errorsIs_self _)
  · rw [hg]
  · intro sub hid
    have hf1 : w.tick.fault = none := hf
    have hra1 : w.tick.sent.rowsAffectedErr = none := hra
    have hz : (w.tick.rows.filter
        (fun r => r.ID == ({ sub with UpdatedAt := w.now } : Subscription).ID)).length = 0 := by
      have := rowsAffected_zero w.rows id hno
      rw [← hid] at this
      exact this
    unfold SubscriptionRepository.Update
    simp only [hf1, hra1, hz, if_true]
  · rw [hd]

/-- C17 on the store holding A and B, for id 99. -/
theorem missing_id_is_not_found_witness :
    (service.Get 99 worldAB).1
      = .error (.wrapf "failed to get subscription: " .ErrSubscriptionNotFound "") ∧
    (∃ err, (service.Get 99 worldAB).1 = .error err ∧
      errorsIs err .ErrSubscriptionNotFound = true) ∧
    (∃ err, (service.Update 99 ⟨"", some 5, "invalid-date", none⟩ worldAB).1 = .error err ∧
      errorsIs err .ErrSubscriptionNotFound = true) ∧
    (∃ err, (service.Delete 99 worldAB).1 = some err ∧
      errorsIs err .ErrSubscriptionNotFound = true) :=
  have h := missing_id_is_not_found worldAB 99 (by decide) rfl rfl
  ⟨rfl, h.1, h.2.1 ⟨"", some 5, "invalid-date", none⟩, h.2.2.1⟩

/-- C18. For every service operation and every error e returned by the repository call it
makes, the service returns no result and an error that wraps e (errors.Is(err, e)) behind a
prefix of its own: "failed to create subscription: ", "failed to get subscription: ",
"failed to get subscription for update: " and "failed to update subscription: " for the two
calls of Update, "failed to delete subscription: ", "failed to list subscriptions: " and
"failed to calculate total cost: ". -/
theorem service_wraps_repository_errors {σ : Type} (s : SubscriptionService σ) (w w1 : σ)
    (e : GoError) :
    (∀ req sd endDate sub1, ParseMonthYear req.StartDate = .ok sd →
      createEndDate req.EndDate sd = .ok endDate →
      s.repo.Create (newSubscription req sd endDate) w = ((sub1, some e), w1) →
      ∃ err, s.Create req w = (.error err, w1) ∧ errorsIs err e = true ∧
        err.Error = "failed to create subscription: " ++ e.Error) ∧
    (∀ id, s.repo.Get id w = (.error e, w1) →
      ∃ err, s.Get id w = (.error err, w1) ∧ errorsIs err e = true ∧
        err.Error = "failed to get subscription: " ++ e.Error) ∧
    (∀ id req, s.repo.Get id w = (.error e, w1) →
      ∃ err, s.Update id req w = (.error err, w1) ∧ errorsIs err e = true ∧
        err.Error = "failed to get subscription for update: " ++ e.Error) ∧
    (∀ id req stored w0 handed sub5, s.repo.Get id w = (.ok stored, w0) →
      applyUpdate stored req = .ok handed →
      s.repo.Update handed w0 = ((sub5, some e), w1) →
      ∃ err, s.Update id req w = (.error err, w1) ∧ errorsIs err e = true ∧
        err.Error = "failed to update subscription: " ++ e.Error) ∧
    (∀ id, s.repo.Delete id w = (some e, w1) →
      ∃ err, s.Delete id w = (some err, w1) ∧ errorsIs err e = true ∧
        err.Error = "failed to delete subscription: " ++ e.Error) ∧
    (s.repo.List w = (.error e, w1) →
      ∃ err, s.List w = (.error err, w1) ∧ errorsIs err e = true ∧
        err.Error = "failed to list subscriptions: " ++ e.Error) ∧
    (∀ filter, s.repo.CalculateTotalCost filter w = (.error e, w1) →
      ∃ err, s.CalculateTotalCost filter w = (.error err, w1) ∧ errorsIs err e = true ∧
        err.Error = "failed to calculate total cost: " ++ e.Error) := by
  have wrap : ∀ pre : String, errorsIs (.wrapf pre e "") e = true ∧
      (GoError.wrapf pre e "").Error = pre ++ e.Error := by
    intro pre
    exact ⟨errorsIs_wrapf_of_inner _ _ _ _ (errorsIs_self e), by simp [GoError.Error]⟩
  refine ⟨?_, ?_, ?_, ?_, ?_, ?_, ?_⟩
  · intro req sd endDate sub1 hs he hr
    refine ⟨_, ?_, wrap _⟩
    rw [serviceCreate_of_start s req w sd hs, he]
    simp only [SubscriptionService.persistCreate, hr]
  · intro id hg
    refine ⟨_, ?_, wrap _⟩
    simp only [SubscriptionService.Get, hg]
  · intro id req hg
    refine ⟨_, ?_, wrap _⟩
    simp only [SubscriptionService.Update, hg]
  · intro id req stored w0 handed sub5 hg ha hu
    refine ⟨_, ?_, wrap _⟩
    rw [serviceUpdate_of_get s id req w w0 stored hg, ha]
    simp only [SubscriptionService.persistUpdate, hu]
  · intro id hd
    refine ⟨_, ?_, wrap _⟩
    simp only [SubscriptionService.Delete, hd]
  · intro hl
    refine ⟨_, ?_, wrap _⟩
    simp only [SubscriptionService.List, hl]
  · intro filter hc
    refine ⟨_, ?_, wrap _⟩
    simp only [SubscriptionService.CalculateTotalCost, hc]

/-- C18 over the repository double of the tests, which fails with "database error": Create
and CalculateTotalCost return the wrapped error. -/
theorem service_wraps_repository_errors_witness :
    (∃ err, failingService.Create ⟨"Test Service", 100, 7, "07-2023", none⟩ ()
        = (.error err, ()) ∧
      errorsIs err (.external "database error") = true ∧
      err.Error = "failed to create subscription: " ++ "database error") ∧
    (∃ err, failingService.CalculateTotalCost
          ⟨some 7, some "Test Service", monthStart 2023 1, monthStart 2023 12⟩ ()
        = (.error err, ()) ∧
      errorsIs err (.external "database error") = true ∧
      err.Error = "failed to calculate total cost: " ++ "database error") :=
  ⟨(service_wraps_repository_errors failingService () () (.external "database error")).1
      ⟨"Test Service", 100, 7, "07-2023", none⟩ (monthStart 2023 7) none
      (newSubscription ⟨"Test Service", 100, 7, "07-2023", none⟩ (monthStart 2023 7) none)
      rfl rfl rfl,
   (service_wraps_repository_errors failingService () () (.external "database error")).2.2.2.2.2.2
      ⟨some 7, some "Test Service", monthStart 2023 1, monthStart 2023 12⟩ rfl⟩

/-- C19. For the Get, Update and Delete handlers given a well-formed id (and, for Update, a
body that decodes and validates), the status follows the service error: 404 when it is
ErrSubscriptionNotFound, else 400 when it is ErrInvalidInput (Update, and Create likewise),
and 500 for every other error; an id that is not a valid UUID is answered 400 without the
service being called. -/
theorem handler_status_follows_service_error {σ : Type} (s : SubscriptionService σ)
    (w w1 : σ) (err : GoError) :
    (∀ id, s.Get id w = (.error err, w1) →
      (SubscriptionHandler.Get s (.ok id) w).1.status
        = if errorsIs err .ErrSubscriptionNotFound = true then 404 else 500) ∧
    (∀ id req, updateRequestFailures req = [] → s.Update id req w = (.error err, w1) →
      (SubscriptionHandler.Update s (.ok id) (.ok req) w).1.status
        = if errorsIs err .ErrSubscriptionNotFound = true then 404
          else if errorsIs err .ErrInvalidInput = true then 400 else 500) ∧
    (∀ id, s.Delete id w = (some err, w1) →
      (SubscriptionHandler.Delete s (.ok id) w).1.status
        = if errorsIs err .ErrSubscriptionNotFound = true then 404 else 500) ∧
    (∀ req, createRequestFailures req = [] → s.Create req w = (.error err, w1) →
      (SubscriptionHandler.Create s (.ok req) w).1.status
        = if errorsIs err .ErrInvalidInput = true then 400 else 500) ∧
    (∀ e, SubscriptionHandler.Get s (.error e) w
      = (⟨400, .error "Invalid UUID format"⟩, w)) ∧
    (∀ e body, SubscriptionHandler.Update s (.error e) body w
      = (⟨400, .error "Invalid UUID format"⟩, w)) ∧
    (∀ e, SubscriptionHandler.Delete s (.error e) w
      = (⟨400, .error "Invalid UUID format"⟩, w)) := by
  refine ⟨?_, ?_, ?_, ?_, fun _ => rfl, fun _ _ => rfl, fun _ => rfl⟩
  · intro id h
    simp only [SubscriptionHandler.Get, h, respondWithError_eq]
    split <;> rfl
  · intro id req hv h
    have hv2 := (validationError_none "UpdateSubscriptionRequest" _).2 hv
    simp only [SubscriptionHandler.Update, hv2, h, respondWithError_eq]
    split
    · rfl
    · split <;> rfl
  · intro id h
    simp only [SubscriptionHandler.Delete, h, respondWithError_eq]
    split <;> rfl
  · intro req hv h
    have hv2 := (validationError_none "CreateSubscriptionRequest" _).2 hv
    simp only [SubscriptionHandler.Create, hv2, h, respondWithError_eq]
    split <;> rfl

/-- C19 over the PostgreSQL repository: a missing id is answered 404, an end date before the
start date 400, a failing driver 500, and a malformed id 400. -/
theorem handler_status_follows_service_error_witness :
    (SubscriptionHandler.Get service (.ok 99) worldAB).1.status = 404 ∧
    (SubscriptionHandler.Update service (.ok 2)
      (.ok ⟨"", none, "01-2024", some "12-2023"⟩) worldAB).1.status = 400 ∧
    (SubscriptionHandler.Delete service (.ok 1) worldDown).1.status = 500 ∧
    SubscriptionHandler.Get service (.error (.external "invalid UUID length: 3")) worldAB
      = (⟨400, .error "Invalid UUID format"⟩, worldAB) :=
  ⟨(handler_status_follows_service_error service worldAB worldAB.sent
      (.wrapf "failed to get subscription: " .ErrSubscriptionNotFound "")).1 99 rfl,
   (handler_status_follows_service_error service worldAB worldAB.sent
      errEndBeforeStart).2.1 2 ⟨"", none, "01-2024", some "12-2023"⟩ rfl rfl,
   (handler_status_follows_service_error service worldDown worldDown.sent
      (.wrapf "failed to delete subscription: "
        (.wrapf "failed to delete subscription: "
          (.external "dial tcp: connection refused") "") "")).2.2.1 1 rfl,
   (handler_status_follows_service_error service worldAB worldAB
      .ErrInvalidInput).2.2.2.2.1 (.external "invalid UUID length: 3")⟩

/-- A creation request that passes struct validation but whose start date is malformed is
answered 500 by the Create handler, whatever the repository. -/
theorem handlerCreate_malformed_start {σ : Type} (s : SubscriptionService σ)
    (req : CreateSubscriptionRequest) (w : σ) (perr : GoError)
    (hv : createRequestFailures req = []) (hp : ParseMonthYear req.StartDate = .error perr) :
    SubscriptionHandler.Create s (.ok req) w
      = (⟨500, .error "Failed to create subscription"⟩, w) := by
  obtain ⟨hc, his⟩ := serviceCreate_malformed_start s req w perr hp
  have hv2 := (validationError_none "CreateSubscriptionRequest" _).2 hv
  simp only [SubscriptionHandler.Create, hv2, hc, his, respondWithError_eq]
  rfl

/-- C20. A malformed date is answered 500, not 400: the creation request of the tests with
start date "invalid-date" passes struct validation and is answered 500 "Failed to create
subscription"; so is one with a malformed end date; and an update of the stored subscription
A with a malformed start date or end date is answered 500 "Failed to update subscription". -/
theorem malformed_date_is_answered_500 :
    createRequestFailures ⟨"Test Service", 100, 7, "invalid-date", none⟩ = [] ∧
    SubscriptionHandler.Create service (.ok ⟨"Test Service", 100, 7, "invalid-date", none⟩)
        (worldOf [])
      = (⟨500, .error "Failed to create subscription"⟩, worldOf []) ∧
    SubscriptionHandler.Create service
        (.ok ⟨"Test Service", 100, 7, "07-2023", some "2023-12"⟩) (worldOf [])
      = (⟨500, .error "Failed to create subscription"⟩, worldOf []) ∧
    updateRequestFailures ⟨"", none, "invalid-date", none⟩ = [] ∧
    SubscriptionHandler.Update service (.ok 1) (.ok ⟨"", none, "invalid-date", none⟩) worldAB
      = (⟨500, .error "Failed to update subscription"⟩, worldAB.sent) ∧
    SubscriptionHandler.Update service (.ok 1) (.ok ⟨"", none, "", some "13-2023"⟩) worldAB
      = (⟨500, .error "Failed to update subscription"⟩, worldAB.sent) :=
  ⟨by decide,
   handlerCreate_malformed_start service ⟨"Test Service", 100, 7, "invalid-date", none⟩
     (worldOf []) _ (by decide) rfl,
   by rfl, by decide, by rfl, by rfl⟩

/-! ## Calendar order and the calculate-cost handler -/

/-- The month a valid MM-YYYY string names lies in 1..12. -/
theorem monthOf_range (s : String) (h : isMonthYearString s = true) :
    1 ≤ monthOf s ∧ monthOf s ≤ 12 := by
  unfold isMonthYearString at h
  split at h
  · simp only [Bool.and_eq_true, decide_eq_true_eq] at h
    exact ⟨h.1.2, h.2⟩
  · cases h

/-- On the months two valid strings name, Before is the order on (year, month). -/
theorem monthStart_before_monthBefore (s1 s2 : String) (h1 : isMonthYearString s1 = true)
    (h2 : isMonthYearString s2 = true) :
    (monthStart (yearOf s1) (monthOf s1)).Before (monthStart (yearOf s2) (monthOf s2))
      = monthBefore s1 s2 := by
  have r1 := monthOf_range s1 h1
  have r2 := monthOf_range s2 h2
  have hiff := monthStart_before_iff (yearOf s1) (yearOf s2) (monthOf s1) (monthOf s2)
    r1.1 r1.2 r2.1 r2.2
  rcases hb : monthBefore s1 s2 with _ | _
  · rw [Bool.eq_false_iff]
    intro hc
    have := hiff.1 hc
    simp only [monthBefore, Bool.or_eq_false_iff, Bool.and_eq_false_iff, decide_eq_false_iff_not]
      at hb
    omega
  · rw [hiff]
    simp only [monthBefore, Bool.or_eq_true, Bool.and_eq_true, decide_eq_true_eq] at hb
    omega

/-- C29. ParseMonthYear preserves calendar order: for any two valid MM-YYYY strings naming
(y1, m1) and (y2, m2), both parse, and the first result is before the second if and only if
(y1, m1) is lexicographically less than (y2, m2); so the end-before-start check of Create
refuses exactly the end months that precede the start month. -/
theorem parse_preserves_calendar_order (s1 s2 : String) (h1 : isMonthYearString s1 = true)
    (h2 : isMonthYearString s2 = true) :
    ∃ t1 t2, ParseMonthYear s1 = .ok t1 ∧ ParseMonthYear s2 = .ok t2 ∧
      (t1.Before t2 = true ↔
        (yearOf s1 < yearOf s2 ∨ (yearOf s1 = yearOf s2 ∧ monthOf s1 < monthOf s2))) ∧
      createEndDate (some s1) t2
        = if monthBefore s1 s2 = true then .error errEndBeforeStart else .ok (some t1) := by
  have hb := monthStart_before_monthBefore s1 s2 h1 h2
  have hne : s1 ≠ "" := by
    intro he
    rw [he] at h1
    exact absurd h1 (by decide)
  refine ⟨_, _, ParseMonthYear_of_valid s1 h1, ParseMonthYear_of_valid s2 h2, ?_, ?_⟩
  · rw [hb]
    simp only [monthBefore, Bool.or_eq_true, Bool.and_eq_true, decide_eq_true_eq]
  · rw [createEndDate_parsed s1 _ _ hne (ParseMonthYear_of_valid s1 h1), hb]

/-- C29 at "12-2022" and "01-2023" (before), and at "07-2023" twice (not before). -/
theorem parse_preserves_calendar_order_witness :
    (∃ t1 t2, ParseMonthYear "12-2022" = .ok t1 ∧ ParseMonthYear "01-2023" = .ok t2 ∧
      (t1.Before t2 = true ↔
        (yearOf "12-2022" < yearOf "01-2023" ∨
          (yearOf "12-2022" = yearOf "01-2023" ∧ monthOf "12-2022" < monthOf "01-2023"))) ∧
      createEndDate (some "12-2022") t2
        = if monthBefore "12-2022" "01-2023" = true then .error errEndBeforeStart
          else .ok (some t1)) ∧
    (monthStart 2022 12).Before (monthStart 2023 1) = true ∧
    (monthStart 2023 7).Before (monthStart 2023 7) = false :=
  ⟨parse_preserves_calendar_order "12-2022" "01-2023" (by decide) (by decide),
   by decide, by decide⟩

/-- With valid periods in calendar order and a user_id that is absent or parses, the
calculate-cost handler answers with the outcome of the service call on the parsed filter. -/
theorem costHandler_calls_service {σ : Type} (s : SubscriptionService σ)
    (uuidParse : String → Except GoError UUID) (q : CostQuery) (w : σ) (uid : Option UUID)
    (hvs : isMonthYearString q.start_period = true)
    (hve : isMonthYearString q.end_period = true)
    (hnb : monthBefore q.end_period q.start_period = false)
    (huid : (q.user_id = "" ∧ uid = none) ∨
      (q.user_id ≠ "" ∧ ∃ u, uuidParse q.user_id = .ok u ∧ uid = some u)) :
    SubscriptionHandler.CalculateTotalCost s uuidParse q w
      = SubscriptionHandler.answerTotalCost s
          { UserID := uid,
            ServiceName := if q.service_name ≠ "" then some q.service_name else none,
            StartPeriod := monthStart (yearOf q.start_period) (monthOf q.start_period),
            EndPeriod := monthStart (yearOf q.end_period) (monthOf q.end_period) } w := by
  have hps := ParseMonthYear_of_valid _ hvs
  have hpe := ParseMonthYear_of_valid _ hve
  have hbf := monthStart_before_monthBefore _ _ hve hvs
  rw [hnb] at hbf
  have hs : q.start_period ≠ "" := by
    intro h
    rw [h] at hvs
    exact absurd hvs (by decide)
  have he : q.end_period ≠ "" := by
    intro h
    rw [h] at hve
    exact absurd hve (by decide)
  rcases huid with ⟨hu, hn⟩ | ⟨hu, u, hp, hsome⟩
  · subst hn
    simp [SubscriptionHandler.CalculateTotalCost, hu, hs, he, hps, hpe, hbf]
  · subst hsome
    simp [SubscriptionHandler.CalculateTotalCost, hu, hp, hs, he, hps, hpe, hbf]

/-- C21. The calculate-cost handler answers 400 with an error body whenever start_period or
end_period is missing (empty), is not valid MM-YYYY, or end_period names a month before
start_period: the answer is the same for every service and leaves every state as it was, so
the service is not called. When both periods are valid, end_period is not before start_period
(equal months included) and user_id is absent or a valid UUID, the handler answers with the
outcome of the service call on the filter whose periods are the parsed months. -/
theorem cost_handler_checks_periods {σ : Type} (uuidParse : String → Except GoError UUID)
    (q : CostQuery) :
    ((q.start_period = "" ∨ q.end_period = "" ∨ isMonthYearString q.start_period = false ∨
        isMonthYearString q.end_period = false ∨
        monthBefore q.end_period q.start_period = true) →
      ∃ msg, ∀ (s : SubscriptionService σ) (w : σ),
        SubscriptionHandler.CalculateTotalCost s uuidParse q w = (⟨400, .error msg⟩, w)) ∧
    (isMonthYearString q.start_period = true → isMonthYearString q.end_period = true →
      monthBefore q.end_period q.start_period = false →
      ∀ uid : Option UUID,
        ((q.user_id = "" ∧ uid = none) ∨
          (q.user_id ≠ "" ∧ ∃ u, uuidParse q.user_id = .ok u ∧ uid = some u)) →
        ∀ (s : SubscriptionService σ) (w : σ),
          SubscriptionHandler.CalculateTotalCost s uuidParse q w
            = SubscriptionHandler.answerTotalCost s
                { UserID := uid,
                  ServiceName := if q.service_name ≠ "" then some q.service_name else none,
                  StartPeriod := monthStart (yearOf q.start_period) (monthOf q.start_period),
                  EndPeriod := monthStart (yearOf q.end_period) (monthOf q.end_period) } w) := by
  constructor
  · intro hbad
    by_cases hu0 : q.user_id ≠ "" ∧ ∃ e, uuidParse q.user_id = .error e
    · obtain ⟨hu, e, hp⟩ := hu0
      exact ⟨"Invalid user ID format", fun s w => by
        simp [SubscriptionHandler.CalculateTotalCost, hu, hp, respondWithError_eq]⟩
    · have hu1 : q.user_id = "" ∨ (q.user_id ≠ "" ∧ ∃ u, uuidParse q.user_id = .ok u) := by
        by_cases hu : q.user_id = ""
        · exact .inl hu
        · rcases hp : uuidParse q.user_id with e | u
          · exact absurd ⟨hu, e, hp⟩ hu0
          · exact .inr ⟨hu, u, rfl⟩
      clear hu0
      by_cases hs : q.start_period = ""
      · refine ⟨"Start period is required", fun s w => ?_⟩
        clear hbad
        rcases hu1 with hu | ⟨hu, u, hp⟩ <;>
          simp [SubscriptionHandler.CalculateTotalCost, respondWithError_eq, *]
      by_cases he : q.end_period = ""
      · refine ⟨"End period is required", fun s w => ?_⟩
        clear hbad
        rcases hu1 with hu | ⟨hu, u, hp⟩ <;>
          simp [SubscriptionHandler.CalculateTotalCost, respondWithError_eq, *]
      rcases hps : ParseMonthYear q.start_period with e1 | sp
      · refine ⟨"Invalid start period format", fun s w => ?_⟩
        clear hbad
        rcases hu1 with hu | ⟨hu, u, hp⟩ <;>
          simp [SubscriptionHandler.CalculateTotalCost, respondWithError_eq, *]
      rcases hpe : ParseMonthYear q.end_period with e2 | ep
      · refine ⟨"Invalid end period format", fun s w => ?_⟩
        clear hbad
        rcases hu1 with hu | ⟨hu, u, hp⟩ <;>
          simp [SubscriptionHandler.CalculateTotalCost, respondWithError_eq, *]
      rcases hbf : ep.Before sp with _ | _
      · exfalso
        have hvs := ParseMonthYear_ok_valid _ _ hps
        have hve := ParseMonthYear_ok_valid _ _ hpe
        rcases hbad with h | h | h | h | h
        · exact hs h
        · exact he h
        · rw [hvs] at h
          cases h
        · rw [hve] at h
          cases h
        · have e1 := ParseMonthYear_of_valid _ hvs
          have e2 := ParseMonthYear_of_valid _ hve
          rw [hps] at e1
          rw [hpe] at e2
          cases e1
          cases e2
          rw [monthStart_before_monthBefore _ _ hve hvs, h] at hbf
          cases hbf
      · refine ⟨"End period cannot be before start period", fun s w => ?_⟩
        clear hbad
        rcases hu1 with hu | ⟨hu, u, hp⟩ <;>
          simp [SubscriptionHandler.CalculateTotalCost, respondWithError_eq, *]
  · intro hvs hve hnb uid huid s w
    exact costHandler_calls_service s uuidParse q w uid hvs hve hnb huid

/-- C21 on a request whose end_period "12-2023" precedes its start_period "01-2024" (400 for
every service), on a request for the single month "06-2023" by user "7" (the service is
called with both periods June 2023), and on the store of A and B. -/
theorem cost_handler_checks_periods_witness :
    (∃ msg, ∀ (s : SubscriptionService World) (w : World),
      SubscriptionHandler.CalculateTotalCost s sampleUuidParse
        ⟨"", "", "01-2024", "12-2023"⟩ w = (⟨400, .error msg⟩, w)) ∧
    (∀ (s : SubscriptionService World) (w : World),
      SubscriptionHandler.CalculateTotalCost s sampleUuidParse
        ⟨"7", "Netflix", "06-2023", "06-2023"⟩ w
        = SubscriptionHandler.answerTotalCost s
            { UserID := some 7, ServiceName := some "Netflix",
              StartPeriod := monthStart 2023 6, EndPeriod := monthStart 2023 6 } w) ∧
    (SubscriptionHandler.CalculateTotalCost service sampleUuidParse
        ⟨"", "", "01-2023", "12-2023"⟩ worldAB).1 = ⟨200, .totalCost ⟨300⟩⟩ :=
  ⟨(cost_handler_checks_periods sampleUuidParse ⟨"", "", "01-2024", "12-2023"⟩).1
      (.inr (.inr (.inr (.inr (by decide))))),
   (cost_handler_checks_periods sampleUuidParse ⟨"7", "Netflix", "06-2023", "06-2023"⟩).2
      (by decide) (by decide) (by decide) (some 7) (.inr ⟨by decide, 7, by decide, rfl⟩),
   by decide⟩

/-! ## What the handlers write -/

/-- C22. Persistence error text is not leaked: for each of the six handlers, whenever the
service fails with an error that is neither ErrSubscriptionNotFound nor ErrInvalidInput, the
response is status 500 with the body `{"error": m}` where m is a fixed message of that
handler; the response is therefore the same for any two such errors. -/
theorem handlers_hide_error_text {σ : Type} (s : SubscriptionService σ) (w w1 : σ)
    (err : GoError) (hnf : errorsIs err .ErrSubscriptionNotFound = false)
    (hii : errorsIs err .ErrInvalidInput = false) :
    (∀ req, createRequestFailures req = [] → s.Create req w = (.error err, w1) →
      SubscriptionHandler.Create s (.ok req) w
        = (⟨500, .error "Failed to create subscription"⟩, w1)) ∧
    (∀ id, s.Get id w = (.error err, w1) →
      SubscriptionHandler.Get s (.ok id) w
        = (⟨500, .error "Failed to get subscription"⟩, w1)) ∧
    (∀ id req, updateRequestFailures req = [] → s.Update id req w = (.error err, w1) →
      SubscriptionHandler.Update s (.ok id) (.ok req) w
        = (⟨500, .error "Failed to update subscription"⟩, w1)) ∧
    (∀ id, s.Delete id w = (some err, w1) →
      SubscriptionHandler.Delete s (.ok id) w
        = (⟨500, .error "Failed to delete subscription"⟩, w1)) ∧
    (s.List w = (.error err, w1) →
      SubscriptionHandler.List s w = (⟨500, .error "Failed to list subscriptions"⟩, w1)) ∧
    (∀ uuidParse q uid, isMonthYearString q.start_period = true →
      isMonthYearString q.end_period = true →
      monthBefore q.end_period q.start_period = false →
      ((q.user_id = "" ∧ uid = none) ∨
        (q.user_id ≠ "" ∧ ∃ u, uuidParse q.user_id = .ok u ∧ uid = some u)) →
      s.CalculateTotalCost
        { UserID := uid,
          ServiceName := if q.service_name ≠ "" then some q.service_name else none,
          StartPeriod := monthStart (yearOf q.start_period) (monthOf q.start_period),
          EndPeriod := monthStart (yearOf q.end_period) (monthOf q.end_period) } w
        = (.error err, w1) →
      SubscriptionHandler.CalculateTotalCost s uuidParse q w
        = (⟨500, .error "Failed to calculate total cost"⟩, w1)) := by
  refine ⟨?_, ?_, ?_, ?_, ?_, ?_⟩
  · intro req hv h
    have hv2 := (validationError_none "CreateSubscriptionRequest" _).2 hv
    simp only [SubscriptionHandler.Create, hv2, h, hii, respondWithError_eq]
    rfl
  · intro id h
    simp only [SubscriptionHandler.Get, h, hnf, respondWithError_eq]
    rfl
  · intro id req hv h
    have hv2 := (validationError_none "UpdateSubscriptionRequest" _).2 hv
    simp only [SubscriptionHandler.Update, hv2, h, hnf, hii, respondWithError_eq]
    rfl
  · intro id h
    simp only [SubscriptionHandler.Delete, h, hnf, respondWithError_eq]
    rfl
  · intro h
    simp only [SubscriptionHandler.List, h, respondWithError_eq]
  · intro uuidParse q uid hvs hve hnb huid h
    rw [costHandler_calls_service s uuidParse q w uid hvs hve hnb huid]
    simp only [SubscriptionHandler.answerTotalCost, h, respondWithError_eq]

/-- C22 on two different failures of the Get handler: a repository double failing with
"database error" and a PostgreSQL driver refusing the connection are answered alike. -/
theorem handlers_hide_error_text_witness :
    SubscriptionHandler.Get failingService (.ok 1) ()
      = (⟨500, .error "Failed to get subscription"⟩, ()) ∧
    SubscriptionHandler.Get service (.ok 1) worldDown
      = (⟨500, .error "Failed to get subscription"⟩, worldDown.sent) ∧
    (SubscriptionHandler.Get failingService (.ok 1) ()).1
      = (SubscriptionHandler.Get service (.ok 1) worldDown).1 ∧
    (SubscriptionHandler.CalculateTotalCost service sampleUuidParse
        ⟨"", "", "01-2023", "12-2023"⟩ worldDown).1
      = ⟨500, .error "Failed to calculate total cost"⟩ :=
  ⟨(handlers_hide_error_text failingService () ()
      (.wrapf "failed to get subscription: " (.external "database error") "")
      rfl rfl).2.1 1 rfl,
   (handlers_hide_error_text service worldDown worldDown.sent
      (.wrapf "failed to get subscription: "
        (.wrapf "failed to get subscription: "
          (.external "dial tcp: connection refused") "") "")
      rfl rfl).2.1 1 rfl,
   by decide, by decide⟩

/-- The text of the total-cost statement is assembled from fixed fragments chosen by which
filters are applied. -/
theorem totalCostQuery_text (f : SubscriptionFilter) :
    (totalCostQuery f).1
      = "SELECT COALESCE(SUM(price), 0) FROM subscriptions WHERE 1=1"
        ++ (if f.UserID.isSome = true then " AND user_id = :user_id" else "")
        ++ (if (appliedServiceName f).isSome = true then " AND service_name = :service_name"
            else "")
        ++ " AND (start_date <= :end_period)"
        ++ " AND (end_date IS NULL OR end_date >= :start_period)" := by
  rcases f with ⟨_ | u, _ | n, sp, ep⟩
  · rfl
  · by_cases hn : n = ""
    · subst hn
      rfl
    · simp [totalCostQuery, appliedServiceName, hn]
  · rfl
  · by_cases hn : n = ""
    · subst hn
      rfl
    · simp [totalCostQuery, appliedServiceName, hn]

/-- The parameters bound to the total-cost statement are the filter values, by name. -/
theorem totalCostQuery_params (f : SubscriptionFilter) :
    lookupParam (totalCostQuery f).2 "user_id" = f.UserID.map SqlValue.uuid ∧
    lookupParam (totalCostQuery f).2 "service_name"
      = (appliedServiceName f).map SqlValue.text ∧
    lookupParam (totalCostQuery f).2 "end_period" = some (SqlValue.time f.EndPeriod) ∧
    lookupParam (totalCostQuery f).2 "start_period" = some (SqlValue.time f.StartPeriod) := by
  rcases f with ⟨_ | u, _ | n, sp, ep⟩
  · exact ⟨rfl, rfl, rfl, rfl⟩
  · by_cases hn : n = ""
    · subst hn
      exact ⟨rfl, rfl, rfl, rfl⟩
    · simp [totalCostQuery, appliedServiceName, hn, lookupParam]
  · exact ⟨rfl, rfl, rfl, rfl⟩
  · by_cases hn : n = ""
    · subst hn
      exact ⟨rfl, rfl, rfl, rfl⟩
    · simp [totalCostQuery, appliedServiceName, hn, lookupParam]

/-- C23. Repository.CalculateTotalCost never puts filter values into the SQL text: two filters
that agree on whether userId is applied and on whether serviceName is applied give the same
statement text, whatever the values of userId, serviceName, startPeriod and endPeriod; the
text is assembled from fixed fragments, and each value is found only among the bound named
parameters. -/
theorem total_cost_query_text_ignores_values (f1 f2 : SubscriptionFilter)
    (hu : f1.UserID.isSome = f2.UserID.isSome)
    (hn : (appliedServiceName f1).isSome = (appliedServiceName f2).isSome) :
    (totalCostQuery f1).1 = (totalCostQuery f2).1 ∧
    (totalCostQuery f1).1
      = "SELECT COALESCE(SUM(price), 0) FROM subscriptions WHERE 1=1"
        ++ (if f1.UserID.isSome = true then " AND user_id = :user_id" else "")
        ++ (if (appliedServiceName f1).isSome = true then " AND service_name = :service_name"
            else "")
        ++ " AND (start_date <= :end_period)"
        ++ " AND (end_date IS NULL OR end_date >= :start_period)" ∧
    lookupParam (totalCostQuery f1).2 "user_id" = f1.UserID.map SqlValue.uuid ∧
    lookupParam (totalCostQuery f1).2 "service_name"
      = (appliedServiceName f1).map SqlValue.text ∧
    lookupParam (totalCostQuery f1).2 "end_period" = some (SqlValue.time f1.EndPeriod) ∧
    lookupParam (totalCostQuery f1).2 "start_period"
      = some (SqlValue.time f1.StartPeriod) := by
  refine ⟨?_, totalCostQuery_text f1, totalCostQuery_params f1⟩
  rw [totalCostQuery_text f1, totalCostQuery_text f2, hu, hn]

/-- C23 on two filters with different users, services and windows: one statement text. -/
theorem total_cost_query_text_ignores_values_witness :
    (totalCostQuery ⟨some 7, some "Netflix", monthStart 2023 1, monthStart 2023 12⟩).1
      = (totalCostQuery
          ⟨some 8, some "x' OR '1'='1", monthStart 2024 2, monthStart 2024 3⟩).1 ∧
    (totalCostQuery ⟨some 7, some "Netflix", monthStart 2023 1, monthStart 2023 12⟩).1
      = "SELECT COALESCE(SUM(price), 0) FROM subscriptions WHERE 1=1 AND user_id = :user_id AND service_name = :service_name AND (start_date <= :end_period) AND (end_date IS NULL OR end_date >= :start_period)" ∧
    lookupParam
      (totalCostQuery ⟨some 7, some "Netflix", monthStart 2023 1, monthStart 2023 12⟩).2
      "service_name" = some (SqlValue.text "Netflix") :=
  ⟨(total_cost_query_text_ignores_values
      ⟨some 7, some "Netflix", monthStart 2023 1, monthStart 2023 12⟩
      ⟨some 8, some "x' OR '1'='1", monthStart 2024 2, monthStart 2024 3⟩ rfl rfl).1,
   (total_cost_query_text_ignores_values
      ⟨some 7, some "Netflix", monthStart 2023 1, monthStart 2023 12⟩
      ⟨some 8, some "x' OR '1'='1", monthStart 2024 2, monthStart 2024 3⟩ rfl rfl).2.1,
   (total_cost_query_text_ignores_values
      ⟨some 7, some "Netflix", monthStart 2023 1, monthStart 2023 12⟩
      ⟨some 8, some "x' OR '1'='1", monthStart 2024 2, monthStart 2024 3⟩ rfl rfl).2.2.2.1⟩

/-! ## Timestamps -/

/-- The entity SubscriptionRepository.Create writes carries two successive clock readings. -/
theorem repoCreate_entity (sub : Subscription) (w : World) :
    (SubscriptionRepository.Create sub w).1.1
      = { sub with ID := w.newUUID, CreatedAt := w.clock w.ticks,
                   UpdatedAt := w.clock (w.ticks + 1) } := by
  unfold SubscriptionRepository.Create
  dsimp only
  split <;> rfl

/-- The world after SubscriptionRepository.Create: the clock has been read twice, and the
rows are the old ones, followed by the new entity when the insert succeeded. -/
theorem repoCreate_world (sub : Subscription) (w : World) :
    (SubscriptionRepository.Create sub w).2.clock = w.clock ∧
    (SubscriptionRepository.Create sub w).2.ticks = w.ticks + 2 ∧
    ((SubscriptionRepository.Create sub w).2.rows = w.rows ∨
      (SubscriptionRepository.Create sub w).2.rows
        = w.rows ++ [(SubscriptionRepository.Create sub w).1.1]) := by
  unfold SubscriptionRepository.Create
  dsimp only
  split
  · exact ⟨rfl, rfl, .inl rfl⟩
  · exact ⟨rfl, rfl, .inr rfl⟩

/-- The entity SubscriptionRepository.Update hands back: updatedAt is the current reading,
every other field is as given. -/
theorem repoUpdate_entity (sub : Subscription) (w : World) :
    (SubscriptionRepository.Update sub w).1.1 = { sub with UpdatedAt := w.clock w.ticks } := by
  unfold SubscriptionRepository.Update
  dsimp only
  repeat' split
  all_goals rfl

/-- The world after SubscriptionRepository.Update: the clock has been read once, and the
rows are the old ones, rewritten by the statement when it was executed. -/
theorem repoUpdate_world (sub : Subscription) (w : World) :
    (SubscriptionRepository.Update sub w).2.clock = w.clock ∧
    (SubscriptionRepository.Update sub w).2.ticks = w.ticks + 1 ∧
    ((SubscriptionRepository.Update sub w).2.rows = w.rows ∨
      (SubscriptionRepository.Update sub w).2.rows
        = w.rows.map (updateRow { sub with UpdatedAt := w.clock w.ticks })) := by
  unfold SubscriptionRepository.Update
  dsimp only
  repeat' split
  · exact ⟨rfl, rfl, .inl rfl⟩
  all_goals exact ⟨rfl, rfl, .inr rfl⟩

/-- A stamped entity is ordered when the clock never runs backwards. -/
theorem stamped_ordered (w : World)
    (hclock : ∀ i j, i ≤ j → (w.clock j).Before (w.clock i) = false) (r : Subscription)
    (h : w.stamped r) : timestampsOrdered r = true := by
  obtain ⟨i, j, hij, _, hc, hu⟩ := h
  simp [timestampsOrdered, hc, hu, hclock i j hij]

/-- The sample clock never runs backwards. -/
theorem sampleClock_monotone (i j : Nat) (hij : i ≤ j) :
    (sampleClock j).Before (sampleClock i) = false := by
  simp only [Time.Before, Time.sec, Time.days, sampleClock, Bool.or_eq_false_iff,
    Bool.and_eq_false_iff, decide_eq_false_iff_not]
  constructor
  · omega
  · right
    omega

/-- C24. On a clock that advances between readings, SubscriptionRepository.Create
succeeds and assigns (and stores) a createdAt and an updatedAt that differ: they are two
successive readings of the clock. -/
theorem create_reads_the_clock_twice :
    (SubscriptionRepository.Create subA (worldOf [])).1.2 = none ∧
    (SubscriptionRepository.Create subA (worldOf [])).1.1.CreatedAt = sampleClock 0 ∧
    (SubscriptionRepository.Create subA (worldOf [])).1.1.UpdatedAt = sampleClock 1 ∧
    (SubscriptionRepository.Create subA (worldOf [])).1.1.CreatedAt
      ≠ (SubscriptionRepository.Create subA (worldOf [])).1.1.UpdatedAt ∧
    (SubscriptionRepository.Create subA (worldOf [])).2.rows
      = [(SubscriptionRepository.Create subA (worldOf [])).1.1] ∧
    (∀ sub w, (SubscriptionRepository.Create sub w).1.1.CreatedAt = w.clock w.ticks ∧
      (SubscriptionRepository.Create sub w).1.1.UpdatedAt = w.clock (w.ticks + 1)) := by
  refine ⟨by decide, by decide, by decide, by decide, by decide, fun sub w => ?_⟩
  rw [repoCreate_entity]
  exact ⟨rfl, rfl⟩

/-- C25. With a clock whose successive readings never decrease, createdAt ≤ updatedAt always:
every entity SubscriptionRepository.Create writes is ordered; SubscriptionRepository.Update
sets updatedAt to the current reading and leaves createdAt as it was, in the entity and in
every stored row, and an entity whose timestamps were read earlier stays ordered; and when
every stored row carries readings already taken, this holds again for every row after Create
and after Update, over the same clock, so every stored row is ordered after any sequence
of both. -/
theorem timestamps_stay_ordered (w : World)
    (hclock : ∀ i j, i ≤ j → (w.clock j).Before (w.clock i) = false)
    (hinv : ∀ r ∈ w.rows, w.stamped r) :
    (∀ sub, timestampsOrdered (SubscriptionRepository.Create sub w).1.1 = true) ∧
    (∀ sub, (SubscriptionRepository.Update sub w).1.1.UpdatedAt = w.now ∧
      (SubscriptionRepository.Update sub w).1.1.CreatedAt = sub.CreatedAt ∧
      (SubscriptionRepository.Update sub w).2.rows.map (fun r => r.CreatedAt)
        = w.rows.map (fun r => r.CreatedAt)) ∧
    (∀ sub, w.stamped sub →
      timestampsOrdered (SubscriptionRepository.Update sub w).1.1 = true) ∧
    (∀ sub, (SubscriptionRepository.Create sub w).2.clock = w.clock ∧
      ∀ r ∈ (SubscriptionRepository.Create sub w).2.rows,
        (SubscriptionRepository.Create sub w).2.stamped r ∧ timestampsOrdered r = true) ∧
    (∀ sub, (SubscriptionRepository.Update sub w).2.clock = w.clock ∧
      ∀ r ∈ (SubscriptionRepository.Update sub w).2.rows,
        (SubscriptionRepository.Update sub w).2.stamped r ∧ timestampsOrdered r = true) := by
  refine ⟨?_, ?_, ?_, ?_, ?_⟩
  · intro sub
    rw [repoCreate_entity]
    simp [timestampsOrdered, hclock w.ticks (w.ticks + 1) (Nat.le_succ _)]
  · intro sub
    obtain ⟨_, _, hr⟩ := repoUpdate_world sub w
    rw [repoUpdate_entity]
    refine ⟨rfl, rfl, ?_⟩
    rcases hr with hr | hr
    · rw [hr]
    · rw [hr, List.map_map]
      apply List.map_congr_left
      intro r _
      simp only [Function.comp, updateRow]
      split <;> rfl
  · intro sub hs
    obtain ⟨i, j, hij, hj, hc, _⟩ := hs
    rw [repoUpdate_entity]
    simp [timestampsOrdered, hc, hclock i w.ticks (by omega)]
  · intro sub
    obtain ⟨hck, htk, hr⟩ := repoCreate_world sub w
    refine ⟨hck, ?_⟩
    have hold : ∀ r ∈ w.rows, (SubscriptionRepository.Create sub w).2.stamped r := by
      intro r hr0
      obtain ⟨i, j, hij, hj, hc, hu⟩ := hinv r hr0
      exact ⟨i, j, hij, by omega, by rw [hck]; exact hc, by rw [hck]; exact hu⟩
    have hnew : (SubscriptionRepository.Create sub w).2.stamped
        (SubscriptionRepository.Create sub w).1.1 := by
      refine ⟨w.ticks, w.ticks + 1, Nat.le_succ _, by omega, ?_, ?_⟩
      · rw [hck, repoCreate_entity]
      · rw [hck, repoCreate_entity]
    have hclock2 : ∀ i j, i ≤ j → ((SubscriptionRepository.Create sub w).2.clock j).Before
        ((SubscriptionRepository.Create sub w).2.clock i) = false := by
      rw [hck]
      exact hclock
    intro r hmem
    have hst : (SubscriptionRepository.Create sub w).2.stamped r := by
      rcases hr with hr | hr
      · rw [hr] at hmem
        exact hold r hmem
      · rw [hr] at hmem
        rcases List.mem_append.1 hmem with h | h
        · exact hold r h
        · rw [List.mem_singleton.1 h]
          exact hnew
    exact ⟨hst, stamped_ordered _ hclock2 r hst⟩
  · intro sub
    obtain ⟨hck, htk, hr⟩ := repoUpdate_world sub w
    refine ⟨hck, ?_⟩
    have hold : ∀ r ∈ w.rows, (SubscriptionRepository.Update sub w).2.stamped r := by
      intro r hr0
      obtain ⟨i, j, hij, hj, hc, hu⟩ := hinv r hr0
      exact ⟨i, j, hij, by omega, by rw [hck]; exact hc, by rw [hck]; exact hu⟩
    have hclock2 : ∀ i j, i ≤ j → ((SubscriptionRepository.Update sub w).2.clock j).Before
        ((SubscriptionRepository.Update sub w).2.clock i) = false := by
      rw [hck]
      exact hclock
    intro r hmem
    have hst : (SubscriptionRepository.Update sub w).2.stamped r := by
      rcases hr with hr | hr
      · rw [hr] at hmem
        exact hold r hmem
      · rw [hr] at hmem
        obtain ⟨r0, hr0, rfl⟩ := List.mem_map.1 hmem
        obtain ⟨i, j, hij, hj, hc, hu⟩ := hinv r0 hr0
        unfold updateRow
        split
        · exact ⟨i, w.ticks, by omega, by omega, by rw [hck]; exact hc, by rw [hck]⟩
        · exact hold r0 hr0
    exact ⟨hst, stamped_ordered _ hclock2 r hst⟩

/-- C25 on the sample clock: from the empty store, after a Create and then an Update of the
new row, every stored row is ordered. -/
theorem timestamps_stay_ordered_witness :
    (∀ r ∈ (SubscriptionRepository.Create subA (worldOf [])).2.rows,
      (SubscriptionRepository.Create subA (worldOf [])).2.stamped r
        ∧ timestampsOrdered r = true) ∧
    (SubscriptionRepository.Update { subA with ID := 1000, Price := 150 }
        (SubscriptionRepository.Create subA (worldOf [])).2).2.rows.all timestampsOrdered
      = true ∧
    (SubscriptionRepository.Update { subA with ID := 1000, Price := 150 }
        (SubscriptionRepository.Create subA (worldOf [])).2).2.rows.map
          (fun r => (r.Price, r.CreatedAt, r.UpdatedAt))
      = [(150, sampleClock 0, sampleClock 2)] :=
  ⟨((timestamps_stay_ordered (worldOf []) sampleClock_monotone
      (fun _ h => absurd h (List.not_mem_nil _))).2.2.2.1 subA).2,
   by decide, by decide⟩

/-! ## Update: failures before the repository, and repetition -/

/-- The field-by-field part of Update fails exactly on a malformed start date, a malformed end
date, or an end date before the effective start date. -/
theorem applyUpdate_error_iff (stored : Subscription) (req : UpdateSubscriptionRequest) :
    (∃ err, applyUpdate stored req = .error err) ↔
      ((req.StartDate ≠ "" ∧ ∃ e, ParseMonthYear req.StartDate = .error e) ∨
       (∃ E e, req.EndDate = some E ∧ E ≠ "" ∧ ParseMonthYear E = .error e) ∨
       (∃ E t eff, req.EndDate = some E ∧ E ≠ "" ∧ ParseMonthYear E = .ok t ∧
          ((req.StartDate = "" ∧ eff = stored.StartDate) ∨
            (req.StartDate ≠ "" ∧ ParseMonthYear req.StartDate = .ok eff)) ∧
          t.Before eff = true)) := by
  rcases req with ⟨name, price, start, en⟩
  simp only [applyUpdate, setStartDate, setEndDate]
  by_cases hs : start = ""
  · subst hs
    rcases en with _ | E
    · simp
    · by_cases hE : E = ""
      · simp [hE]
      · rcases hpe : ParseMonthYear E with e | t
        · simp [hE, hpe]
        · rcases hb : t.Before (setPrice (setServiceName stored ⟨name, price, "", some E⟩)
              ⟨name, price, "", some E⟩).StartDate with _ | _
          · have hb2 : t.Before stored.StartDate = false := by
              rw [← hb, (setPrice_frame _ _).2.2.1, (setServiceName_frame _ _).2.2.1]
            simp [hE, hpe, hb, hb2]
          · have hb2 : t.Before stored.StartDate = true := by
              rw [← hb, (setPrice_frame _ _).2.2.1, (setServiceName_frame _ _).2.2.1]
            simp [hE, hpe, hb, hb2]
  · rcases hps : ParseMonthYear start with e | d
    · simp [hs, hps]
    · rcases en with _ | E
      · simp [hs, hps]
      · by_cases hE : E = ""
        · simp [hs, hps, hE]
        · rcases hpe : ParseMonthYear E with e | t
          · simp [hs, hps, hE, hpe]
          · rcases hb : t.Before d with _ | _ <;> simp [hs, hps, hE, hpe, hb]

/-- Applying a request again to the entity it produced, whatever its updatedAt has become,
changes nothing. -/
theorem applyUpdate_idem (stored handed : Subscription) (req : UpdateSubscriptionRequest)
    (t : Time) (hok : applyUpdate stored req = .ok handed) :
    applyUpdate { handed with UpdatedAt := t } req = .ok { handed with UpdatedAt := t } := by
  rcases req with ⟨name, price, start, en⟩
  simp only [applyUpdate, setStartDate, setEndDate, setPrice, setServiceName] at hok ⊢
  by_cases hn : name = "" <;> rcases price with _ | p <;> by_cases hs : start = "" <;>
    rcases hps : ParseMonthYear start with e | d <;> rcases en with _ | E <;>
    simp only [hn, hs, hps, ne_eq, not_true_eq_false, not_false_eq_true, if_true, if_false,
      reduceCtorEq, Except.ok.injEq] at hok ⊢
  all_goals first
    | (cases hok; done)
    | (subst hok; rfl)
    | skip
  all_goals
    by_cases hE : E = "" <;> rcases hpe : ParseMonthYear E with e2 | t2 <;>
    simp only [hE, hpe, ne_eq, not_true_eq_false, not_false_eq_true, if_true, if_false,
      reduceCtorEq, Except.ok.injEq] at hok ⊢
  all_goals first
    | (cases hok; done)
    | (subst hok; rfl)
    | skip
  all_goals
    split at hok
  all_goals first
    | (cases hok; done)
    | skip
  all_goals
    rename_i hb
    cases hok
    first
      | (simp only [hps, hb]; done)
      | (simp only [hps, hb]; rfl)

/-- C27. Service.Update is atomic with respect to the store: when the repository has found
the stored entity and the request has a malformed startDate, a malformed endDate, or an
endDate before the effective startDate, Update returns the error of the field-by-field part
in the state the Get left, the same whatever Repository.Update would do, so Repository.Update
is not invoked; over the PostgreSQL repository the rows are those before the call. -/
theorem failed_update_leaves_store {σ : Type} (s : SubscriptionService σ) (id : UUID)
    (req : UpdateSubscriptionRequest) (w w1 : σ) (stored : Subscription)
    (hget : s.repo.Get id w = (.ok stored, w1))
    (hfail : (req.StartDate ≠ "" ∧ ∃ e, ParseMonthYear req.StartDate = .error e) ∨
       (∃ E e, req.EndDate = some E ∧ E ≠ "" ∧ ParseMonthYear E = .error e) ∨
       (∃ E t eff, req.EndDate = some E ∧ E ≠ "" ∧ ParseMonthYear E = .ok t ∧
          ((req.StartDate = "" ∧ eff = stored.StartDate) ∨
            (req.StartDate ≠ "" ∧ ParseMonthYear req.StartDate = .ok eff)) ∧
          t.Before eff = true)) :
    ∃ err, applyUpdate stored req = .error err ∧
      s.Update id req w = (.error err, w1) ∧
      (∀ u, (NewSubscriptionService { s.repo with Update := u }).Update id req w
        = (.error err, w1)) ∧
      (∀ (pw pw1 : World) (pid : UUID),
        SubscriptionRepository.Get pid pw = (.ok stored, pw1) →
        (service.Update pid req pw).1 = .error err ∧
        (service.Update pid req pw).2.rows = pw.rows) := by
  obtain ⟨err, herr⟩ := (applyUpdate_error_iff stored req).2 hfail
  refine ⟨err, herr, ?_, ?_, ?_⟩
  · rw [serviceUpdate_of_get s id req w w1 stored hget, herr]
  · intro u
    simp only [SubscriptionService.Update, NewSubscriptionService, hget, herr]
  · intro pw pw1 pid hg
    have hw : pw1 = pw.sent := by
      have := repoGet_world pid pw
      rw [hg] at this
      exact this
    have hu : service.Update pid req pw = (.error err, pw1) := by
      rw [serviceUpdate_of_get service pid req pw pw1 stored hg, herr]
    rw [hu, hw]
    exact ⟨rfl, rfl⟩

/-- C27 on the store of A and B: an update of B that raises the price and sets an end date
before the start date fails, and both rows are as before. -/
theorem failed_update_leaves_store_witness :
    ∃ err, applyUpdate subB ⟨"", some 999, "", some "01-2023"⟩ = .error err ∧
      service.Update 2 ⟨"", some 999, "", some "01-2023"⟩ worldAB
        = (.error err, worldAB.sent) ∧
      (∀ u, (NewSubscriptionService { service.repo with Update := u }).Update 2
          ⟨"", some 999, "", some "01-2023"⟩ worldAB = (.error err, worldAB.sent)) ∧
      (∀ (pw pw1 : World) (pid : UUID),
        SubscriptionRepository.Get pid pw = (.ok subB, pw1) →
        (service.Update pid ⟨"", some 999, "", some "01-2023"⟩ pw).1 = .error err ∧
        (service.Update pid ⟨"", some 999, "", some "01-2023"⟩ pw).2.rows = pw.rows) :=
  failed_update_leaves_store service 2 ⟨"", some 999, "", some "01-2023"⟩ worldAB
    worldAB.sent subB rfl
    (.inr (.inr ⟨"01-2023", monthStart 2023 1, monthStart 2023 6, rfl, by decide, by decide,
      .inl ⟨rfl, rfl⟩, by decide⟩))

/-- When the PostgreSQL Get returns an entity: the driver answered and the entity is the
first row with that id. -/
theorem repoGet_ok_iff (id : UUID) (w w1 : World) (sub : Subscription) :
    SubscriptionRepository.Get id w = (.ok sub, w1) ↔
      (w.fault = none ∧ w.rows.find? (fun r => r.ID == id) = some sub ∧ w1 = w.sent) := by
  unfold SubscriptionRepository.Get
  dsimp only
  rcases hf : w.fault with _ | err
  · rcases hfind : w.rows.find? (fun r => r.ID == id) with _ | r
    · simp [hfind, sqlErrNoRows, GoError.Error]
    · simp only [hfind]
      constructor
      · intro h
        cases h
        exact ⟨trivial, rfl, rfl⟩
      · rintro ⟨_, h1, h2⟩
        cases h1
        subst h2
        rfl
  · simp only [reduceCtorEq, false_and, iff_false]
    split <;> simp

/-- When the PostgreSQL Update reports no error: the driver answered, a row had the id, the
entity carries the current reading and the rows with that id are rewritten. -/
theorem repoUpdate_ok_iff (sub result : Subscription) (w w2 : World) :
    SubscriptionRepository.Update sub w = ((result, none), w2) ↔
      (w.tick.fault = none ∧ w.rowsAffectedErr = none ∧
        (w.rows.filter (fun r => r.ID == sub.ID)).length ≠ 0 ∧
        result = { sub with UpdatedAt := w.now } ∧
        w2 = { w.tick.sent with rows := w.rows.map (updateRow { sub with UpdatedAt := w.now }) }) := by
  unfold SubscriptionRepository.Update
  dsimp only
  rcases hf : w.tick.fault with _ | err
  · rcases hra : w.rowsAffectedErr with _ | msg
    · by_cases hz : (w.rows.filter (fun r => r.ID == sub.ID)).length = 0
      · simp [World.tick, World.sent, hra, hz]
      · simp [World.tick, World.sent, hra, hz, eq_comm]
    · simp [World.tick, World.sent, hra]
  · simp

/-- The statement of Update keeps every id, so the first row with a given id stays the
first. -/
theorem find_updateRow (rows : List Subscription) (sub : Subscription) (id : UUID) :
    (rows.map (updateRow sub)).find? (fun r => r.ID == id)
      = (rows.find? (fun r => r.ID == id)).map (updateRow sub) := by
  have hid : ∀ r, (updateRow sub r).ID = r.ID := by
    intro r
    unfold updateRow
    split <;> rfl
  induction rows with
  | nil => rfl
  | cons r more ih =>
    simp only [List.map_cons, List.find?_cons, hid]
    split
    · rfl
    · exact ih

/-- C28. Service.Update is idempotent on the business fields: when Update succeeds over the
PostgreSQL repository and the driver answers the two round trips of a second call, the same
request applied again to the resulting store finds the entity just returned, changes none of
its fields in the field-by-field part, and succeeds with the same id, serviceName, price,
userId, startDate, endDate and createdAt; updatedAt is the new clock reading. -/
theorem update_twice_keeps_business_fields (w w2 : World) (id : UUID)
    (req : UpdateSubscriptionRequest) (r1 : Subscription)
    (h1 : service.Update id req w = (.ok r1, w2))
    (hd1 : w2.fault = none) (hd2 : w2.sent.fault = none) :
    SubscriptionRepository.Get id w2 = (.ok r1, w2.sent) ∧
    applyUpdate r1 req = .ok r1 ∧
    ∃ r2 w3, service.Update id req w2 = (.ok r2, w3) ∧
      r2.ID = r1.ID ∧ r2.ServiceName = r1.ServiceName ∧ r2.Price = r1.Price ∧
      r2.UserID = r1.UserID ∧ r2.StartDate = r1.StartDate ∧ r2.EndDate = r1.EndDate ∧
      r2.CreatedAt = r1.CreatedAt ∧ r2.UpdatedAt = w2.now := by
  rcases hg : SubscriptionRepository.Get id w with ⟨_ | stored, wg⟩
  · have hg2 : service.repo.Get id w = (.error _, wg) := hg
    simp [SubscriptionService.Update, hg2] at h1
  · obtain ⟨handed, ha, hu⟩ := serviceUpdate_ok service id req w wg w2 stored r1 hg h1
    obtain ⟨hf, hfind, hwg⟩ := (repoGet_ok_iff id w wg stored).1 hg
    obtain ⟨huf, hra, hlen, hr1, hw2⟩ := (repoUpdate_ok_iff handed r1 wg w2).1 hu
    obtain ⟨_, _, _, _, hid, huid, hca, _⟩ := applyUpdate_frame stored handed req ha
    have hidem : applyUpdate r1 req = .ok r1 := by
      rw [hr1]
      exact applyUpdate_idem stored handed req _ ha
    have hrow : updateRow r1 stored = r1 := by
      rw [hr1]
      rcases handed with ⟨a1, a2, a3, a4, a5, a6, a7, a8⟩
      rcases stored with ⟨b1, b2, b3, b4, b5, b6, b7, b8⟩
      simp only at hid huid hca
      subst hid huid hca
      simp [updateRow]
    have hfind2 : w2.rows.find? (fun r => r.ID == id) = some r1 := by
      rw [hw2, ← hr1]
      show (wg.rows.map (updateRow r1)).find? (fun r => r.ID == id) = some r1
      rw [find_updateRow, hwg]
      show Option.map (updateRow r1) (w.rows.find? (fun r => r.ID == id)) = some r1
      rw [hfind, Option.map_some', hrow]
    have hg2 : SubscriptionRepository.Get id w2 = (.ok r1, w2.sent) :=
      (repoGet_ok_iff id w2 w2.sent r1).2 ⟨hd1, hfind2, rfl⟩
    have hra2 : w2.sent.rowsAffectedErr = none := by
      rw [hw2]
      exact hra
    have hlen2 : (w2.sent.rows.filter (fun r => r.ID == r1.ID)).length ≠ 0 := by
      have hmem : r1 ∈ w2.sent.rows.filter (fun r => r.ID == r1.ID) := by
        rw [List.mem_filter]
        exact ⟨List.mem_of_find?_eq_some hfind2, by simp⟩
      intro h0
      rw [List.length_eq_zero] at h0
      rw [h0] at hmem
      exact absurd hmem (List.not_mem_nil _)
    have hu2 := (repoUpdate_ok_iff r1 { r1 with UpdatedAt := w2.sent.now } w2.sent
      { w2.sent.tick.sent with
        rows := w2.sent.rows.map (updateRow { r1 with UpdatedAt := w2.sent.now }) }).2
      ⟨hd2, hra2, hlen2, rfl, rfl⟩
    refine ⟨hg2, hidem, { r1 with UpdatedAt := w2.sent.now },
      { w2.sent.tick.sent with
        rows := w2.sent.rows.map (updateRow { r1 with UpdatedAt := w2.sent.now }) },
      ?_, rfl, rfl, rfl, rfl, rfl, rfl, rfl, rfl⟩
    rw [serviceUpdate_of_get service id req w2 w2.sent r1 hg2, hidem]
    exact (persistUpdate_ok service r1 _ w2.sent _).2 hu2

/-- C28 on the store of A and B: raising the price of B to 250 twice gives the same entity
but for its updatedAt. -/
theorem update_twice_keeps_business_fields_witness :
    SubscriptionRepository.Get 2 (service.Update 2 ⟨"", some 250, "", none⟩ worldAB).2
      = (.ok { subB with Price := 250, UpdatedAt := sampleClock 0 },
         (service.Update 2 ⟨"", some 250, "", none⟩ worldAB).2.sent) ∧
    applyUpdate { subB with Price := 250, UpdatedAt := sampleClock 0 }
        ⟨"", some 250, "", none⟩
      = .ok { subB with Price := 250, UpdatedAt := sampleClock 0 } ∧
    ∃ r2 w3, service.Update 2 ⟨"", some 250, "", none⟩
        (service.Update 2 ⟨"", some 250, "", none⟩ worldAB).2 = (.ok r2, w3) ∧
      r2.ID = 2 ∧ r2.ServiceName = "Netflix" ∧ r2.Price = 250 ∧
      r2.UserID = 7 ∧ r2.StartDate = monthStart 2023 6 ∧
      r2.EndDate = some (monthStart 2023 12) ∧
      r2.CreatedAt = subB.CreatedAt ∧ r2.UpdatedAt = sampleClock 1 :=
  update_twice_keeps_business_fields worldAB
    (service.Update 2 ⟨"", some 250, "", none⟩ worldAB).2 2 ⟨"", some 250, "", none⟩
    { subB with Price := 250, UpdatedAt := sampleClock 0 } rfl rfl rfl

/-! ## The seed generator -/

theorem norm_of_range (hi lo base : Int) (h0 : 0 ≤ lo) (h1 : lo < base) :
    norm hi lo base = (hi, lo) := by
  unfold norm
  simp [not_lt.2 h0, not_le.2 h1]

theorem norm_twelve (hi lo : Int) : norm hi lo 12 = (hi + lo / 12, lo % 12) := by
  unfold norm
  dsimp only
  split_ifs <;> simp only [Prod.mk.injEq, true_and] at * <;> omega

theorem absYear_spec (d : Int) :
    daysSinceEpoch (absYear d).1 + (absYear d).2 = d ∧ 0 ≤ (absYear d).2 ∧
    (absYear d).2 ≤ 365 ∧ ((absYear d).2 = 365 → isLeap (absYear d).1 = true) := by
  simp only [absYear, daysSinceEpoch, isLeap]
  simp only [Bool.and_eq_true, Bool.or_eq_true, beq_iff_eq, bne_iff_ne, ne_eq, add_sub_cancel_right]
  generalize hb : d / 146097 = b
  generalize hc : (d - 146097 * b) / 36524 = c
  generalize hc' : c - c / 4 = c'
  generalize hf : (d - 146097 * b - 36524 * c') / 1461 = f
  generalize hg : (d - 146097 * b - 36524 * c' - 1461 * f) / 365 = g
  generalize hg' : g - g / 4 = g'
  have h1 : 0 ≤ d - 146097 * b ∧ d - 146097 * b ≤ 146096 := by omega
  have h2 : 0 ≤ c ∧ c ≤ 4 := by omega
  have h3 : 0 ≤ c' ∧ c' ≤ 3 ∧ (c ≤ 3 → c' = c) ∧ (c = 4 → c' = 3) := by omega
  have h4 : 0 ≤ d - 146097 * b - 36524 * c' ∧ d - 146097 * b - 36524 * c' ≤ 36524 := by omega
  have h5 : 0 ≤ f ∧ f ≤ 24 := by omega
  have h6 : 0 ≤ d - 146097 * b - 36524 * c' - 1461 * f ∧
      d - 146097 * b - 36524 * c' - 1461 * f ≤ 1460 := by omega
  have h7 : 0 ≤ g ∧ g ≤ 4 := by omega
  have h8 : 0 ≤ g' ∧ g' ≤ 3 ∧ (g ≤ 3 → g' = g) ∧ (g = 4 → g' = 3) := by omega
  generalize hY : 400 * b + 100 * c' + 4 * f + g' = Y
  have hY4 : Y / 4 = 100 * b + 25 * c' + f := by omega
  have hY100 : Y / 100 = 4 * b + c' := by omega
  have hY400 : Y / 400 = b := by omega
  refine ⟨by omega, by omega, by omega, ?_⟩
  intro h365
  have hg4 : g = 4 := by omega
  refine ⟨by omega, ?_⟩
  by_cases hf24 : f = 24
  · right
    have : c = 4 := by omega
    omega
  · left
    omega

theorem daysSinceEpoch_succ (y : Int) :
    daysSinceEpoch (y + 1) = daysSinceEpoch y + 365 + (if isLeap y = true then 1 else 0) := by
  simp only [daysSinceEpoch, isLeap, Bool.and_eq_true, Bool.or_eq_true, beq_iff_eq, bne_iff_ne,
    ne_eq, add_sub_cancel_right]
  split <;> omega

theorem daysSinceEpoch_mono (y1 y2 : Int) (h : y1 ≤ y2) :
    daysSinceEpoch y1 ≤ daysSinceEpoch y2 := by
  unfold daysSinceEpoch
  omega

/-- The year and the day of the year of a day are what absYear finds. -/
theorem absYear_of (y k : Int) (h0 : 0 ≤ k)
    (h1 : k ≤ 364 ∨ (k = 365 ∧ isLeap y = true)) :
    absYear (daysSinceEpoch y + k) = (y, k) := by
  obtain ⟨e1, e2, e3, e4⟩ := absYear_spec (daysSinceEpoch y + k)
  generalize absYear (daysSinceEpoch y + k) = p at e1 e2 e3 e4
  obtain ⟨Y, yd⟩ := p
  simp only at e1 e2 e3 e4
  have hY : Y = y := by
    rcases lt_trichotomy Y y with hlt | heq | hgt
    · exfalso
      have m := daysSinceEpoch_mono (Y + 1) y (by omega)
      have s := daysSinceEpoch_succ Y
      by_cases hl : isLeap Y = true
      · simp only [hl, if_true] at s
        omega
      · simp only [hl] at s
        have : yd ≠ 365 := fun h => hl (e4 h)
        simp at s
        omega
    · exact heq
    · exfalso
      have m := daysSinceEpoch_mono (y + 1) Y (by omega)
      have s := daysSinceEpoch_succ y
      rcases h1 with h1 | ⟨h1, hl⟩
      · split at s <;> omega
      · simp only [hl, if_true] at s
        omega
  subst hY
  have : yd = k := by omega
  subst this
  rfl

/-- The month and the day that monthDay finds are those of the day of the year. -/
theorem monthDay_spec (leap : Bool) (yday : Int) (h0 : 0 ≤ yday)
    (h1 : yday ≤ 364 ∨ (yday = 365 ∧ leap = true)) :
    1 ≤ (monthDay leap yday).1 ∧ (monthDay leap yday).1 ≤ 12 ∧ 1 ≤ (monthDay leap yday).2 ∧
    daysBefore (monthDay leap yday).1
      + (if leap && decide (3 ≤ (monthDay leap yday).1) then 1 else 0)
      + (((monthDay leap yday).2 : Int) - 1) = yday := by
  have key : ∀ day : Int, 0 ≤ day → day ≤ 364 →
      1 ≤ (day / 31).toNat + 1 ∧
      (if day ≥ daysBefore ((day / 31).toNat + 2)
        then (day / 31).toNat + 2 ≤ 12 ∧
          daysBefore ((day / 31).toNat + 2) + (day - daysBefore ((day / 31).toNat + 2) + 1 - 1)
            = day ∧ 0 ≤ day - daysBefore ((day / 31).toNat + 2) ∧
          (day ≥ 59 → 3 ≤ (day / 31).toNat + 2) ∧ (day < 59 → (day / 31).toNat + 2 < 3)
        else
          daysBefore ((day / 31).toNat + 1) + (day - daysBefore ((day / 31).toNat + 1) + 1 - 1)
            = day ∧ 0 ≤ day - daysBefore ((day / 31).toNat + 1) ∧
          (day ≥ 59 → 3 ≤ (day / 31).toNat + 1) ∧ (day < 59 → (day / 31).toNat + 1 < 3)) := by
    intro day hd0 hd1
    have hm : (day / 31).toNat ≤ 11 := by omega
    have hq : day / 31 = ((day / 31).toNat : Int) := by omega
    generalize (day / 31).toNat = m0 at hm hq
    interval_cases m0 <;> simp only [daysBefore] <;> split <;> omega
  rcases leap with _ | _
  · have hy : yday ≤ 364 := by
      rcases h1 with h | ⟨_, h⟩
      · exact h
      · cases h
    have k := key yday h0 hy
    simp only [monthDay, Bool.false_and, Bool.false_eq_true, if_false]
    split_ifs at k ⊢ <;> simp only [] <;> omega
  · by_cases h59 : yday = 59
    · subst h59
      decide
    · by_cases hgt : yday > 59
      · have k := key (yday - 1) (by omega) (by omega)
        have e1 : (yday == 59) = false := by simpa using h59
        simp only [monthDay, Bool.true_and, e1, Bool.false_eq_true, if_false, hgt,
          decide_True, if_true, decide_eq_true_eq]
        split_ifs at k ⊢ <;> simp only [] <;> omega
      · have k := key yday h0 (by omega)
        have e1 : (yday == 59) = false := by simpa using h59
        simp only [monthDay, Bool.true_and, e1, Bool.false_eq_true, if_false, hgt,
          decide_False, decide_eq_true_eq]
        split_ifs at k ⊢ <;> simp only [] <;> omega

/-- On the first day of a month, monthDay finds that month. -/
theorem monthDay_first (y : Int) (m : Nat) (h1 : 1 ≤ m) (h2 : m ≤ 12) :
    monthDay (isLeap y) (monthOffset y m) = (m, 1) := by
  unfold monthOffset
  interval_cases m <;> cases isLeap y <;> decide

theorem norm_sixty (hi lo : Int) : norm hi lo 60 = (hi + lo / 60, lo % 60) := by
  unfold norm
  dsimp only
  split_ifs <;> simp only [Prod.mk.injEq, true_and] at * <;> omega

theorem norm_day (hi lo : Int) : norm hi lo 24 = (hi + lo / 24, lo % 24) := by
  unfold norm
  dsimp only
  split_ifs <;> simp only [Prod.mk.injEq, true_and] at * <;> omega

theorem norm_nano (hi lo : Int) :
    norm hi lo 1000000000 = (hi + lo / 1000000000, lo % 1000000000) := by
  unfold norm
  dsimp only
  split_ifs <;> simp only [Prod.mk.injEq, true_and] at * <;> omega

/-- The civil fields Time.ofAbs gives denote the instant they were computed from. -/
theorem ofAbs_sec (a : Int) (n : Nat) :
    (Time.ofAbs a n).sec = a ∧ (Time.ofAbs a n).nsec = n ∧
    1 ≤ (Time.ofAbs a n).month ∧ (Time.ofAbs a n).month ≤ 12 := by
  obtain ⟨e1, e2, e3, e4⟩ := absYear_spec (a / 86400)
  have hm := monthDay_spec (isLeap (absYear (a / 86400)).1) (absYear (a / 86400)).2 e2
    (by
      by_cases h : (absYear (a / 86400)).2 = 365
      · exact .inr ⟨h, e4 h⟩
      · left
        omega)
  obtain ⟨m1, m2, m3, m4⟩ := hm
  refine ⟨?_, rfl, m1, m2⟩
  simp only [Time.sec, Time.days, Time.ofAbs]
  have c1 : ((a % 86400 / 3600).toNat : Int) = a % 86400 / 3600 := by omega
  have c2 : ((a % 86400 % 3600 / 60).toNat : Int) = a % 86400 % 3600 / 60 := by omega
  have c3 : ((a % 86400 % 60).toNat : Int) = a % 86400 % 60 := by omega
  rw [c1, c2, c3]
  omega

/-- The first day of a month at midnight, as time.Date gives it for any month number. -/
theorem timeDate_monthStart (y m : Int) :
    timeDate y m 1 0 0 0 0 = monthStart (y + (m - 1) / 12) ((m - 1) % 12 + 1).toNat := by
  have hr : 1 ≤ ((m - 1) % 12 + 1).toNat ∧ ((m - 1) % 12 + 1).toNat ≤ 12 := by omega
  have hb := monthOffset_bounds (y + (m - 1) / 12) _ hr.1 hr.2
  have n1 : norm 0 0 1000000000 = (0, 0) := by decide
  have n2 : norm 0 0 60 = (0, 0) := by decide
  have n3 : norm 1 0 24 = (1, 0) := by decide
  simp only [timeDate, norm_twelve, n1, n2, n3, Time.ofAbs]
  have hd : ((daysSinceEpoch (y + (m - 1) / 12) +
      monthOffset (y + (m - 1) / 12) ((m - 1) % 12 + 1).toNat + (1 - 1)) * 86400
        + 0 * 3600 + 0 * 60 + 0) / 86400
      = daysSinceEpoch (y + (m - 1) / 12)
        + monthOffset (y + (m - 1) / 12) ((m - 1) % 12 + 1).toNat := by omega
  have hrem : ((daysSinceEpoch (y + (m - 1) / 12) +
      monthOffset (y + (m - 1) / 12) ((m - 1) % 12 + 1).toNat + (1 - 1)) * 86400
        + 0 * 3600 + 0 * 60 + 0) % 86400 = 0 := by omega
  rw [hd, hrem, absYear_of _ _ hb.1 (.inl (by omega))]
  simp only [monthDay_first _ _ hr.1 hr.2]
  rfl

/-- Every listed service has a price range starting at 1 or more. -/
theorem dockerServices_prices :
    ∀ svc ∈ dockerServices, 1 ≤ svc.MinPrice ∧ svc.MinPrice ≤ svc.MaxPrice := by
  decide

/-- The instant of time.Date for a month in 1..12 and fields that are not negative. -/
theorem timeDate_sec (y : Int) (m d h mi s ns : Nat) (h1 : 1 ≤ m) (h2 : m ≤ 12)
    (hns : ns < 1000000000) :
    (timeDate y m d h mi s ns).sec
      = (daysSinceEpoch y + monthOffset y m + ((d : Int) - 1)) * 86400 + (h : Int) * 3600
        + (mi : Int) * 60 + (s : Int) := by
  have e1 : (m : Int) - 1 + 1 = m := by omega
  have q1 : ((m : Int) - 1) / 12 = 0 := by omega
  have q2 : ((m : Int) - 1) % 12 = (m : Int) - 1 := by omega
  have q3 : (ns : Int) / 1000000000 = 0 := by omega
  simp only [timeDate, norm_twelve, norm_sixty, norm_day, norm_nano, (ofAbs_sec _ _).1, q1, q2,
    q3, e1, Int.toNat_ofNat, add_zero]
  omega

/-- Two years span at least 730 days. -/
theorem daysSinceEpoch_two (y : Int) : daysSinceEpoch (y - 2) + 730 ≤ daysSinceEpoch y := by
  unfold daysSinceEpoch
  omega

/-- The start date is drawn whenever the clock reading has a month in 1..12 and fewer than
a billion nanoseconds. -/
theorem startDate_total (r : SeedDraws) (h1 : 1 ≤ r.startNow.month)
    (h2 : r.startNow.month ≤ 12) (hns : r.startNow.nsec < 1000000000) :
    (dockerGenerateRandomStartDate r).isSome = true := by
  have hmin := timeDate_sec (r.startNow.year + -2) r.startNow.month r.startNow.day
    r.startNow.hour r.startNow.minute r.startNow.second r.startNow.nsec h1 h2 hns
  have hnow : r.startNow.sec
      = (daysSinceEpoch r.startNow.year + monthOffset r.startNow.year r.startNow.month
          + ((r.startNow.day : Int) - 1)) * 86400 + (r.startNow.hour : Int) * 3600
        + (r.startNow.minute : Int) * 60 + (r.startNow.second : Int) := by
    simp only [Time.sec, Time.days, monthOffset]
    ring
  have hy := daysSinceEpoch_two r.startNow.year
  have o1 : monthOffset r.startNow.year r.startNow.month
      ≥ daysBefore r.startNow.month := by
    unfold monthOffset
    split <;> omega
  have o2 : monthOffset (r.startNow.year + -2) r.startNow.month
      ≤ daysBefore r.startNow.month + 1 := by
    unfold monthOffset
    split <;> omega
  have e : r.startNow.year + -2 = r.startNow.year - 2 := by ring
  rw [e] at hmin o2
  have hdiff : ¬ (r.startNow.Unix - (r.startNow.AddDate (-2) 0 0).Unix ≤ 0) := by
    simp only [Time.Unix, Time.AddDate, Nat.cast_ofNat, add_zero, Int.reduceNeg]
    have e3 : r.startNow.year + -2 = r.startNow.year - 2 := by ring
    rw [e3, hmin, hnow]
    omega
  simp only [dockerGenerateRandomStartDate, hdiff, if_false, Option.isSome_some]

/-- A start date that is drawn is the first day of a month at midnight. -/
theorem startDate_shape (r : SeedDraws) (t : Time)
    (h : dockerGenerateRandomStartDate r = some t) :
    ∃ y m, 1 ≤ m ∧ m ≤ 12 ∧ t = monthStart y m := by
  unfold dockerGenerateRandomStartDate at h
  dsimp only at h
  split at h
  · cases h
  · simp only [Option.some.injEq] at h
    rw [timeDate_monthStart] at h
    exact ⟨_, _, by omega, by omega, h.symm⟩

/-- An end date drawn for a first-of-month start is the first of a month 1 to 24 months
later. -/
theorem endDate_shape (r : SeedDraws) (y : Int) (m : Nat) (h1 : 1 ≤ m) (h2 : m ≤ 12) :
    dockerGenerateRandomEndDate r (monthStart y m) = none ∨
    ∃ (k : Int) (y2 : Int) (m2 : Nat), 1 ≤ k ∧ k ≤ 24 ∧ 1 ≤ m2 ∧ m2 ≤ 12 ∧
      dockerGenerateRandomEndDate r (monthStart y m) = some (monthStart y2 m2) ∧
      12 * y2 + m2 = 12 * y + m + k ∧
      (monthStart y2 m2).Before (monthStart y m) = false := by
  unfold dockerGenerateRandomEndDate
  dsimp only
  split
  · exact .inl rfl
  · split
    · exact .inl rfl
    · right
      have hd : (monthStart y m).AddDate 0 (((r.monthsDraw % 24 : Nat) : Int) + 1) 0
          = monthStart (y + (((m : Int) + (((r.monthsDraw % 24 : Nat) : Int) + 1)) - 1) / 12)
              ((((m : Int) + (((r.monthsDraw % 24 : Nat) : Int) + 1)) - 1) % 12 + 1).toNat := by
        simp only [Time.AddDate, monthStart, add_zero, Nat.cast_one, Nat.cast_zero]
        exact timeDate_monthStart _ _
      rw [hd]
      refine ⟨((r.monthsDraw % 24 : Nat) : Int) + 1, _, _, by omega, by omega, by omega,
        by omega, rfl, by omega, ?_⟩
      rw [Bool.eq_false_iff]
      intro hb
      rw [monthStart_before_iff _ _ _ _ (by omega) (by omega) h1 h2] at hb
      omega

/-- C30. Every subscription produced by dockerGenerateRandomSubscription satisfies the entity
invariants, whatever the random source, the clock and the UUID generator give: its service is
one of the table and its price lies within that service's range from MinPrice to MaxPrice,
hence is at least 1; its startDate is day 1 of a month at midnight UTC; its endDate is absent
or is day 1 of the month k months after the start for some k from 1 to 24, and is not before
the start; createdAt equals updatedAt. A subscription is produced whenever the clock reading
taken for the start date has a month from 1 to 12 and fewer than a billion nanoseconds. -/
theorem seed_subscription_satisfies_invariants (r : SeedDraws) :
    (∀ sub, dockerGenerateRandomSubscription r = some sub →
      (∃ svc, svc ∈ dockerServices ∧ sub.ServiceName = svc.Name ∧
        svc.MinPrice ≤ sub.Price ∧ sub.Price ≤ svc.MaxPrice) ∧
      1 ≤ sub.Price ∧
      (∃ (y : Int) (m : Nat), 1 ≤ m ∧ m ≤ 12 ∧ sub.StartDate = monthStart y m ∧
        (sub.EndDate = none ∨
          ∃ (k : Int) (y2 : Int) (m2 : Nat), 1 ≤ k ∧ k ≤ 24 ∧ 1 ≤ m2 ∧ m2 ≤ 12 ∧
            sub.EndDate = some (monthStart y2 m2) ∧ 12 * y2 + m2 = 12 * y + m + k ∧
            (monthStart y2 m2).Before sub.StartDate = false)) ∧
      sub.CreatedAt = sub.UpdatedAt ∧ sub.UserID ∈ dockerUsers) ∧
    (1 ≤ r.startNow.month → r.startNow.month ≤ 12 → r.startNow.nsec < 1000000000 →
      (dockerGenerateRandomSubscription r).isSome = true) := by
  constructor
  · intro sub h
    unfold dockerGenerateRandomSubscription at h
    dsimp only at h
    rcases hs : dockerGenerateRandomStartDate r with _ | startDate
    · simp only [hs] at h
      cases h
    · simp only [hs, Option.some.injEq] at h
      subst h
      obtain ⟨y, m, h1, h2, rfl⟩ := startDate_shape r startDate hs
      have hmem := List.get_mem dockerServices (r.serviceDraw % dockerServices.length)
        (Nat.mod_lt _ (by decide))
      obtain ⟨p1, p2⟩ := dockerServices_prices _ hmem
      have hprice : (dockerServices.get ⟨r.serviceDraw % dockerServices.length,
            Nat.mod_lt _ (by decide)⟩).MinPrice
          ≤ (if (dockerServices.get ⟨r.serviceDraw % dockerServices.length,
                Nat.mod_lt _ (by decide)⟩).MaxPrice
              > (dockerServices.get ⟨r.serviceDraw % dockerServices.length,
                Nat.mod_lt _ (by decide)⟩).MinPrice
            then (dockerServices.get ⟨r.serviceDraw % dockerServices.length,
                Nat.mod_lt _ (by decide)⟩).MinPrice
              + (r.priceDraw : Int) % ((dockerServices.get
                  ⟨r.serviceDraw % dockerServices.length, Nat.mod_lt _ (by decide)⟩).MaxPrice
                - (dockerServices.get ⟨r.serviceDraw % dockerServices.length,
                  Nat.mod_lt _ (by decide)⟩).MinPrice + 1)
            else (dockerServices.get ⟨r.serviceDraw % dockerServices.length,
                Nat.mod_lt _ (by decide)⟩).MinPrice) ∧
          (if (dockerServices.get ⟨r.serviceDraw % dockerServices.length,
                Nat.mod_lt _ (by decide)⟩).MaxPrice
              > (dockerServices.get ⟨r.serviceDraw % dockerServices.length,
                Nat.mod_lt _ (by decide)⟩).MinPrice
            then (dockerServices.get ⟨r.serviceDraw % dockerServices.length,
                Nat.mod_lt _ (by decide)⟩).MinPrice
              + (r.priceDraw : Int) % ((dockerServices.get
                  ⟨r.serviceDraw % dockerServices.length, Nat.mod_lt _ (by decide)⟩).MaxPrice
                - (dockerServices.get ⟨r.serviceDraw % dockerServices.length,
                  Nat.mod_lt _ (by decide)⟩).MinPrice + 1)
            else (dockerServices.get ⟨r.serviceDraw % dockerServices.length,
                Nat.mod_lt _ (by decide)⟩).MinPrice)
          ≤ (dockerServices.get ⟨r.serviceDraw % dockerServices.length,
                Nat.mod_lt _ (by decide)⟩).MaxPrice := by
        generalize dockerServices.get ⟨r.serviceDraw % dockerServices.length,
          Nat.mod_lt _ (by decide)⟩ = svc at p1 p2
        split
        · rename_i hgt
          have hpos : 0 < svc.MaxPrice - svc.MinPrice + 1 := by omega
          have a1 := Int.emod_nonneg (r.priceDraw : Int) (ne_of_gt hpos)
          have a2 := Int.emod_lt_of_pos (r.priceDraw : Int) hpos
          omega
        · exact ⟨le_refl _, p2⟩
      refine ⟨⟨_, hmem, rfl, hprice.1, hprice.2⟩, le_trans p1 hprice.1,
        ⟨y, m, h1, h2, rfl, endDate_shape r y m h1 h2⟩, rfl, ?_⟩
      exact List.get_mem _ _ _
  · intro h1 h2 hns
    have ht := startDate_total r h1 h2 hns
    obtain ⟨t, hs⟩ := Option.isSome_iff_exists.1 ht
    unfold dockerGenerateRandomSubscription
    rw [hs]
    rfl

/-- C30 on sample draws: the service drawn is Yandex Plus (199 to 399) at price 227, from
September 2024 to February 2026, seventeen months later. -/
theorem seed_subscription_satisfies_invariants_witness :
    dockerGenerateRandomSubscription sampleDraws = some sampleSeeded ∧
    1 ≤ sampleSeeded.Price ∧ sampleSeeded.CreatedAt = sampleSeeded.UpdatedAt ∧
    (dockerGenerateRandomSubscription sampleDraws).isSome = true :=
  ⟨rfl,
   ((seed_subscription_satisfies_invariants sampleDraws).1 sampleSeeded rfl).2.1,
   ((seed_subscription_satisfies_invariants sampleDraws).1 sampleSeeded rfl).2.2.2.1,
   (seed_subscription_satisfies_invariants sampleDraws).2 (by decide) (by decide) (by decide)⟩

end Subs
